import Mathlib

/-!
# Large object transfer: a shallow embedding of `aws_iot_large_object_transfer.c`

The definitions below follow `lib/utils/large_object_transfer/aws_iot_large_object_transfer.c`
and `lib/include/aws_iot_large_object_transfer.h` function by function.

Conventions of the embedding.

* Bytes, `uint16_t` and `size_t` values are natural numbers. `size_t` has 32 bits, as on the
  microcontrollers the library targets: its arithmetic is taken modulo `2 ^ 32` (`sizeAdd`,
  `sizeSub`). `uint16_t` stores are taken modulo `2 ^ 16`, `uint8_t` stores modulo `2 ^ 8`.
  The product `usBlockNum * usBlockSize` of two `uint16_t` values is smaller than `2 ^ 32`
  and is kept as it is.
* A pointer into a byte region is the list of the bytes from the pointer onward. A read of
  `n` bytes (`memRead`) returns exactly `n` bytes; positions past the end of the modelled
  region, whose contents the source does not determine, read as `0`.
* A 16-bit store or load through a `uint16_t *` is little-endian, as on the targets the
  library is built for.
* The network's `send`, `AwsIotNetwork_Malloc` and `xTimerCreate` are not part of the
  sources; they are the fields of `Platform`. Timer start and stop always succeed (the source
  asserts it); the state of a timer is the boolean "active". The ID a timer is created with
  is a `TimerID`; the ACK timer is created with the address of a parameter of
  `prxInitSession`, so that its callback does not work on the session (`ackTimerExpiry`).
* The frames handed to the network's `send` and the invocations of the two user callbacks are
  recorded, in order, in `World`.
-/

namespace LOT

/-! ## Enumerations of `aws_iot_large_object_transfer.h` -/

/-- Session status, `AwsIotLargeObjectTransferStatus_t`. -/
inductive AwsIotLargeObjectTransferStatus where
  | eAwsIotLargeObjectTransferInit
  | eAwsIotLargeObjectTransferOpen
  | eAwsIotLargeObjectTransferResumable
  | eAwsIotLargeObjectTransferClosed
  deriving DecidableEq, Repr

/-- Error codes, `AwsIotLargeObjectTransferError_t`, in the order of the header. -/
inductive AwsIotLargeObjectTransferError where
  | AWS_IOT_LARGE_OBJECT_TRANSFER_SUCCESS
  | AWS_IOT_LARGE_OBJECT_TRANSFER_MAX_SESSIONS_REACHED
  | AWS_IOT_LARGE_OBJECT_TRANSFER_SESSION_NOT_FOUND
  | AWS_IOT_LARGE_OBJECT_TRANSFER_SESSION_ABORTED
  | AWS_IOT_LARGE_OBJECT_TRANSFER_SESSION_WRONG_WINDOW
  | AWS_IOT_LARGE_OBJECT_TRANSFER_INVALID_PACKET
  | AWS_IOT_LARGE_OBJECT_TRANSFER_NO_MEMORY
  | AWS_IOT_LARGE_OBJECT_TRANSFER_NETWORK_ERROR
  | AWS_IOT_LARGE_OBJECT_TRANSFER_EXPIRED
  | AWS_IOT_LARGE_OBJECT_TRANSFER_INVALID_PARAM
  | AWS_IOT_LARGE_OBJECT_TRANSFER_INTERNAL_ERROR
  deriving DecidableEq, Repr

/-- Session direction, `AwsIotLargeObjectSessionType_t`. -/
inductive AwsIotLargeObjectSessionType where
  | AWS_IOT_LARGE_OBJECT_SESSION_SEND
  | AWS_IOT_LARGE_OBJECT_SESSION_RECIEVE
  deriving DecidableEq, Repr

/-- Window colour, `AwsIotLargeObjectWindowType_t`. -/
inductive AwsIotLargeObjectWindowType where
  | AWS_IOT_LARGE_OBJECT_WINDOW_EVEN
  | AWS_IOT_LARGE_OBJECT_WINDOW_ODD
  deriving DecidableEq, Repr

open AwsIotLargeObjectTransferStatus AwsIotLargeObjectTransferError
open AwsIotLargeObjectSessionType AwsIotLargeObjectWindowType

/-- The integer value of an error code (C enumerators count from 0). -/
def AwsIotLargeObjectTransferError.code : AwsIotLargeObjectTransferError → Nat
  | AWS_IOT_LARGE_OBJECT_TRANSFER_SUCCESS => 0
  | AWS_IOT_LARGE_OBJECT_TRANSFER_MAX_SESSIONS_REACHED => 1
  | AWS_IOT_LARGE_OBJECT_TRANSFER_SESSION_NOT_FOUND => 2
  | AWS_IOT_LARGE_OBJECT_TRANSFER_SESSION_ABORTED => 3
  | AWS_IOT_LARGE_OBJECT_TRANSFER_SESSION_WRONG_WINDOW => 4
  | AWS_IOT_LARGE_OBJECT_TRANSFER_INVALID_PACKET => 5
  | AWS_IOT_LARGE_OBJECT_TRANSFER_NO_MEMORY => 6
  | AWS_IOT_LARGE_OBJECT_TRANSFER_NETWORK_ERROR => 7
  | AWS_IOT_LARGE_OBJECT_TRANSFER_EXPIRED => 8
  | AWS_IOT_LARGE_OBJECT_TRANSFER_INVALID_PARAM => 9
  | AWS_IOT_LARGE_OBJECT_TRANSFER_INTERNAL_ERROR => 10

/-! ## Machine integers and memory -/

/-- Number of values of `size_t`. -/
def SIZE_MOD : Nat := 2 ^ 32

/-- Addition of two `size_t` values. -/
def sizeAdd (a b : Nat) : Nat := (a + b) % SIZE_MOD

/-- Subtraction of two `size_t` values (both below `SIZE_MOD`); wraps when `a < b`. -/
def sizeSub (a b : Nat) : Nat := (a + SIZE_MOD - b) % SIZE_MOD

/-- Conversion to `uint16_t`. -/
def toU16 (a : Nat) : Nat := a % 65536

/-- Conversion to `uint8_t`. -/
def toU8 (a : Nat) : Nat := a % 256

/-- Read `n` bytes from the region `m`; positions past its end read as `0`. -/
def memRead (m : List Nat) (n : Nat) : List Nat :=
  m.take n ++ List.replicate (n - m.length) 0

/-- Write `data` at offset `off` of the region `m` (the `memcpy` destination). A write
that runs past the end of the region lands in the memory behind it, which the model
appends to the region. -/
def memWrite (m : List Nat) (off : Nat) (data : List Nat) : List Nat :=
  let m1 := m ++ List.replicate (off + data.length - m.length) 0
  m1.take off ++ data ++ m1.drop (off + data.length)

/-- The two bytes of a `uint16_t` store, low byte first. -/
def storeU16 (v : Nat) : List Nat := [v % 256, v / 256 % 256]

/-- A `uint16_t` load at byte offset `off` of the region `m`. -/
def loadU16 (m : List Nat) (off : Nat) : Nat :=
  m.getD off 0 % 256 + 256 * (m.getD (off + 1) 0 % 256)

/-! ## Macros of the source file -/

/-- Macro `_INVALID_SESSION_ID` -/
def _INVALID_SESSION_ID : Nat := 0

/-- Macro `_INCR_OFFSET( offset, windowSize, blockSize )` -/
def _INCR_OFFSET (offset windowSize blockSize : Nat) : Nat :=
  sizeAdd offset (windowSize * blockSize)

/-- Macro `_BITS_TO_BYTES_ROUNDUP( numBits )` -/
def _BITS_TO_BYTES_ROUNDUP (numBits : Nat) : Nat := sizeAdd numBits 7 >>> 3

/-- Macro `_BITMAP_LENGTH( windowSize )` -/
def _BITMAP_LENGTH (windowSize : Nat) : Nat := _BITS_TO_BYTES_ROUNDUP windowSize

/-- Constant `IOT_LARGE_OBJECT_TRANSFER_MAX_WINDOW_SIZE` -/
def IOT_LARGE_OBJECT_TRANSFER_MAX_WINDOW_SIZE : Nat := 32

/-- Constant `IOT_LARGE_OBJECT_TRANSFER_BITMAP_SIZE` -/
def IOT_LARGE_OBJECT_TRANSFER_BITMAP_SIZE : Nat :=
  (IOT_LARGE_OBJECT_TRANSFER_MAX_WINDOW_SIZE + 7) >>> 3

/-- Macro `_SESSION_ID_LENGTH` -/
def _SESSION_ID_LENGTH : Nat := 2

/-- Macro `_BLOCK_NUMBER_LENGTH` -/
def _BLOCK_NUMBER_LENGTH : Nat := 2

/-- Macro `_FLAGS_LENGTH` -/
def _FLAGS_LENGTH : Nat := 1

/-- Macro `_BLOCK_HEADER_LENGTH` -/
def _BLOCK_HEADER_LENGTH : Nat := _SESSION_ID_LENGTH + _FLAGS_LENGTH + _BLOCK_NUMBER_LENGTH

/-- Macro `_SESSION_ID( pucBlock )`, read. -/
def _SESSION_ID (pucBlock : List Nat) : Nat := loadU16 pucBlock 0

/-- Macro `_BLOCK_NUMBER( pucBlock )`, read. -/
def _BLOCK_NUMBER (pucBlock : List Nat) : Nat := loadU16 pucBlock _SESSION_ID_LENGTH

/-- Macro `_FLAGS( pucBlock )`, read. -/
def _FLAGS (pucBlock : List Nat) : Nat :=
  pucBlock.getD (_SESSION_ID_LENGTH + _BLOCK_NUMBER_LENGTH) 0

/-- Macro `_BLOCK_DATA( pucBlock )`: the pointer `pucBlock + _BLOCK_HEADER_LENGTH`. -/
def _BLOCK_DATA (pucBlock : List Nat) : List Nat := pucBlock.drop _BLOCK_HEADER_LENGTH

/-- Macro `_RESERVED_BITS_MASK` -/
def _RESERVED_BITS_MASK : Nat := 0xF8

/-- Macro `_FLAGS_INTIALIZER` -/
def _FLAGS_INTIALIZER : Nat := _RESERVED_BITS_MASK

/-- Macro `_LAST_BLOCK_MASK` -/
def _LAST_BLOCK_MASK : Nat := 0x1

/-- Macro `_RESUME_SESSION_MASK` -/
def _RESUME_SESSION_MASK : Nat := 0x2

/-- Macro `_ODD_WINDOW_MASK` -/
def _ODD_WINDOW_MASK : Nat := 0x4

/-- Macro `_MAX_BLOCK_DATA_LEN( usMTU )`, stored in a `uint16_t` field. -/
def _MAX_BLOCK_DATA_LEN (usMTU : Nat) : Nat := toU16 (usMTU + 65536 - _BLOCK_HEADER_LENGTH)

/-- Macro `_BLOCK_LENGTH( xDataLength )` -/
def _BLOCK_LENGTH (xDataLength : Nat) : Nat := sizeAdd xDataLength _BLOCK_HEADER_LENGTH

/-- Macro `_ACK_HEADER_LENGTH` -/
def _ACK_HEADER_LENGTH : Nat := 3

/-- Macro `_BITMAP_LEN( xACKLength )` -/
def _BITMAP_LEN (xACKLength : Nat) : Nat := sizeSub xACKLength _ACK_HEADER_LENGTH

/-- Macro `_ACK_LENGTH( xBitMapLength )` -/
def _ACK_LENGTH (xBitMapLength : Nat) : Nat := sizeAdd xBitMapLength _ACK_HEADER_LENGTH

/-- Macro `_MIN_ACK_LENGTH` -/
def _MIN_ACK_LENGTH : Nat := _ACK_HEADER_LENGTH

/-- Macro `_ERROR_CODE( pucACK )`, read. -/
def _ERROR_CODE (pucACK : List Nat) : Nat := pucACK.getD 2 0

/-- Macro `_BITMAP( pucACK )`: the pointer `pucACK + _ACK_HEADER_LENGTH`. -/
def _BITMAP (pucACK : List Nat) : List Nat := pucACK.drop _ACK_HEADER_LENGTH

/-- Macro `_SESSION_FREE( xState )`, as written in the source: a disjunction of two
inequalities. -/
def _SESSION_FREE (xState : AwsIotLargeObjectTransferStatus) : Bool :=
  decide (xState ≠ eAwsIotLargeObjectTransferOpen) ||
    decide (xState ≠ eAwsIotLargeObjectTransferResumable)

/-! ## Environment and session records -/

/-- The services the engine consumes that are not part of the sources. -/
structure Platform where
  /-- The network's `send`: given the frames handed to it so far and the frame handed
  now, the number of bytes it reports as sent. -/
  send : List (List Nat) → List Nat → Nat
  /-- Whether `AwsIotNetwork_Malloc` of the given size returns a non-null pointer. -/
  malloc : Nat → Bool
  /-- Whether `xTimerCreate` returns a non-null handle. -/
  xTimerCreate : Bool
  /-- The value of `sizeof( AwsIotLargeObjectSession_t )`. -/
  sizeofSession : Nat

/-- One invocation of the context's `xReceiveCallback`: the four arguments, the second
being the memory at `pucData`. -/
structure ReceiveCall where
  usSessionID : Nat
  pucData : List Nat
  xDataLength : Nat
  xMore : Bool
  deriving DecidableEq, Repr

/-- One invocation of the context's `xCompletionCallback`. -/
structure CompletionCall where
  xSessionType : AwsIotLargeObjectSessionType
  usSessionID : Nat
  xResult : AwsIotLargeObjectTransferError
  deriving DecidableEq, Repr

/-- What the engine has done to the outside so far. -/
structure World where
  /-- Frames handed to the network's `send`, oldest first. -/
  sent : List (List Nat)
  /-- Invocations of `xReceiveCallback`, oldest first. -/
  received : List ReceiveCall
  /-- Invocations of `xCompletionCallback`, oldest first. -/
  completed : List CompletionCall
  deriving DecidableEq, Repr

/-- The world in which nothing has happened yet. -/
def World.empty : World := { sent := [], received := [], completed := [] }

/-- Record `AwsIotLargeObjectTransferParams_t` -/
structure AwsIotLargeObjectTransferParams where
  usMTU : Nat
  windowSize : Nat
  timeoutMilliseconds : Nat
  numRetransmissions : Nat
  deriving DecidableEq, Repr

/-- Record `AwsIotLargeObjectSendSession_t`. `pucObject` is the memory at the object pointer,
`xRetransmitTimer` tells whether the timer is active. -/
structure AwsIotLargeObjectSendSession where
  usSessionID : Nat
  xState : AwsIotLargeObjectTransferStatus
  pucObject : List Nat
  xObjectLength : Nat
  xOffset : Nat
  usWindowSize : Nat
  usBlockSize : Nat
  xWindowType : AwsIotLargeObjectWindowType
  usRetriesLeft : Nat
  usNumRetries : Nat
  xRetransmitTimer : Bool
  deriving DecidableEq, Repr

/-- Record `AwsIotLargeObjectReceiveSession_t`. `pucBuffer` is the memory at the buffer pointer,
`xAckTimer` tells whether the timer is active. -/
structure AwsIotLargeObjectReceiveSession where
  usSessionID : Nat
  xState : AwsIotLargeObjectTransferStatus
  pucBuffer : List Nat
  xBufferLength : Nat
  xOffset : Nat
  usWindowSize : Nat
  usBlockSize : Nat
  usNumBlocksReceived : Nat
  usNumWindowBlocks : Nat
  xLastWindow : Bool
  ucBlockBitMap : List Nat
  xWindowType : AwsIotLargeObjectWindowType
  usRetriesLeft : Nat
  usNumRetries : Nat
  xAckTimer : Bool
  deriving DecidableEq, Repr

/-- Record `AwsIotLargeObjectTransferContext_t`: the parameters and the two session arrays
(`usNumSendSessions` and `usNumRecvSessions` are the lengths of the lists). -/
structure AwsIotLargeObjectTransferContext where
  xParameters : AwsIotLargeObjectTransferParams
  pxSendSessions : List AwsIotLargeObjectSendSession
  pxRecvSessions : List AwsIotLargeObjectReceiveSession
  deriving DecidableEq, Repr

/-- The window colour after the toggle
`( x == EVEN ) ? ODD : EVEN`. -/
def toggleWindow (x : AwsIotLargeObjectWindowType) : AwsIotLargeObjectWindowType :=
  if x = AWS_IOT_LARGE_OBJECT_WINDOW_EVEN then AWS_IOT_LARGE_OBJECT_WINDOW_ODD
  else AWS_IOT_LARGE_OBJECT_WINDOW_EVEN

/-! ## Functions of the source file -/

/-- Function `prvCloseSession` for `xType == AWS_IOT_LARGE_OBJECT_SESSION_SEND`. -/
def prvCloseSession_xSend (pxSession : AwsIotLargeObjectSendSession) (xResumable : Bool) :
    AwsIotLargeObjectSendSession :=
  let xState := if xResumable then eAwsIotLargeObjectTransferResumable
    else eAwsIotLargeObjectTransferClosed
  { pxSession with xState := xState, xRetransmitTimer := false }

/-- Function `prvCloseSession` for the other session type. -/
def prvCloseSession_xRecv (pxSession : AwsIotLargeObjectReceiveSession) (xResumable : Bool) :
    AwsIotLargeObjectReceiveSession :=
  let xState := if xResumable then eAwsIotLargeObjectTransferResumable
    else eAwsIotLargeObjectTransferClosed
  { pxSession with xState := xState, xAckTimer := false }

/-- Function `prxSendBlock`: builds a DATA frame and hands it to the network. -/
def prxSendBlock (p : Platform) (usSessionId usBlockNum : Nat) (xLastBlock xResume : Bool)
    (xWindowType : AwsIotLargeObjectWindowType) (pucBlockData : List Nat) (xDataLength : Nat)
    (w : World) : AwsIotLargeObjectTransferError × World :=
  let xBlockLength := _BLOCK_LENGTH xDataLength
  if p.malloc xBlockLength then
    let ucFlags := _FLAGS_INTIALIZER
    let ucFlags := if xLastBlock then ucFlags ||| _LAST_BLOCK_MASK else ucFlags
    let ucFlags := if xResume then ucFlags ||| _RESUME_SESSION_MASK else ucFlags
    let ucFlags := if xWindowType = AWS_IOT_LARGE_OBJECT_WINDOW_ODD
      then ucFlags ||| _ODD_WINDOW_MASK else ucFlags
    let pucBlock := (storeU16 usSessionId ++ storeU16 usBlockNum ++ [ucFlags]
      ++ memRead pucBlockData xDataLength).take xBlockLength
    let xSent := p.send w.sent pucBlock
    let w1 := { w with sent := w.sent ++ [pucBlock] }
    if xSent < xBlockLength then (AWS_IOT_LARGE_OBJECT_TRANSFER_NETWORK_ERROR, w1)
    else (AWS_IOT_LARGE_OBJECT_TRANSFER_SUCCESS, w1)
  else (AWS_IOT_LARGE_OBJECT_TRANSFER_NO_MEMORY, w)

/-- The `for` loop of `prxSendWindow`. The first number counts the iterations the test
`usBlockNum < usWindowSize` still admits; the loop is entered with it equal to
`usWindowSize` and with `usBlockNum = 0`. -/
def prxSendWindow.loop (p : Platform) (pxSession : AwsIotLargeObjectSendSession) :
    Nat → Nat → World → AwsIotLargeObjectTransferError × World
  | 0, _, w => (AWS_IOT_LARGE_OBJECT_TRANSFER_SUCCESS, w)
  | n + 1, usBlockNum, w =>
    let xBlockOffset := sizeAdd pxSession.xOffset (usBlockNum * pxSession.usBlockSize)
    let xLastBlock :=
      decide (sizeAdd xBlockOffset pxSession.usBlockSize ≥ pxSession.xObjectLength)
    let xBlockLength :=
      if xLastBlock then sizeSub pxSession.xObjectLength xBlockOffset
      else pxSession.usBlockSize
    let r := prxSendBlock p pxSession.usSessionID usBlockNum xLastBlock false
      pxSession.xWindowType (pxSession.pucObject.drop xBlockOffset) xBlockLength w
    if r.1 ≠ AWS_IOT_LARGE_OBJECT_TRANSFER_SUCCESS then r
    else if xLastBlock then r
    else prxSendWindow.loop p pxSession n (usBlockNum + 1) r.2

/-- Function `prxSendWindow`: transmits the blocks of the current window. -/
def prxSendWindow (p : Platform) (pxSession : AwsIotLargeObjectSendSession) (w : World) :
    AwsIotLargeObjectTransferError × World :=
  if pxSession.xOffset < pxSession.xObjectLength then
    prxSendWindow.loop p pxSession pxSession.usWindowSize 0 w
  else (AWS_IOT_LARGE_OBJECT_TRANSFER_SUCCESS, w)

/-- Function `prvRetransmitWindow`: the callback of the retransmit timer, on the session the
timer identifies. -/
def prvRetransmitWindow (p : Platform) (pxSession : AwsIotLargeObjectSendSession) (w : World) :
    AwsIotLargeObjectSendSession × World :=
  if pxSession.usRetriesLeft > 0 then
    let r := prxSendWindow p pxSession w
    if r.1 ≠ AWS_IOT_LARGE_OBJECT_TRANSFER_SUCCESS then
      (prvCloseSession_xSend pxSession true, r.2)
    else
      ({ pxSession with usRetriesLeft := pxSession.usRetriesLeft - 1,
                        xRetransmitTimer := true }, r.2)
  else (prvCloseSession_xSend pxSession true, w)

/-- Function `prxSendACK`: builds an ACK frame and hands it to the network. -/
def prxSendACK (p : Platform) (usSessionId : Nat) (xErrorCode : AwsIotLargeObjectTransferError)
    (pucBitMap : List Nat) (xBitMapLength : Nat) (w : World) :
    AwsIotLargeObjectTransferError × World :=
  let xAckLength := _ACK_LENGTH xBitMapLength
  if p.malloc xAckLength then
    let bitmap := if xBitMapLength > 0 then memRead pucBitMap xBitMapLength else []
    let pucAck := (storeU16 usSessionId ++ [toU8 xErrorCode.code] ++ bitmap).take xAckLength
    let xSent := p.send w.sent pucAck
    let w1 := { w with sent := w.sent ++ [pucAck] }
    if xSent < xAckLength then (AWS_IOT_LARGE_OBJECT_TRANSFER_NETWORK_ERROR, w1)
    else (AWS_IOT_LARGE_OBJECT_TRANSFER_SUCCESS, w1)
  else (AWS_IOT_LARGE_OBJECT_TRANSFER_NO_MEMORY, w)

/-- The ID a timer of the engine is created with. `pvTimerGetTimerID` hands it to the
callback of the timer, which takes it for the address of a session record. -/
inductive TimerID where
  /-- The ID `( pxSession )`: the address of the session record. -/
  | sessionRecord
  /-- The ID `( &pxSession )`: the address of the parameter `pxSession` of `prxInitSession`,
  which is dead once `prxInitSession` has returned. -/
  | initParameter
  deriving DecidableEq, Repr

/-- The ID `prxInitSession` creates the retransmit timer of a send session with. -/
def retransmitTimerID : TimerID := TimerID.sessionRecord

/-- The ID `prxInitSession` creates the ACK timer of a receive session with. -/
def ackTimerID : TimerID := TimerID.initParameter

/-- Function `prvTimerSendACK`: the callback of the ACK timer. The record `pxSession` is
what the callback finds at the address `pvTimerGetTimerID( xTimer )` returns, read as a
receive session; it is not modified. Which record that is for the timers the engine
creates is told by `ackTimerExpiry`. -/
def prvTimerSendACK (p : Platform) (pxSession : AwsIotLargeObjectReceiveSession) (w : World) :
    World :=
  (prxSendACK p pxSession.usSessionID AWS_IOT_LARGE_OBJECT_TRANSFER_SUCCESS
    pxSession.ucBlockBitMap (_BITMAP_LENGTH pxSession.usWindowSize) w).2

/-- An expiry of the ACK timer of the receive session `pxSession`: `prvTimerSendACK` runs
on the record at the timer's ID. For the ID `sessionRecord` that is the session. For the
ID `initParameter` it is whatever the memory of the dead parameter holds at that moment,
read as a session: the record `stale`, or no record at all (`none`) when that memory
cannot be used as one (the callback faults on the context pointer it finds there, and
there is no resulting world). -/
def ackTimerExpiry (p : Platform) (pxSession : AwsIotLargeObjectReceiveSession)
    (stale : Option AwsIotLargeObjectReceiveSession) (w : World) : Option World :=
  match ackTimerID with
  | TimerID.sessionRecord => some (prvTimerSendACK p pxSession w)
  | TimerID.initParameter => stale.map (fun t => prvTimerSendACK p t w)

/-- The session record after `memset( pxSession, 0x00, ... )`, send view. -/
def zeroedSendSession : AwsIotLargeObjectSendSession :=
  { usSessionID := 0, xState := eAwsIotLargeObjectTransferInit, pucObject := [],
    xObjectLength := 0, xOffset := 0, usWindowSize := 0, usBlockSize := 0,
    xWindowType := AWS_IOT_LARGE_OBJECT_WINDOW_EVEN, usRetriesLeft := 0, usNumRetries := 0,
    xRetransmitTimer := false }

/-- The session record after `memset( pxSession, 0x00, ... )`, receive view. -/
def zeroedReceiveSession : AwsIotLargeObjectReceiveSession :=
  { usSessionID := 0, xState := eAwsIotLargeObjectTransferInit, pucBuffer := [],
    xBufferLength := 0, xOffset := 0, usWindowSize := 0, usBlockSize := 0,
    usNumBlocksReceived := 0, usNumWindowBlocks := 0, xLastWindow := false,
    ucBlockBitMap := List.replicate IOT_LARGE_OBJECT_TRANSFER_BITMAP_SIZE 0,
    xWindowType := AWS_IOT_LARGE_OBJECT_WINDOW_EVEN, usRetriesLeft := 0, usNumRetries := 0,
    xAckTimer := false }

/-- Function `prxInitSession` for `xType == AWS_IOT_LARGE_OBJECT_SESSION_SEND`. -/
def prxInitSession_xSend (p : Platform) (xParameters : AwsIotLargeObjectTransferParams)
    (pxSession : AwsIotLargeObjectSendSession) :
    AwsIotLargeObjectTransferError × AwsIotLargeObjectSendSession :=
  let s1 := { pxSession with
    xState := eAwsIotLargeObjectTransferInit
    usSessionID := _INVALID_SESSION_ID
    usWindowSize := xParameters.windowSize
    usBlockSize := _MAX_BLOCK_DATA_LEN xParameters.usMTU
    usNumRetries := xParameters.numRetransmissions
    xRetransmitTimer := false }
  if p.xTimerCreate then (AWS_IOT_LARGE_OBJECT_TRANSFER_SUCCESS, s1)
  else (AWS_IOT_LARGE_OBJECT_TRANSFER_INTERNAL_ERROR, s1)

/-- Function `prxInitSession` for the other session type. The buffer of
`usBlockSize * usWindowSize` bytes is not initialised by the source; its bytes are `0`
here. -/
def prxInitSession_xRecv (p : Platform) (xParameters : AwsIotLargeObjectTransferParams)
    (pxSession : AwsIotLargeObjectReceiveSession) :
    AwsIotLargeObjectTransferError × AwsIotLargeObjectReceiveSession :=
  let s1 := { pxSession with
    xState := eAwsIotLargeObjectTransferInit
    usSessionID := _INVALID_SESSION_ID
    usWindowSize := xParameters.windowSize
    usBlockSize := _MAX_BLOCK_DATA_LEN xParameters.usMTU
    usNumRetries := xParameters.numRetransmissions
    usNumWindowBlocks := xParameters.windowSize }
  let xBufferSize := s1.usBlockSize * s1.usWindowSize
  if p.malloc xBufferSize then
    let s2 := { s1 with pucBuffer := List.replicate xBufferSize 0, xAckTimer := false }
    if p.xTimerCreate then (AWS_IOT_LARGE_OBJECT_TRANSFER_SUCCESS, s2)
    else (AWS_IOT_LARGE_OBJECT_TRANSFER_INTERNAL_ERROR, s2)
  else (AWS_IOT_LARGE_OBJECT_TRANSFER_NO_MEMORY, { s1 with pucBuffer := [] })

/-- Function `prxOpenReceiveSession` -/
def prxOpenReceiveSession (pxSession : AwsIotLargeObjectReceiveSession) (usSessionId : Nat) :
    AwsIotLargeObjectTransferError × AwsIotLargeObjectReceiveSession :=
  (AWS_IOT_LARGE_OBJECT_TRANSFER_SUCCESS,
   { pxSession with
     usSessionID := usSessionId
     xOffset := 0
     xBufferLength := 0
     usNumBlocksReceived := 0
     usNumWindowBlocks := pxSession.usWindowSize
     xWindowType := AWS_IOT_LARGE_OBJECT_WINDOW_EVEN
     usRetriesLeft := pxSession.usNumRetries
     xLastWindow := false
     ucBlockBitMap := List.replicate IOT_LARGE_OBJECT_TRANSFER_BITMAP_SIZE 0xFF
     xState := eAwsIotLargeObjectTransferOpen })

/-- Function `prxOpenSendSession` -/
def prxOpenSendSession (p : Platform) (pxSession : AwsIotLargeObjectSendSession)
    (usSessionId : Nat) (pucObject : List Nat) (xObjectLength : Nat) (w : World) :
    AwsIotLargeObjectTransferError × AwsIotLargeObjectSendSession × World :=
  let s1 := { pxSession with
    usSessionID := usSessionId
    pucObject := pucObject
    xObjectLength := xObjectLength
    xOffset := 0
    xWindowType := AWS_IOT_LARGE_OBJECT_WINDOW_EVEN
    usRetriesLeft := pxSession.usNumRetries }
  let r := prxSendWindow p s1 w
  if r.1 = AWS_IOT_LARGE_OBJECT_TRANSFER_SUCCESS then
    (r.1, { s1 with xRetransmitTimer := true, xState := eAwsIotLargeObjectTransferOpen }, r.2)
  else (r.1, s1, r.2)

/-- Function `prxIsBlockReceived`: `pdTRUE` when the bit of the block is `0`. -/
def prxIsBlockReceived (pucBitMap : List Nat) (usBlockNum : Nat) : Bool :=
  let ulIndex := usBlockNum >>> 3
  let usBits := usBlockNum &&& 0x7
  let ucValue := pucBitMap.getD ulIndex 0
  decide (ucValue &&& (0x1 <<< usBits) = 0)

/-- The bit pattern of `~x` for an `int` value `x`. -/
def intNot (x : Nat) : Nat := (2 ^ 32 - 1) ^^^ x

/-- Function `prvSetBlockReceived`: clears the bit of the block. The index is inside the
four-byte array whenever `usBlockNum < 32`. -/
def prvSetBlockReceived (pucBitMap : List Nat) (usBlockNum : Nat) : List Nat :=
  let usIndex := usBlockNum >>> 3
  let ucBits := usBlockNum &&& 0x7
  let ucValue := pucBitMap.getD usIndex 0
  pucBitMap.set usIndex (toU8 (ucValue &&& intNot (0x1 <<< ucBits)))

/-- The `for` loop of `prxRetransmitMissingBlocks`; the counter is as in
`prxSendWindow.loop`. -/
def prxRetransmitMissingBlocks.loop (p : Platform) (pxSession : AwsIotLargeObjectSendSession)
    (pucBitMap : List Nat) : Nat → Nat → World → AwsIotLargeObjectTransferError × World
  | 0, _, w => (AWS_IOT_LARGE_OBJECT_TRANSFER_SUCCESS, w)
  | n + 1, usBlockNum, w =>
    if prxIsBlockReceived pucBitMap usBlockNum = true then
      let xBlockOffset := sizeAdd pxSession.xOffset (usBlockNum * pxSession.usBlockSize)
      let xLastBlock :=
        decide (sizeAdd xBlockOffset pxSession.usBlockSize ≥ pxSession.xObjectLength)
      let xBlockLength :=
        if xLastBlock then sizeSub pxSession.xObjectLength xBlockOffset
        else pxSession.usBlockSize
      let r := prxSendBlock p pxSession.usSessionID usBlockNum xLastBlock false
        pxSession.xWindowType (pxSession.pucObject.drop xBlockOffset) xBlockLength w
      if r.1 ≠ AWS_IOT_LARGE_OBJECT_TRANSFER_SUCCESS then r
      else if xLastBlock then r
      else prxRetransmitMissingBlocks.loop p pxSession pucBitMap n (usBlockNum + 1) r.2
    else prxRetransmitMissingBlocks.loop p pxSession pucBitMap n (usBlockNum + 1) w

/-- Function `prxRetransmitMissingBlocks`; the bitmap length is not used by the source. -/
def prxRetransmitMissingBlocks (p : Platform) (pxSession : AwsIotLargeObjectSendSession)
    (pucBitMap : List Nat) (_xBitMapLength : Nat) (w : World) :
    AwsIotLargeObjectTransferError × World :=
  prxRetransmitMissingBlocks.loop p pxSession pucBitMap pxSession.usWindowSize 0 w

/-- Function `prvProcessBlock`: ingest of one DATA frame by a receive session. `pucBlock` is the
memory at the frame pointer and `xLength` the frame length the network reported. -/
def prvProcessBlock (p : Platform) (pxSession : AwsIotLargeObjectReceiveSession)
    (pucBlock : List Nat) (xLength : Nat) (w : World) :
    AwsIotLargeObjectReceiveSession × World :=
  let usBlockNum := _BLOCK_NUMBER pucBlock
  let ucFlags := _FLAGS pucBlock
  let xDataLength := _BLOCK_LENGTH xLength
  let pucBlockData := _BLOCK_DATA pucBlock
  let xLastBlock := decide (ucFlags &&& _LAST_BLOCK_MASK = _LAST_BLOCK_MASK)
  let xWindowType :=
    if ucFlags &&& _ODD_WINDOW_MASK = _ODD_WINDOW_MASK then AWS_IOT_LARGE_OBJECT_WINDOW_ODD
    else AWS_IOT_LARGE_OBJECT_WINDOW_EVEN
  if xWindowType = pxSession.xWindowType then
    if usBlockNum < pxSession.usWindowSize then
      if prxIsBlockReceived pxSession.ucBlockBitMap usBlockNum = false then
        let xBlockOffset := usBlockNum * pxSession.usBlockSize
        let s1 := { pxSession with
          ucBlockBitMap := prvSetBlockReceived pxSession.ucBlockBitMap usBlockNum
          pucBuffer := memWrite pxSession.pucBuffer xBlockOffset
            (memRead pucBlockData xDataLength)
          xBufferLength := sizeAdd pxSession.xBufferLength xDataLength
          usNumBlocksReceived := toU16 (pxSession.usNumBlocksReceived + 1) }
        let s2 := if xLastBlock then
            { s1 with usNumWindowBlocks := toU16 (usBlockNum + 1), xLastWindow := true }
          else s1
        if s2.usNumBlocksReceived ≥ s2.usNumWindowBlocks then
          let w1 := { w with received := w.received ++
            [{ usSessionID := s2.usSessionID, pucData := s2.pucBuffer,
               xDataLength := s2.xBufferLength, xMore := s2.xLastWindow }] }
          let s3 := { s2 with
            xAckTimer := false
            xBufferLength := 0
            usNumBlocksReceived := 0
            usNumWindowBlocks := s2.usWindowSize
            ucBlockBitMap := List.replicate IOT_LARGE_OBJECT_TRANSFER_BITMAP_SIZE 0xFF
            xWindowType := toggleWindow s2.xWindowType }
          let r := prxSendACK p s3.usSessionID AWS_IOT_LARGE_OBJECT_TRANSFER_SUCCESS [] 0 w1
          if r.1 ≠ AWS_IOT_LARGE_OBJECT_TRANSFER_SUCCESS then (s3, r.2)
          else if s3.xLastWindow = true then (prvCloseSession_xRecv s3 false, r.2)
          else (s3, r.2)
        else (s2, w)
      else (pxSession, w)
    else
      let s1 := prvCloseSession_xRecv pxSession false
      (s1, (prxSendACK p s1.usSessionID AWS_IOT_LARGE_OBJECT_TRANSFER_INVALID_PACKET [] 0 w).2)
  else
    (pxSession,
     (prxSendACK p pxSession.usSessionID AWS_IOT_LARGE_OBJECT_TRANSFER_SESSION_WRONG_WINDOW
       [] 0 w).2)

/-- Function `prvProcessACK`: handling of one ACK frame by a send session. `pucACK` is the memory
at the frame pointer and `xLength` the frame length the network reported. -/
def prvProcessACK (p : Platform) (pxSession : AwsIotLargeObjectSendSession)
    (pucACK : List Nat) (xLength : Nat) (w : World) : AwsIotLargeObjectSendSession × World :=
  if xLength < _MIN_ACK_LENGTH then (prvCloseSession_xSend pxSession false, w)
  else
    let s1 := { pxSession with xRetransmitTimer := false,
                               usRetriesLeft := pxSession.usNumRetries }
    let xErrorCode := _ERROR_CODE pucACK
    let r : AwsIotLargeObjectSendSession × World :=
      if xErrorCode = AWS_IOT_LARGE_OBJECT_TRANSFER_SUCCESS.code then
        let usBitMapLen := toU16 (_BITMAP_LEN xLength)
        if usBitMapLen > 0 then
          let x := prxRetransmitMissingBlocks p s1 (_BITMAP pucACK) usBitMapLen w
          if x.1 ≠ AWS_IOT_LARGE_OBJECT_TRANSFER_SUCCESS then
            (prvCloseSession_xSend s1 true, x.2)
          else (s1, x.2)
        else
          let s2 := { s1 with
            xOffset := _INCR_OFFSET s1.xOffset s1.usWindowSize s1.usBlockSize
            xWindowType := toggleWindow s1.xWindowType }
          let x := prxSendWindow p s2 w
          if x.1 ≠ AWS_IOT_LARGE_OBJECT_TRANSFER_SUCCESS then
            (prvCloseSession_xSend s2 true, x.2)
          else (s2, x.2)
      else if xErrorCode = AWS_IOT_LARGE_OBJECT_TRANSFER_SESSION_WRONG_WINDOW.code then
        let s2 := { s1 with
          xOffset := _INCR_OFFSET s1.xOffset s1.usWindowSize s1.usBlockSize
          xWindowType := toggleWindow s1.xWindowType }
        let x := prxSendWindow p s2 w
        if x.1 ≠ AWS_IOT_LARGE_OBJECT_TRANSFER_SUCCESS then
          (prvCloseSession_xSend s2 true, x.2)
        else (s2, x.2)
      else (prvCloseSession_xSend s1 false, w)
    if r.1.xState = eAwsIotLargeObjectTransferOpen then
      ({ r.1 with xRetransmitTimer := true }, r.2)
    else r

/-- First loop of `prvNetworkReceiveCallback`: the send sessions are searched for the
session id; `none` when no send session has it (`xSessionFound` stays false). -/
def prvNetworkReceiveCallback.sendLoop (p : Platform) (usSessionID : Nat)
    (pucData : List Nat) (xDataLength : Nat) :
    List AwsIotLargeObjectSendSession → World →
      Option (List AwsIotLargeObjectSendSession × World)
  | [], _ => none
  | s :: rest, w =>
    if s.usSessionID = usSessionID then
      if s.xState = eAwsIotLargeObjectTransferOpen then
        let r := prvProcessACK p s pucData xDataLength w
        some (r.1 :: rest, r.2)
      else
        some (s :: rest, (prxSendACK p usSessionID
          AWS_IOT_LARGE_OBJECT_TRANSFER_SESSION_ABORTED [] 0 w).2)
    else
      match prvNetworkReceiveCallback.sendLoop p usSessionID pucData xDataLength rest w with
      | none => none
      | some r => some (s :: r.1, r.2)

/-- Second loop of `prvNetworkReceiveCallback`: the receive sessions are searched for
the session id. -/
def prvNetworkReceiveCallback.recvLoop (p : Platform) (usSessionID : Nat)
    (pucData : List Nat) (xDataLength : Nat) :
    List AwsIotLargeObjectReceiveSession → World →
      Option (List AwsIotLargeObjectReceiveSession × World)
  | [], _ => none
  | s :: rest, w =>
    if s.usSessionID = usSessionID then
      if s.xState = eAwsIotLargeObjectTransferOpen ∨
          s.xState = eAwsIotLargeObjectTransferResumable then
        let r := prvProcessBlock p s pucData xDataLength w
        some (r.1 :: rest, r.2)
      else
        some (s :: rest, (prxSendACK p usSessionID
          AWS_IOT_LARGE_OBJECT_TRANSFER_SESSION_ABORTED [] 0 w).2)
    else
      match prvNetworkReceiveCallback.recvLoop p usSessionID pucData xDataLength rest w with
      | none => none
      | some r => some (s :: r.1, r.2)

/-- Third loop of `prvNetworkReceiveCallback` with the code that follows it: the first
receive slot that `_SESSION_FREE` accepts is opened and the frame is processed by it;
when there is none, `SESSION_NOT_FOUND` is acknowledged. -/
def prvNetworkReceiveCallback.freeLoop (p : Platform) (usSessionID : Nat)
    (pucData : List Nat) (xDataLength : Nat) :
    List AwsIotLargeObjectReceiveSession → World →
      List AwsIotLargeObjectReceiveSession × World
  | [], w =>
    ([], (prxSendACK p usSessionID AWS_IOT_LARGE_OBJECT_TRANSFER_SESSION_NOT_FOUND [] 0 w).2)
  | s :: rest, w =>
    if _SESSION_FREE s.xState = true then
      let o := prxOpenReceiveSession s usSessionID
      if o.1 = AWS_IOT_LARGE_OBJECT_TRANSFER_SUCCESS then
        let r := prvProcessBlock p o.2 pucData xDataLength w
        (r.1 :: rest, r.2)
      else
        (o.2 :: rest, (prxSendACK p usSessionID
          AWS_IOT_LARGE_OBJECT_TRANSFER_SESSION_NOT_FOUND [] 0 w).2)
    else
      let r := prvNetworkReceiveCallback.freeLoop p usSessionID pucData xDataLength rest w
      (s :: r.1, r.2)

/-- Function `prvNetworkReceiveCallback`: the dispatcher of inbound packets. `pvReceivedData` is
the memory at the packet pointer, `xDataLength` the packet length. -/
def prvNetworkReceiveCallback (p : Platform) (pxContext : AwsIotLargeObjectTransferContext)
    (pvReceivedData : List Nat) (xDataLength : Nat) (w : World) :
    AwsIotLargeObjectTransferContext × World :=
  let usSessionID := _SESSION_ID pvReceivedData
  match prvNetworkReceiveCallback.sendLoop p usSessionID pvReceivedData xDataLength
      pxContext.pxSendSessions w with
  | some r => ({ pxContext with pxSendSessions := r.1 }, r.2)
  | none =>
    match prvNetworkReceiveCallback.recvLoop p usSessionID pvReceivedData xDataLength
        pxContext.pxRecvSessions w with
    | some r => ({ pxContext with pxRecvSessions := r.1 }, r.2)
    | none =>
      let r := prvNetworkReceiveCallback.freeLoop p usSessionID pvReceivedData xDataLength
        pxContext.pxRecvSessions w
      ({ pxContext with pxRecvSessions := r.1 }, r.2)

/-- Loop of `AwsIotLargeObjectTransfer_Init` over the send array: `n` sessions are zeroed
and initialised in turn, stopping at the first error. -/
def AwsIotLargeObjectTransfer_Init.sendLoop (p : Platform)
    (xParameters : AwsIotLargeObjectTransferParams) :
    Nat → AwsIotLargeObjectTransferError × List AwsIotLargeObjectSendSession
  | 0 => (AWS_IOT_LARGE_OBJECT_TRANSFER_SUCCESS, [])
  | n + 1 =>
    let r := prxInitSession_xSend p xParameters zeroedSendSession
    if r.1 ≠ AWS_IOT_LARGE_OBJECT_TRANSFER_SUCCESS then
      (r.1, r.2 :: List.replicate n zeroedSendSession)
    else
      let t := AwsIotLargeObjectTransfer_Init.sendLoop p xParameters n
      (t.1, r.2 :: t.2)

/-- Loop of `AwsIotLargeObjectTransfer_Init` over the receive array. -/
def AwsIotLargeObjectTransfer_Init.recvLoop (p : Platform)
    (xParameters : AwsIotLargeObjectTransferParams) :
    Nat → AwsIotLargeObjectTransferError × List AwsIotLargeObjectReceiveSession
  | 0 => (AWS_IOT_LARGE_OBJECT_TRANSFER_SUCCESS, [])
  | n + 1 =>
    let r := prxInitSession_xRecv p xParameters zeroedReceiveSession
    if r.1 ≠ AWS_IOT_LARGE_OBJECT_TRANSFER_SUCCESS then
      (r.1, r.2 :: List.replicate n zeroedReceiveSession)
    else
      let t := AwsIotLargeObjectTransfer_Init.recvLoop p xParameters n
      (t.1, r.2 :: t.2)

/-- Function `AwsIotLargeObjectTransfer_Init` on a non-null context whose parameters the caller
has filled in. Session records the source has not reached are shown zeroed. -/
def AwsIotLargeObjectTransfer_Init (p : Platform)
    (xParameters : AwsIotLargeObjectTransferParams)
    (usNumSendSessions usNumRecvSessions : Nat) :
    AwsIotLargeObjectTransferError × AwsIotLargeObjectTransferContext :=
  if p.malloc (p.sizeofSession * usNumSendSessions) then
    let a := AwsIotLargeObjectTransfer_Init.sendLoop p xParameters usNumSendSessions
    if a.1 = AWS_IOT_LARGE_OBJECT_TRANSFER_SUCCESS then
      if p.malloc (p.sizeofSession * usNumRecvSessions) then
        let b := AwsIotLargeObjectTransfer_Init.recvLoop p xParameters usNumRecvSessions
        (b.1, { xParameters := xParameters, pxSendSessions := a.2, pxRecvSessions := b.2 })
      else
        (AWS_IOT_LARGE_OBJECT_TRANSFER_NO_MEMORY,
         { xParameters := xParameters, pxSendSessions := a.2, pxRecvSessions := [] })
    else (a.1, { xParameters := xParameters, pxSendSessions := a.2, pxRecvSessions := [] })
  else
    (AWS_IOT_LARGE_OBJECT_TRANSFER_NO_MEMORY,
     { xParameters := xParameters, pxSendSessions := [], pxRecvSessions := [] })

/-- The result of `AwsIotLargeObjectTransfer_Send`. -/
structure SendResult where
  /-- The returned error code. -/
  xError : AwsIotLargeObjectTransferError
  /-- The send sessions after the call. -/
  pxSendSessions : List AwsIotLargeObjectSendSession
  /-- The value of `*pusSessionID` after the call. -/
  usSessionID : Nat
  /-- The world after the call. -/
  world : World
  deriving DecidableEq, Repr

/-- The `for` loop of `AwsIotLargeObjectTransfer_Send` from index `usIndex` on, over the
sessions from that index on; `usSessionID` is the value at `pusSessionID` before the
call. -/
def AwsIotLargeObjectTransfer_Send.loop (p : Platform) (pucObject : List Nat)
    (xObjectLength : Nat) :
    List AwsIotLargeObjectSendSession → Nat → Nat → World → SendResult
  | [], _, usSessionID, w =>
    { xError := AWS_IOT_LARGE_OBJECT_TRANSFER_MAX_SESSIONS_REACHED, pxSendSessions := [],
      usSessionID := usSessionID, world := w }
  | s :: rest, usIndex, usSessionID, w =>
    if _SESSION_FREE s.xState = true then
      let r := prxOpenSendSession p s (toU16 (usIndex + 1)) pucObject xObjectLength w
      { xError := r.1, pxSendSessions := r.2.1 :: rest,
        usSessionID := if r.1 = AWS_IOT_LARGE_OBJECT_TRANSFER_SUCCESS then toU16 usIndex
          else usSessionID,
        world := r.2.2 }
    else
      let t := AwsIotLargeObjectTransfer_Send.loop p pucObject xObjectLength rest
        (usIndex + 1) usSessionID w
      { t with pxSendSessions := s :: t.pxSendSessions }

/-- Function `AwsIotLargeObjectTransfer_Send`; `usSessionID` is the value at `pusSessionID` before
the call. The context's other fields are not touched. -/
def AwsIotLargeObjectTransfer_Send (p : Platform)
    (pxContext : AwsIotLargeObjectTransferContext) (pucObject : List Nat)
    (xObjectLength : Nat) (usSessionID : Nat) (w : World) : SendResult :=
  AwsIotLargeObjectTransfer_Send.loop p pucObject xObjectLength pxContext.pxSendSessions 0
    usSessionID w

/-- The `for` loop of `AwsIotLargeObjectTransfer_Resume`; it visits every send session
and carries `xError` along. -/
def AwsIotLargeObjectTransfer_Resume.loop (p : Platform) (usSessionID : Nat) :
    List AwsIotLargeObjectSendSession → AwsIotLargeObjectTransferError → World →
      AwsIotLargeObjectTransferError × List AwsIotLargeObjectSendSession × World
  | [], xError, w => (xError, [], w)
  | s :: rest, xError, w =>
    if s.usSessionID = usSessionID ∧ s.xState = eAwsIotLargeObjectTransferResumable ∧
        s.xOffset < s.xObjectLength then
      let r := prxSendWindow p s w
      let s1 := if r.1 = AWS_IOT_LARGE_OBJECT_TRANSFER_SUCCESS then
          { s with xRetransmitTimer := true, xState := eAwsIotLargeObjectTransferOpen }
        else s
      let t := AwsIotLargeObjectTransfer_Resume.loop p usSessionID rest r.1 r.2
      (t.1, s1 :: t.2.1, t.2.2)
    else
      let t := AwsIotLargeObjectTransfer_Resume.loop p usSessionID rest xError w
      (t.1, s :: t.2.1, t.2.2)

/-- Function `AwsIotLargeObjectTransfer_Resume` -/
def AwsIotLargeObjectTransfer_Resume (p : Platform)
    (pxContext : AwsIotLargeObjectTransferContext) (usSessionID : Nat) (w : World) :
    AwsIotLargeObjectTransferError × AwsIotLargeObjectTransferContext × World :=
  let r := AwsIotLargeObjectTransfer_Resume.loop p usSessionID pxContext.pxSendSessions
    AWS_IOT_LARGE_OBJECT_TRANSFER_INVALID_PARAM w
  (r.1, { pxContext with pxSendSessions := r.2.1 }, r.2.2)

/-- Function `AwsIotLargeObjectTransfer_CloseSession`: every session of the given type that holds
the id is closed. -/
def AwsIotLargeObjectTransfer_CloseSession (pxContext : AwsIotLargeObjectTransferContext)
    (xType : AwsIotLargeObjectSessionType) (usSessionID : Nat) :
    AwsIotLargeObjectTransferError × AwsIotLargeObjectTransferContext :=
  if xType = AWS_IOT_LARGE_OBJECT_SESSION_SEND then
    let xRet := if pxContext.pxSendSessions.any (fun s => decide (s.usSessionID = usSessionID))
      then AWS_IOT_LARGE_OBJECT_TRANSFER_SUCCESS
      else AWS_IOT_LARGE_OBJECT_TRANSFER_SESSION_NOT_FOUND
    let l := pxContext.pxSendSessions.map
      (fun s => if s.usSessionID = usSessionID then prvCloseSession_xSend s false else s)
    (xRet, { pxContext with pxSendSessions := l })
  else
    let xRet := if pxContext.pxRecvSessions.any (fun s => decide (s.usSessionID = usSessionID))
      then AWS_IOT_LARGE_OBJECT_TRANSFER_SUCCESS
      else AWS_IOT_LARGE_OBJECT_TRANSFER_SESSION_NOT_FOUND
    let l := pxContext.pxRecvSessions.map
      (fun s => if s.usSessionID = usSessionID then prvCloseSession_xRecv s false else s)
    (xRet, { pxContext with pxRecvSessions := l })

/-! ## Two contexts joined by a link, and the scenario inputs -/

/-- A platform on which every frame is accepted whole and every allocation succeeds. -/
def idealPlatform : Platform :=
  { send := fun _ f => f.length, malloc := fun _ => true, xTimerCreate := true,
    sizeofSession := 64 }

/-- The bytes the receive callbacks were handed, each buffer taken to its reported
length, concatenated in the order of the invocations. -/
def World.delivered (w : World) : List Nat :=
  (w.received.map (fun c => memRead c.pucData c.xDataLength)).flatten

/-- Two contexts joined by a link: `a` with its world `wa`, `b` with its world `wb`, and
the number of frames of each direction that the link has delivered so far. -/
structure Link where
  a : AwsIotLargeObjectTransferContext
  wa : World
  b : AwsIotLargeObjectTransferContext
  wb : World
  deliveredAB : Nat
  deliveredBA : Nat
  deriving DecidableEq, Repr

/-- One delivery by the loss-free, order-preserving link: the oldest frame of `a` not yet
delivered is handed to the dispatcher of `b`; when there is none, the oldest frame of `b`
not yet delivered is handed to the dispatcher of `a`; when there is none either, nothing
happens. -/
def Link.step (pa pb : Platform) (l : Link) : Link :=
  match l.wa.sent.drop l.deliveredAB with
  | f :: _ =>
    let r := prvNetworkReceiveCallback pb l.b f f.length l.wb
    { l with b := r.1, wb := r.2, deliveredAB := l.deliveredAB + 1 }
  | [] =>
    match l.wb.sent.drop l.deliveredBA with
    | f :: _ =>
      let r := prvNetworkReceiveCallback pa l.a f f.length l.wa
      { l with a := r.1, wa := r.2, deliveredBA := l.deliveredBA + 1 }
    | [] => l

/-- The link performs `n` deliveries. -/
def Link.run (pa pb : Platform) : Nat → Link → Link
  | 0, l => l
  | n + 1, l => Link.run pa pb n (Link.step pa pb l)

/-- Nothing is in flight: every frame either side has sent has been delivered. -/
def Link.quiet (l : Link) : Bool :=
  l.deliveredAB == l.wa.sent.length && l.deliveredBA == l.wb.sent.length

/-- Context `a` sends `obj` to context `b` over the loss-free link, which then performs
`n` deliveries. -/
def transfer (pa pb : Platform) (a b : AwsIotLargeObjectTransferContext) (obj : List Nat)
    (n : Nat) : Link :=
  let r := AwsIotLargeObjectTransfer_Send pa a obj obj.length 0 World.empty
  Link.run pa pb n
    { a := { a with pxSendSessions := r.pxSendSessions }, wa := r.world, b := b,
      wb := World.empty, deliveredAB := 0, deliveredBA := 0 }

/-- The parameters of the end-to-end scenarios of the specification. -/
def scenarioParams : AwsIotLargeObjectTransferParams :=
  { usMTU := 23, windowSize := 4, timeoutMilliseconds := 100, numRetransmissions := 3 }

/-- A context as `AwsIotLargeObjectTransfer_Init` leaves it on the ideal platform: one send
and one receive session, scenario parameters. -/
def scenarioContext : AwsIotLargeObjectTransferContext :=
  (AwsIotLargeObjectTransfer_Init idealPlatform scenarioParams 1 1).2

/-! ## Descriptions used in the statements -/

/-- The flags byte `prxSendBlock` computes. -/
def flagsByte (xLastBlock xResume : Bool) (xWindowType : AwsIotLargeObjectWindowType) : Nat :=
  0xF8 + (if xLastBlock then 1 else 0) + (if xResume then 2 else 0)
    + (if xWindowType = AWS_IOT_LARGE_OBJECT_WINDOW_ODD then 4 else 0)

/-- The DATA frame with the given header fields and payload. -/
def dataFrame (usSessionId usBlockNum ucFlags : Nat) (payload : List Nat) : List Nat :=
  [usSessionId % 256, usSessionId / 256 % 256, usBlockNum % 256, usBlockNum / 256 % 256, ucFlags]
    ++ payload

/-- The network accepts every frame: `send` reports at least the frame length. -/
def Platform.AcceptsAll (p : Platform) : Prop := ∀ h f, f.length ≤ p.send h f

/-- Every allocation succeeds. -/
def Platform.AllocOk (p : Platform) : Prop := ∀ n, p.malloc n = true

/-- The frames of one window, seen from the iteration with block number `k` when the loop
test admits `n` more iterations. -/
def windowFrames (s : AwsIotLargeObjectSendSession) : Nat → Nat → List (List Nat)
  | 0, _ => []
  | n + 1, k =>
    let off := s.xOffset + k * s.usBlockSize
    if s.xObjectLength ≤ off + s.usBlockSize then
      [dataFrame s.usSessionID k (flagsByte true false s.xWindowType)
        ((s.pucObject.drop off).take (s.xObjectLength - off))]
    else
      dataFrame s.usSessionID k (flagsByte false false s.xWindowType)
        ((s.pucObject.drop off).take s.usBlockSize) :: windowFrames s n (k + 1)

/-- The DATA frame of block `k` of the current window of `s`: its payload is the byte range
`[xOffset + k * usBlockSize, min (xOffset + (k + 1) * usBlockSize) xObjectLength)` of the
object, `LAST_BLOCK` is set when the range ends at the end of the object. -/
def blockFrame (s : AwsIotLargeObjectSendSession) (k : Nat) : List Nat :=
  dataFrame s.usSessionID k
    (flagsByte (decide (s.xObjectLength ≤ s.xOffset + (k + 1) * s.usBlockSize)) false
      s.xWindowType)
    ((s.pucObject.take (min (s.xOffset + (k + 1) * s.usBlockSize) s.xObjectLength)).drop
      (s.xOffset + k * s.usBlockSize))

/-- The flags byte the specification prescribes for block `k` of the current window of
`s`: reserved bits 3-7 set, `LAST_BLOCK` when the block is the last block of the object
(it starts inside the object and its end reaches the end of the object), `ODD_WINDOW` when
the session's window colour is Odd, `RESUME` clear. -/
def expectedFlags (s : AwsIotLargeObjectSendSession) (k : Nat) : Nat :=
  0xF8 ||| (if s.xOffset + k * s.usBlockSize < s.xObjectLength
      ∧ s.xObjectLength ≤ s.xOffset + (k + 1) * s.usBlockSize then 0x01 else 0)
    ||| (if s.xWindowType = AWS_IOT_LARGE_OBJECT_WINDOW_ODD then 0x04 else 0)

/-- The full ACK (error code Success, no bitmap) for the session whose id the DATA frame
`f` carries. -/
def fullAckFor (f : List Nat) : List Nat :=
  [f.getD 0 0, f.getD 1 0, AWS_IOT_LARGE_OBJECT_TRANSFER_SUCCESS.code]

/-- The sender is driven by full ACKs: as long as the last call emitted a window, the
dispatcher is handed a full ACK for it; the result lists the windows emitted in response, in
order. At most `n` ACKs are delivered. -/
def ackWindows (p : Platform) :
    Nat → AwsIotLargeObjectTransferContext → World → List (List (List Nat))
  | 0, _, _ => []
  | n + 1, ctx, w =>
    match w.sent.getLast? with
    | none => []
    | some f =>
      let r := prvNetworkReceiveCallback p ctx (fullAckFor f) 3 w
      let window := r.2.sent.drop w.sent.length
      if window = [] then [] else window :: ackWindows p n r.1 r.2

/-- The object `obj` is sent with `AwsIotLargeObjectTransfer_Send` and every emitted window
is answered with a full ACK (at most `n` ACKs): the list of the emitted windows, in order,
the first being the one `Send` emits. -/
def sendAcked (p : Platform) (ctx : AwsIotLargeObjectTransferContext) (obj : List Nat)
    (n : Nat) : List (List (List Nat)) :=
  let r := AwsIotLargeObjectTransfer_Send p ctx obj obj.length 0 World.empty
  if r.world.sent = [] then []
  else r.world.sent :: ackWindows p n { ctx with pxSendSessions := r.pxSendSessions } r.world

/-- The windows a session with the fields of `s` is expected to emit from offset `off` on,
the first in colour `wt`, at most `n` of them. -/
def windowsFrom (s : AwsIotLargeObjectSendSession) :
    Nat → Nat → AwsIotLargeObjectWindowType → List (List (List Nat))
  | 0, _, _ => []
  | n + 1, off, wt =>
    if off < s.xObjectLength then
      windowFrames { s with xOffset := off, xWindowType := wt } s.usWindowSize 0
        :: windowsFrom s n (off + s.usWindowSize * s.usBlockSize) (toggleWindow wt)
    else []

/-- The `LAST_BLOCK` bit of the frame is set. -/
def isLastBlock (f : List Nat) : Prop := _FLAGS f &&& _LAST_BLOCK_MASK = _LAST_BLOCK_MASK

/-- The `ODD_WINDOW` bit of the frame is set. -/
def isOddWindow (f : List Nat) : Prop := _FLAGS f &&& _ODD_WINDOW_MASK = _ODD_WINDOW_MASK

/-- The send session of `scenarioContext` before any transfer. -/
def scenarioSession : AwsIotLargeObjectSendSession :=
  { zeroedSendSession with usWindowSize := 4, usBlockSize := 18, usNumRetries := 3 }

/-- A send session with scenario parameters holding the object `obj` at offset `off` in
colour `wt`. -/
def scenarioSending (obj : List Nat) (off : Nat) (wt : AwsIotLargeObjectWindowType) :
    AwsIotLargeObjectSendSession :=
  { scenarioSession with
    usSessionID := 1
    xState := eAwsIotLargeObjectTransferOpen
    pucObject := obj
    xObjectLength := obj.length
    xOffset := off
    xWindowType := wt
    usRetriesLeft := 3
    xRetransmitTimer := true }

/-- The scenario context while its only send session is busy with a 100-byte object. -/
def busyContext : AwsIotLargeObjectTransferContext :=
  { scenarioContext with pxSendSessions :=
      (AwsIotLargeObjectTransfer_Send idealPlatform scenarioContext (List.range 100) 100 0
        World.empty).pxSendSessions }

/-- The network's answer to frame `j` of the frames `fs` offered after the history `hist` is
short: fewer bytes than the frame has. -/
def shortAt (p : Platform) (hist fs : List (List Nat)) (j : Nat) : Prop :=
  p.send (hist ++ fs.take j) (fs.getD j []) < (fs.getD j []).length

/-- A platform whose network accepts every frame except the third one handed to it, of
which it reports no byte sent; allocations succeed. -/
def thirdFrameLost : Platform :=
  { send := fun hist f => if hist.length = 2 then 0 else f.length, malloc := fun _ => true,
    xTimerCreate := true, sizeofSession := 64 }

/-- The result of the first `AwsIotLargeObjectTransfer_Send` in the scenario context, of a
10-byte object. -/
def sentTenBytes : SendResult :=
  AwsIotLargeObjectTransfer_Send idealPlatform scenarioContext (List.range 10) 10 0 World.empty

/-- The receive session of the scenario context, opened for session id 1. -/
def scenarioReceiving : AwsIotLargeObjectReceiveSession :=
  (prxOpenReceiveSession
    (prxInitSession_xRecv idealPlatform scenarioParams zeroedReceiveSession).2 1).2

/-- A DATA frame of session 1 in the Even colour, not the last block, carrying block number
`k` and 18 payload bytes all equal to `v`. -/
def fullBlock (k v : Nat) : List Nat := [1, 0, k, 0, 0xF8] ++ List.replicate 18 v


/-- The retransmit timer of a send session expires `n` times in a row, nothing else
happening in between: each expiry runs the timer callback `prvRetransmitWindow` on the
session and the world the previous one left. -/
def expiries (p : Platform) :
    Nat → AwsIotLargeObjectSendSession × World → AwsIotLargeObjectSendSession × World
  | 0, x => x
  | n + 1, x => prvRetransmitWindow p (expiries p n x).1 (expiries p n x).2

/-- Whether `AwsIotLargeObjectTransfer_Resume` with the id `usSessionID` takes up the send
session: it holds the id, is Resumable and has data left. -/
def resumableWith (usSessionID : Nat) (s : AwsIotLargeObjectSendSession) : Bool :=
  decide (s.usSessionID = usSessionID ∧ s.xState = eAwsIotLargeObjectTransferResumable ∧
    s.xOffset < s.xObjectLength)

/-- The world after `AwsIotLargeObjectTransfer_Send` of the 100-byte object
`List.range 100` in the scenario: the first window has been sent. -/
def busyWorld : World :=
  (AwsIotLargeObjectTransfer_Send idealPlatform scenarioContext (List.range 100) 100 0
    World.empty).world

/-- A context whose only send session is Resumable: the scenario session sending the
100-byte object `List.range 100`, after its retries ran out during the second window. -/
def resumableContext : AwsIotLargeObjectTransferContext :=
  { scenarioContext with pxSendSessions :=
      [{ scenarioSending (List.range 100) 72 AWS_IOT_LARGE_OBJECT_WINDOW_ODD with
          usRetriesLeft := 0
          xState := eAwsIotLargeObjectTransferResumable
          xRetransmitTimer := false }] }

/-- The window colour a DATA frame carries in its flags byte. -/
def frameColour (pucBlock : List Nat) : AwsIotLargeObjectWindowType :=
  if _FLAGS pucBlock &&& _ODD_WINDOW_MASK = _ODD_WINDOW_MASK then
    AWS_IOT_LARGE_OBJECT_WINDOW_ODD
  else AWS_IOT_LARGE_OBJECT_WINDOW_EVEN

/-- The three bytes of an ACK frame without bitmap: the session id, low byte first, and
the error code. -/
def shortAck (usSessionId : Nat) (xErrorCode : AwsIotLargeObjectTransferError) : List Nat :=
  [usSessionId % 256, usSessionId / 256 % 256, xErrorCode.code]

/-- The receive session after `prvProcessBlock` has stored a block that is new to the
window: bit cleared, data copied, buffer length and block count updated, and the window
marked as the last one when the frame carries `LAST_BLOCK`; the state before the test for
the completion of the window. -/
def blockStored (pxSession : AwsIotLargeObjectReceiveSession) (pucBlock : List Nat)
    (xLength : Nat) : AwsIotLargeObjectReceiveSession :=
  let usBlockNum := _BLOCK_NUMBER pucBlock
  let s1 := { pxSession with
    ucBlockBitMap := prvSetBlockReceived pxSession.ucBlockBitMap usBlockNum
    pucBuffer := memWrite pxSession.pucBuffer (usBlockNum * pxSession.usBlockSize)
      (memRead (_BLOCK_DATA pucBlock) (_BLOCK_LENGTH xLength))
    xBufferLength := sizeAdd pxSession.xBufferLength (_BLOCK_LENGTH xLength)
    usNumBlocksReceived := toU16 (pxSession.usNumBlocksReceived + 1) }
  if _FLAGS pucBlock &&& _LAST_BLOCK_MASK = _LAST_BLOCK_MASK then
    { s1 with usNumWindowBlocks := toU16 (usBlockNum + 1), xLastWindow := true }
  else s1

/-- The first send session of the context that holds the session id, as the first loop of
the dispatcher finds it. -/
def firstSendSession (ctx : AwsIotLargeObjectTransferContext) (usSessionID : Nat) :
    Option AwsIotLargeObjectSendSession :=
  ctx.pxSendSessions.find? (fun s => decide (s.usSessionID = usSessionID))

/-- The first receive session of the context that holds the session id, as the second loop
of the dispatcher finds it. -/
def firstRecvSession (ctx : AwsIotLargeObjectTransferContext) (usSessionID : Nat) :
    Option AwsIotLargeObjectReceiveSession :=
  ctx.pxRecvSessions.find? (fun s => decide (s.usSessionID = usSessionID))

/-- A context whose send session is Open with id 1 (100-byte object) and whose receive
session has been closed while holding the id 5. -/
def closedRecvContext : AwsIotLargeObjectTransferContext :=
  { busyContext with
    pxRecvSessions :=
      [{ scenarioReceiving with
          usSessionID := 5
          xState := eAwsIotLargeObjectTransferClosed }] }

/-- The frames are ingested by the receive session one after the other, each with its own
length, by `prvProcessBlock`. -/
def feed (p : Platform) :
    List (List Nat) → AwsIotLargeObjectReceiveSession × World →
      AwsIotLargeObjectReceiveSession × World
  | [], x => x
  | f :: fs, x => feed p fs (prvProcessBlock p x.1 f f.length x.2)

/-- A context whose only receive session is Open with id 1 in the middle of a window:
the scenario receive session after the ingest of block 1. -/
def receivingContext : AwsIotLargeObjectTransferContext :=
  { scenarioContext with
    pxRecvSessions :=
      [(prvProcessBlock idealPlatform scenarioReceiving (fullBlock 1 7) 23 World.empty).1] }

/-- The receive session after `prvProcessBlock` has reset it at the completion of a
window: ACK timer stopped, buffer length and block count zero, a full window expected,
bitmap all ones, colour toggled. -/
def windowReset (s : AwsIotLargeObjectReceiveSession) : AwsIotLargeObjectReceiveSession :=
  { s with
    xAckTimer := false
    xBufferLength := 0
    usNumBlocksReceived := 0
    usNumWindowBlocks := s.usWindowSize
    ucBlockBitMap := List.replicate IOT_LARGE_OBJECT_TRANSFER_BITMAP_SIZE 0xFF
    xWindowType := toggleWindow s.xWindowType }

/-- A sequence of `prvProcessBlock` calls on a receive session, each call given by the
memory at the frame pointer and the reported frame length. -/
def feedCalls (p : Platform) :
    List (List Nat × Nat) → AwsIotLargeObjectReceiveSession × World →
      AwsIotLargeObjectReceiveSession × World
  | [], x => x
  | c :: cs, x => feedCalls p cs (prvProcessBlock p x.1 c.1 c.2 x.2)

/-- A platform whose network reports 0 bytes sent for every frame; allocations succeed. -/
def deafNetwork : Platform :=
  { send := fun _ _ => 0, malloc := fun _ => true, xTimerCreate := true, sizeofSession := 64 }

/-- A platform whose allocator refuses requests of more than 65536 bytes; the network
accepts every frame. -/
def boundedHeap : Platform :=
  { send := fun _ f => f.length, malloc := fun n => decide (n ≤ 65536), xTimerCreate := true,
    sizeofSession := 64 }

/-- The number of blocks `k < usWindowSize` the bitmap of the session reports as received
(bit `k` cleared). -/
def clearedBits (s : AwsIotLargeObjectReceiveSession) : Nat :=
  (List.range s.usWindowSize).countP (fun k => prxIsBlockReceived s.ucBlockBitMap k)

/-- The number of blocks `k < usWindowSize` the bitmap of the session reports as missing
(bit `k` set). -/
def setBits (s : AwsIotLargeObjectReceiveSession) : Nat :=
  (List.range s.usWindowSize).countP (fun k => !prxIsBlockReceived s.ucBlockBitMap k)

/-- The receive slot of the scenario as `prxInitSession` leaves it, before a session is
opened in it. -/
def scenarioSlot : AwsIotLargeObjectReceiveSession :=
  (prxInitSession_xRecv idealPlatform scenarioParams zeroedReceiveSession).2

/-- An Open send session with window size 16 (block size 18) holding a 400-byte object at
offset 0. -/
def wideSending : AwsIotLargeObjectSendSession :=
  { scenarioSending (List.range 400) 0 AWS_IOT_LARGE_OBJECT_WINDOW_EVEN with
    usWindowSize := 16 }

theorem sizeAdd_eq {a b : Nat} (h : a + b < 2 ^ 32) : sizeAdd a b = a + b := by
  unfold sizeAdd SIZE_MOD
  exact Nat.mod_eq_of_lt h

theorem sizeSub_eq {a b : Nat} (h : b ≤ a) (ha : a < 2 ^ 32) : sizeSub a b = a - b := by
  unfold sizeSub SIZE_MOD
  have : a + 2 ^ 32 - b = (a - b) + 2 ^ 32 := by omega
  rw [this, Nat.add_mod_right]
  exact Nat.mod_eq_of_lt (by omega)

theorem memRead_eq_take {m : List Nat} {n : Nat} (h : n ≤ m.length) : memRead m n = m.take n := by
  unfold memRead
  have : n - m.length = 0 := by omega
  simp [this]

theorem memRead_length (m : List Nat) (n : Nat) : (memRead m n).length = n := by
  unfold memRead
  simp
  omega

theorem blockLength_eq {n : Nat} (h : n + 5 < 2 ^ 32) : _BLOCK_LENGTH n = n + 5 := by
  unfold _BLOCK_LENGTH _BLOCK_HEADER_LENGTH _SESSION_ID_LENGTH _FLAGS_LENGTH _BLOCK_NUMBER_LENGTH
  exact sizeAdd_eq h

theorem flags_eq (xLastBlock xResume : Bool) (xWindowType : AwsIotLargeObjectWindowType) :
    (if xWindowType = AWS_IOT_LARGE_OBJECT_WINDOW_ODD then
        (if xResume = true then
            (if xLastBlock = true then _FLAGS_INTIALIZER ||| _LAST_BLOCK_MASK
              else _FLAGS_INTIALIZER) ||| _RESUME_SESSION_MASK
          else
            if xLastBlock = true then _FLAGS_INTIALIZER ||| _LAST_BLOCK_MASK
            else _FLAGS_INTIALIZER) ||| _ODD_WINDOW_MASK
      else
        if xResume = true then
          (if xLastBlock = true then _FLAGS_INTIALIZER ||| _LAST_BLOCK_MASK
            else _FLAGS_INTIALIZER) ||| _RESUME_SESSION_MASK
        else
          if xLastBlock = true then _FLAGS_INTIALIZER ||| _LAST_BLOCK_MASK
          else _FLAGS_INTIALIZER) = flagsByte xLastBlock xResume xWindowType := by
  cases xLastBlock <;> cases xResume <;> cases xWindowType <;> decide

/-- What `prxSendBlock` does when the frame length does not wrap and the payload lies inside
the region. -/
theorem prxSendBlock_eq (p : Platform) (usSessionId usBlockNum : Nat) (xLastBlock xResume : Bool)
    (xWindowType : AwsIotLargeObjectWindowType) (m : List Nat) (n : Nat) (w : World)
    (hn : n ≤ m.length) (hlen : n + 5 < 2 ^ 32) :
    prxSendBlock p usSessionId usBlockNum xLastBlock xResume xWindowType m n w =
      if p.malloc (n + 5) = true then
        (if p.send w.sent (dataFrame usSessionId usBlockNum
              (flagsByte xLastBlock xResume xWindowType) (m.take n)) < n + 5
          then AWS_IOT_LARGE_OBJECT_TRANSFER_NETWORK_ERROR
          else AWS_IOT_LARGE_OBJECT_TRANSFER_SUCCESS,
         { w with sent := w.sent ++ [dataFrame usSessionId usBlockNum
              (flagsByte xLastBlock xResume xWindowType) (m.take n)] })
      else (AWS_IOT_LARGE_OBJECT_TRANSFER_NO_MEMORY, w) := by
  unfold prxSendBlock
  simp only [blockLength_eq hlen, memRead_eq_take hn, flags_eq]
  have hF : List.take (n + 5) (storeU16 usSessionId ++ storeU16 usBlockNum ++
      [flagsByte xLastBlock xResume xWindowType] ++ List.take n m)
      = dataFrame usSessionId usBlockNum (flagsByte xLastBlock xResume xWindowType) (m.take n) := by
    rw [List.take_of_length_le]
    · simp [storeU16, dataFrame]
    · simp [storeU16]
  rw [hF]
  split
  · split <;> rfl
  · rfl

theorem prxSendWindow_loop_eq (p : Platform) (s : AwsIotLargeObjectSendSession)
    (hnet : p.AcceptsAll) (hmem : p.AllocOk)
    (hobj : s.pucObject.length = s.xObjectLength)
    (hsz : s.xObjectLength + s.usBlockSize + 5 < 2 ^ 32) :
    ∀ (n k : Nat) (w : World), s.xOffset + k * s.usBlockSize < s.xObjectLength →
      prxSendWindow.loop p s n k w =
        (AWS_IOT_LARGE_OBJECT_TRANSFER_SUCCESS, { w with sent := w.sent ++ windowFrames s n k }) := by
  intro n
  induction n with
  | zero => intro k w _; simp [prxSendWindow.loop, windowFrames]
  | succ n ih =>
    intro k w hk
    have h1 : sizeAdd s.xOffset (k * s.usBlockSize) = s.xOffset + k * s.usBlockSize :=
      sizeAdd_eq (by omega)
    have h2 : sizeAdd (s.xOffset + k * s.usBlockSize) s.usBlockSize
        = s.xOffset + k * s.usBlockSize + s.usBlockSize := sizeAdd_eq (by omega)
    have h3 : sizeSub s.xObjectLength (s.xOffset + k * s.usBlockSize)
        = s.xObjectLength - (s.xOffset + k * s.usBlockSize) := sizeSub_eq (by omega) (by omega)
    unfold prxSendWindow.loop windowFrames
    simp only [h1, h2, h3, ge_iff_le]
    by_cases hlast : s.xObjectLength ≤ s.xOffset + k * s.usBlockSize + s.usBlockSize
    · simp only [hlast, decide_True, if_true]
      rw [prxSendBlock_eq _ _ _ _ _ _ _ _ _ (by simp; omega) (by omega)]
      have := hnet w.sent (dataFrame s.usSessionID k (flagsByte true false s.xWindowType)
        ((s.pucObject.drop (s.xOffset + k * s.usBlockSize)).take
          (s.xObjectLength - (s.xOffset + k * s.usBlockSize))))
      have hl : (dataFrame s.usSessionID k (flagsByte true false s.xWindowType)
        ((s.pucObject.drop (s.xOffset + k * s.usBlockSize)).take
          (s.xObjectLength - (s.xOffset + k * s.usBlockSize)))).length
          = s.xObjectLength - (s.xOffset + k * s.usBlockSize) + 5 := by
        simp [dataFrame]; omega
      rw [hl] at this
      simp [hmem _, Nat.not_lt.mpr this]
    · simp only [hlast, decide_False, if_false, Bool.false_eq_true]
      rw [prxSendBlock_eq _ _ _ _ _ _ _ _ _ (by simp; omega) (by omega)]
      have := hnet w.sent (dataFrame s.usSessionID k (flagsByte false false s.xWindowType)
        ((s.pucObject.drop (s.xOffset + k * s.usBlockSize)).take s.usBlockSize))
      have hl : (dataFrame s.usSessionID k (flagsByte false false s.xWindowType)
        ((s.pucObject.drop (s.xOffset + k * s.usBlockSize)).take s.usBlockSize)).length
          = s.usBlockSize + 5 := by
        simp [dataFrame]; omega
      rw [hl] at this
      simp only [hmem _, Nat.not_lt.mpr this, if_true, if_false, ne_eq, not_true_eq_false]
      rw [ih (k + 1) _ (by rw [Nat.add_mul]; omega)]
      simp

theorem windowFrames_length_le (s : AwsIotLargeObjectSendSession) :
    ∀ n k, (windowFrames s n k).length ≤ n := by
  intro n
  induction n with
  | zero => intro k; simp [windowFrames]
  | succ n ih =>
    intro k
    unfold windowFrames
    simp only
    split
    · simp
    · simp only [List.length_cons]
      have := ih (k + 1)
      omega

theorem windowFrames_get (s : AwsIotLargeObjectSendSession) :
    ∀ n k i, (h : i < (windowFrames s n k).length) →
      (windowFrames s n k)[i] = blockFrame s (k + i)
      ∧ (s.xObjectLength ≤ s.xOffset + (k + i + 1) * s.usBlockSize → i + 1 = (windowFrames s n k).length)
      ∧ (s.xOffset + k * s.usBlockSize < s.xObjectLength →
          s.xOffset + (k + i) * s.usBlockSize < s.xObjectLength) := by
  intro n
  induction n with
  | zero => intro k i h; simp [windowFrames] at h
  | succ n ih =>
    intro k i h
    unfold windowFrames at h ⊢
    simp only at h ⊢
    by_cases hlast : s.xObjectLength ≤ s.xOffset + k * s.usBlockSize + s.usBlockSize
    · simp only [hlast, if_true, List.length_singleton] at h ⊢
      have hi : i = 0 := by omega
      subst hi
      refine ⟨?_, fun _ => rfl, fun h => h⟩
      simp only [List.getElem_cons_zero, blockFrame, Nat.add_zero]
      have e : s.xOffset + (k + 1) * s.usBlockSize = s.xOffset + k * s.usBlockSize + s.usBlockSize := by
        rw [Nat.add_mul]; omega
      rw [e, Nat.min_eq_right hlast, List.drop_take]
      simp [hlast]
    · simp only [hlast, if_false, List.length_cons] at h ⊢
      have e : s.xOffset + (k + 1) * s.usBlockSize = s.xOffset + k * s.usBlockSize + s.usBlockSize := by
        rw [Nat.add_mul]; omega
      cases i with
      | zero =>
        refine ⟨?_, ?_, fun h => h⟩
        · simp only [List.getElem_cons_zero, blockFrame, Nat.add_zero]
          rw [e, Nat.min_eq_left (by omega), List.drop_take]
          simp [hlast]
        · intro h'
          rw [Nat.add_zero, e] at h'
          exact absurd h' hlast
      | succ i =>
        have hi : i < (windowFrames s n (k + 1)).length := by omega
        obtain ⟨h1, h2, h3⟩ := ih (k + 1) i hi
        have ek : k + 1 + i = k + (i + 1) := by omega
        refine ⟨?_, ?_, ?_⟩
        · simp only [List.getElem_cons_succ]
          rw [h1, ek]
        · intro h'
          rw [← ek] at h'
          have := h2 h'
          omega
        · intro _
          rw [← ek]
          exact h3 (by rw [e]; omega)

theorem prxSendWindow_loop_sent (p : Platform) (s : AwsIotLargeObjectSendSession)
    (hobj : s.pucObject.length = s.xObjectLength)
    (hsz : s.xObjectLength + s.usBlockSize + 5 < 2 ^ 32) :
    ∀ (n k : Nat) (w : World), s.xOffset + k * s.usBlockSize < s.xObjectLength →
      ∃ fs, (prxSendWindow.loop p s n k w).2.sent = w.sent ++ fs ∧ fs <+: windowFrames s n k := by
  intro n
  induction n with
  | zero => intro k w _; exact ⟨[], by simp [prxSendWindow.loop], List.nil_prefix⟩
  | succ n ih =>
    intro k w hk
    have h1 : sizeAdd s.xOffset (k * s.usBlockSize) = s.xOffset + k * s.usBlockSize :=
      sizeAdd_eq (by omega)
    have h2 : sizeAdd (s.xOffset + k * s.usBlockSize) s.usBlockSize
        = s.xOffset + k * s.usBlockSize + s.usBlockSize := sizeAdd_eq (by omega)
    have h3 : sizeSub s.xObjectLength (s.xOffset + k * s.usBlockSize)
        = s.xObjectLength - (s.xOffset + k * s.usBlockSize) := sizeSub_eq (by omega) (by omega)
    unfold prxSendWindow.loop windowFrames
    simp only [h1, h2, h3, ge_iff_le]
    by_cases hlast : s.xObjectLength ≤ s.xOffset + k * s.usBlockSize + s.usBlockSize
    · simp only [hlast, decide_True, if_true]
      rw [prxSendBlock_eq _ _ _ _ _ _ _ _ _ (by simp; omega) (by omega)]
      by_cases hm : p.malloc (s.xObjectLength - (s.xOffset + k * s.usBlockSize) + 5) = true
      · simp only [hm, if_true]
        split <;> exact ⟨_, rfl, List.prefix_refl _⟩
      · simp only [hm, if_false]
        exact ⟨[], by simp, List.nil_prefix⟩
    · simp only [hlast, decide_False, if_false, Bool.false_eq_true]
      rw [prxSendBlock_eq _ _ _ _ _ _ _ _ _ (by simp; omega) (by omega)]
      by_cases hm : p.malloc (s.usBlockSize + 5) = true
      · simp only [hm, if_true]
        by_cases hs : p.send w.sent (dataFrame s.usSessionID k
            (flagsByte false false s.xWindowType)
            ((s.pucObject.drop (s.xOffset + k * s.usBlockSize)).take s.usBlockSize))
            < s.usBlockSize + 5
        · simp only [hs, if_true]
          exact ⟨[_], rfl, by simp⟩
        · simp only [hs, if_false, ne_eq, not_true_eq_false]
          obtain ⟨fs, hfs, hpre⟩ := ih (k + 1) { w with sent := w.sent ++ [dataFrame s.usSessionID k
            (flagsByte false false s.xWindowType)
            ((s.pucObject.drop (s.xOffset + k * s.usBlockSize)).take s.usBlockSize)] }
            (by rw [Nat.add_mul]; omega)
          refine ⟨dataFrame s.usSessionID k (flagsByte false false s.xWindowType)
            ((s.pucObject.drop (s.xOffset + k * s.usBlockSize)).take s.usBlockSize) :: fs, ?_, ?_⟩
          · rw [hfs]; simp
          · exact (List.prefix_cons_inj _).mpr hpre
      · simp only [hm, if_false]
        exact ⟨[], by simp, List.nil_prefix⟩

theorem loadU16_eq (a b : Nat) (rest : List Nat) (k : Nat) (hk : k < 65536) :
    loadU16 (a :: b :: k % 256 :: k / 256 % 256 :: rest) 2 = k := by
  simp [loadU16]
  omega

theorem blockFrame_number (s : AwsIotLargeObjectSendSession) (k : Nat) (hk : k < 65536) :
    _BLOCK_NUMBER (blockFrame s k) = k := by
  simp only [_BLOCK_NUMBER, _SESSION_ID_LENGTH, blockFrame, dataFrame, List.cons_append]
  exact loadU16_eq _ _ _ k hk

theorem blockFrame_data (s : AwsIotLargeObjectSendSession) (k : Nat) :
    _BLOCK_DATA (blockFrame s k) =
      (s.pucObject.take (min (s.xOffset + (k + 1) * s.usBlockSize) s.xObjectLength)).drop
        (s.xOffset + k * s.usBlockSize) := by
  simp [_BLOCK_DATA, _BLOCK_HEADER_LENGTH, _SESSION_ID_LENGTH, _FLAGS_LENGTH,
    _BLOCK_NUMBER_LENGTH, blockFrame, dataFrame]

theorem blockFrame_flags (s : AwsIotLargeObjectSendSession) (k : Nat) :
    _FLAGS (blockFrame s k) =
      flagsByte (decide (s.xObjectLength ≤ s.xOffset + (k + 1) * s.usBlockSize)) false
        s.xWindowType := by
  simp [_FLAGS, _SESSION_ID_LENGTH, _BLOCK_NUMBER_LENGTH, blockFrame, dataFrame]

theorem blockFrame_length (s : AwsIotLargeObjectSendSession) (k : Nat)
    (hobj : s.pucObject.length = s.xObjectLength) :
    (blockFrame s k).length =
      min (s.xOffset + (k + 1) * s.usBlockSize) s.xObjectLength
        - (s.xOffset + k * s.usBlockSize) + 5 := by
  simp [blockFrame, dataFrame, hobj]

theorem maxBlockDataLen_eq {mtu : Nat} (h5 : 5 ≤ mtu) (h16 : mtu < 65536) :
    _MAX_BLOCK_DATA_LEN mtu = mtu - 5 := by
  unfold _MAX_BLOCK_DATA_LEN toU16 _BLOCK_HEADER_LENGTH _SESSION_ID_LENGTH _FLAGS_LENGTH
    _BLOCK_NUMBER_LENGTH
  omega

/-- C3: window transmission. For a send session with `xOffset < xObjectLength` whose block
size is `mtu - 5` (`6 ≤ mtu`), on a platform that accepts every frame (and whose allocations
succeed), `prxSendWindow` returns Success and hands the network a list `fs` of at most
`usWindowSize` frames; frame `k` carries block number `k` and as payload exactly the object
bytes `[xOffset + k * usBlockSize, min (xOffset + (k + 1) * usBlockSize) xObjectLength)`, so
every payload has between 1 and `usBlockSize` bytes and no frame is longer than `mtu` bytes. -/
theorem prxSendWindow_blocks (p : Platform) (s : AwsIotLargeObjectSendSession) (w : World)
    (mtu : Nat) (hnet : p.AcceptsAll) (hmem : p.AllocOk)
    (hobj : s.pucObject.length = s.xObjectLength)
    (hoff : s.xOffset < s.xObjectLength)
    (hmtu : 6 ≤ mtu) (hmtu16 : mtu < 65536) (hbs : s.usBlockSize = _MAX_BLOCK_DATA_LEN mtu)
    (hws : s.usWindowSize < 65536) (hsz : s.xObjectLength + mtu < 2 ^ 32) :
    ∃ fs : List (List Nat),
      prxSendWindow p s w
          = (AWS_IOT_LARGE_OBJECT_TRANSFER_SUCCESS, { w with sent := w.sent ++ fs })
      ∧ fs.length ≤ s.usWindowSize
      ∧ s.usBlockSize = mtu - 5
      ∧ ∀ (k : Nat) (hk : k < fs.length),
          _BLOCK_NUMBER fs[k] = k
          ∧ _BLOCK_DATA fs[k] =
              (s.pucObject.take (min (s.xOffset + (k + 1) * s.usBlockSize) s.xObjectLength)).drop
                (s.xOffset + k * s.usBlockSize)
          ∧ 1 ≤ (_BLOCK_DATA fs[k]).length
          ∧ (_BLOCK_DATA fs[k]).length ≤ s.usBlockSize
          ∧ fs[k].length ≤ mtu := by
  have hbs' : s.usBlockSize = mtu - 5 := by rw [hbs, maxBlockDataLen_eq (by omega) hmtu16]
  refine ⟨windowFrames s s.usWindowSize 0, ?_, windowFrames_length_le s _ _, hbs', ?_⟩
  · unfold prxSendWindow
    rw [if_pos hoff]
    exact prxSendWindow_loop_eq p s hnet hmem hobj (by omega) _ 0 w (by simpa using hoff)
  · intro k hk
    obtain ⟨h1, _, h3⟩ := windowFrames_get s s.usWindowSize 0 k hk
    have hlt := h3 (by simpa using hoff)
    have hle := windowFrames_length_le s s.usWindowSize 0
    rw [Nat.zero_add] at h1 hlt
    rw [h1]
    have hd := blockFrame_data s k
    have hl := blockFrame_length s k hobj
    have e : s.xOffset + (k + 1) * s.usBlockSize = s.xOffset + k * s.usBlockSize + s.usBlockSize := by
      rw [Nat.add_mul]; omega
    refine ⟨blockFrame_number s k (by omega), hd, ?_, ?_, ?_⟩
    · rw [hd]; simp [hobj]; omega
    · rw [hd]; simp [hobj]; omega
    · rw [hl]; omega

theorem and_two_pow_eq_zero_iff (x b : Nat) : x &&& 2 ^ b = 0 ↔ x.testBit b = false := by
  constructor
  · intro h
    have := Nat.testBit_and x (2 ^ b) b
    rw [h, Nat.zero_testBit, Nat.testBit_two_pow_self, Bool.and_true] at this
    exact this.symm
  · intro h
    apply Nat.eq_of_testBit_eq
    intro i
    rw [Nat.testBit_and, Nat.zero_testBit, Nat.testBit_two_pow]
    by_cases hb : b = i
    · subst hb; simp [h]
    · simp [hb]

theorem prxIsBlockReceived_iff (bm : List Nat) (k : Nat) :
    prxIsBlockReceived bm k = true ↔ (bm.getD (k / 8) 0).testBit (k % 8) = false := by
  unfold prxIsBlockReceived
  have h3 : k >>> 3 = k / 8 := by rw [Nat.shiftRight_eq_div_pow]
  have h7 : k &&& 0x7 = k % 8 := Nat.and_pow_two_sub_one_eq_mod k 3
  simp only [h3, h7, Nat.one_shiftLeft, decide_eq_true_eq]
  exact and_two_pow_eq_zero_iff _ _

theorem testBit_cleared (v b c : Nat) (hc : c < 8) :
    (toU8 (v &&& intNot (0x1 <<< b))).testBit c = (v.testBit c && decide (b ≠ c)) := by
  unfold toU8 intNot
  have h256 : (256 : Nat) = 2 ^ 8 := by norm_num
  rw [h256, Nat.testBit_mod_two_pow, Nat.testBit_and, Nat.testBit_xor,
    Nat.testBit_two_pow_sub_one, Nat.one_shiftLeft, Nat.testBit_two_pow]
  have : c < 32 := by omega
  by_cases hbc : b = c <;> simp [hc, this, hbc]

theorem getD_prvSetBlockReceived (bm : List Nat) (k i : Nat) (hk : k / 8 < bm.length) :
    (prvSetBlockReceived bm k).getD i 0 =
      if i = k / 8 then toU8 (bm.getD (k / 8) 0 &&& intNot (0x1 <<< (k % 8))) else bm.getD i 0 := by
  unfold prvSetBlockReceived
  have h3 : k >>> 3 = k / 8 := by rw [Nat.shiftRight_eq_div_pow]
  have h7 : k &&& 0x7 = k % 8 := Nat.and_pow_two_sub_one_eq_mod k 3
  simp only [h3, h7, List.getD_eq_getElem?_getD, List.getElem?_set]
  by_cases h : k / 8 = i
  · subst h; simp [hk]
  · have h' : ¬ i = k / 8 := fun e => h e.symm
    simp [h, h']

/-- C8: bitmap packing and operations. For every 4-byte bitmap and block indices
`j, k < 32`: `prxIsBlockReceived` reports block `k` received exactly when bit `k % 8`
(least-significant bit first) of byte `k / 8` is 0; after `prvSetBlockReceived` of `k`
block `k` is reported received, and for every `j ≠ k` the report for `j` is unchanged. -/
theorem bitmap_packing (bm : List Nat) (j k : Nat) (hlen : bm.length = 4) (_hj : j < 32)
    (hk : k < 32) :
    (prxIsBlockReceived bm k = true ↔ (bm.getD (k / 8) 0).testBit (k % 8) = false)
    ∧ prxIsBlockReceived (prvSetBlockReceived bm k) k = true
    ∧ (j ≠ k → prxIsBlockReceived (prvSetBlockReceived bm k) j = prxIsBlockReceived bm j) := by
  have hk8 : k / 8 < bm.length := by omega
  refine ⟨prxIsBlockReceived_iff bm k, ?_, ?_⟩
  · rw [prxIsBlockReceived_iff, getD_prvSetBlockReceived bm k _ hk8, if_pos rfl,
      testBit_cleared _ _ _ (Nat.mod_lt _ (by norm_num))]
    simp
  · intro hjk
    rw [Bool.eq_iff_iff, prxIsBlockReceived_iff, prxIsBlockReceived_iff,
      getD_prvSetBlockReceived bm k _ hk8]
    by_cases h : j / 8 = k / 8
    · rw [if_pos h, testBit_cleared _ _ _ (Nat.mod_lt _ (by norm_num)), h]
      have : k % 8 ≠ j % 8 := by omega
      simp [this]
    · rw [if_neg h]


theorem flagsByte_last (l : Bool) (wt : AwsIotLargeObjectWindowType) :
    (flagsByte l false wt &&& _LAST_BLOCK_MASK = _LAST_BLOCK_MASK) ↔ l = true := by
  cases l <;> cases wt <;> decide

theorem getElem_of_isPrefix {α : Type} {l₁ l₂ : List α} (h : l₁ <+: l₂) (k : Nat) (hk : k < l₁.length)
    (hk2 : k < l₂.length) : l₁[k] = l₂[k] := by
  obtain ⟨t, rfl⟩ := h
  rw [List.getElem_append_left]

/-- What `prxSendWindow` hands to the network on any platform: a prefix of the window. -/
theorem prxSendWindow_sent (p : Platform) (s : AwsIotLargeObjectSendSession) (w : World)
    (hobj : s.pucObject.length = s.xObjectLength)
    (hsz : s.xObjectLength + s.usBlockSize + 5 < 2 ^ 32) :
    ∃ fs, (prxSendWindow p s w).2.sent = w.sent ++ fs ∧ fs <+: windowFrames s s.usWindowSize 0
      ∧ (fs ≠ [] → s.xOffset < s.xObjectLength) := by
  unfold prxSendWindow
  by_cases hoff : s.xOffset < s.xObjectLength
  · rw [if_pos hoff]
    obtain ⟨fs, h1, h2⟩ := prxSendWindow_loop_sent p s hobj hsz s.usWindowSize 0 w
      (by simpa using hoff)
    exact ⟨fs, h1, h2, fun _ => hoff⟩
  · rw [if_neg hoff]
    exact ⟨[], by simp, List.nil_prefix, fun h => absurd rfl h⟩

/-- C4: the `LAST_BLOCK` flag. On every platform, the frames `fs` that `prxSendWindow` hands
to the network are numbered `0, 1, 2, ...`, frame `k` carries the object bytes
`[xOffset + k * usBlockSize, min (xOffset + (k + 1) * usBlockSize) xObjectLength)`, its
`LAST_BLOCK` bit is set exactly when that range ends at `xObjectLength`, and a frame with
the bit set is the last frame of the window (no block with a higher number follows). -/
theorem prxSendWindow_last_block (p : Platform) (s : AwsIotLargeObjectSendSession) (w : World)
    (hobj : s.pucObject.length = s.xObjectLength)
    (hws : s.usWindowSize < 65536)
    (hsz : s.xObjectLength + s.usBlockSize + 5 < 2 ^ 32) :
    ∃ fs : List (List Nat),
      (prxSendWindow p s w).2.sent = w.sent ++ fs
      ∧ ∀ (k : Nat) (hk : k < fs.length),
          _BLOCK_NUMBER fs[k] = k
          ∧ _BLOCK_DATA fs[k] =
              (s.pucObject.take (min (s.xOffset + (k + 1) * s.usBlockSize) s.xObjectLength)).drop
                (s.xOffset + k * s.usBlockSize)
          ∧ ((_FLAGS fs[k] &&& _LAST_BLOCK_MASK = _LAST_BLOCK_MASK)
              ↔ min (s.xOffset + (k + 1) * s.usBlockSize) s.xObjectLength = s.xObjectLength)
          ∧ ((_FLAGS fs[k] &&& _LAST_BLOCK_MASK = _LAST_BLOCK_MASK) → k + 1 = fs.length) := by
  obtain ⟨fs, h1, h2, _⟩ := prxSendWindow_sent p s w hobj hsz
  refine ⟨fs, h1, ?_⟩
  intro k hk
  have hk' : k < (windowFrames s s.usWindowSize 0).length := Nat.lt_of_lt_of_le hk h2.length_le
  obtain ⟨g1, g2, _⟩ := windowFrames_get s s.usWindowSize 0 k hk'
  have hle := windowFrames_length_le s s.usWindowSize 0
  rw [Nat.zero_add] at g1 g2
  rw [getElem_of_isPrefix h2 k hk hk', g1]
  have hfl : (_FLAGS (blockFrame s k) &&& _LAST_BLOCK_MASK = _LAST_BLOCK_MASK)
      ↔ s.xObjectLength ≤ s.xOffset + (k + 1) * s.usBlockSize := by
    rw [blockFrame_flags, flagsByte_last]
    simp
  refine ⟨blockFrame_number s k (by omega), blockFrame_data s k, ?_, ?_⟩
  · rw [hfl]
    constructor
    · intro h; exact Nat.min_eq_right h
    · intro h; rw [← h]; exact Nat.min_le_left _ _
  · intro h
    have := g2 (hfl.mp h)
    have := h2.length_le
    omega

theorem flagsByte_eq_expected (s : AwsIotLargeObjectSendSession) (k : Nat)
    (hin : s.xOffset + k * s.usBlockSize < s.xObjectLength) :
    flagsByte (decide (s.xObjectLength ≤ s.xOffset + (k + 1) * s.usBlockSize)) false
      s.xWindowType = expectedFlags s k := by
  unfold expectedFlags flagsByte
  by_cases h : s.xObjectLength ≤ s.xOffset + (k + 1) * s.usBlockSize <;>
    cases s.xWindowType <;> simp [h, hin]

theorem expectedFlags_bits (s : AwsIotLargeObjectSendSession) (k : Nat) :
    expectedFlags s k &&& _RESERVED_BITS_MASK = _RESERVED_BITS_MASK
    ∧ expectedFlags s k &&& _RESUME_SESSION_MASK = 0
    ∧ (expectedFlags s k &&& _ODD_WINDOW_MASK = _ODD_WINDOW_MASK
        ↔ s.xWindowType = AWS_IOT_LARGE_OBJECT_WINDOW_ODD) := by
  unfold expectedFlags
  by_cases h : s.xOffset + k * s.usBlockSize < s.xObjectLength
      ∧ s.xObjectLength ≤ s.xOffset + (k + 1) * s.usBlockSize <;>
    cases s.xWindowType <;> simp [h] <;> decide

/-- On any platform `prxSendBlock` hands the network nothing or one frame: the header and
the bytes read, cut to the computed frame length. -/
theorem prxSendBlock_sent (p : Platform) (usSessionId usBlockNum : Nat) (xLastBlock xResume : Bool)
    (xWindowType : AwsIotLargeObjectWindowType) (m : List Nat) (n : Nat) (w : World) :
    (prxSendBlock p usSessionId usBlockNum xLastBlock xResume xWindowType m n w).2.sent = w.sent
    ∨ (prxSendBlock p usSessionId usBlockNum xLastBlock xResume xWindowType m n w).2.sent
        = w.sent ++ [(usSessionId % 256 :: usSessionId / 256 % 256 :: usBlockNum % 256 ::
            usBlockNum / 256 % 256 :: flagsByte xLastBlock xResume xWindowType ::
            memRead m n).take (_BLOCK_LENGTH n)] := by
  unfold prxSendBlock
  simp only [flags_eq]
  by_cases hm : p.malloc (_BLOCK_LENGTH n) = true
  · right
    simp only [hm, if_true, storeU16]
    split <;> simp
  · left
    simp [hm]

theorem take_header_flags (a b c d e : Nat) (rest : List Nat) (L : Nat)
    (h : 5 ≤ ((a :: b :: c :: d :: e :: rest).take L).length) :
    _FLAGS ((a :: b :: c :: d :: e :: rest).take L) = e
    ∧ _BLOCK_NUMBER ((a :: b :: c :: d :: e :: rest).take L) = loadU16 [a, b, c, d] 2 := by
  have hL : 5 ≤ L := by
    rw [List.length_take] at h
    omega
  obtain ⟨L', rfl⟩ : ∃ L', L = L' + 5 := ⟨L - 5, by omega⟩
  simp [_FLAGS, _BLOCK_NUMBER, _SESSION_ID_LENGTH, _BLOCK_NUMBER_LENGTH, loadU16]

theorem sessionFree_true (x : AwsIotLargeObjectTransferStatus) : _SESSION_FREE x = true := by
  cases x <;> rfl

theorem windowFrames_congr (s t : AwsIotLargeObjectSendSession)
    (h1 : s.usSessionID = t.usSessionID) (h2 : s.pucObject = t.pucObject)
    (h3 : s.xObjectLength = t.xObjectLength) (h4 : s.xOffset = t.xOffset)
    (h5 : s.usBlockSize = t.usBlockSize) (h6 : s.xWindowType = t.xWindowType) :
    ∀ n k, windowFrames s n k = windowFrames t n k := by
  intro n
  induction n with
  | zero => intro k; rfl
  | succ n ih =>
    intro k
    unfold windowFrames
    simp only [h1, h2, h3, h4, h5, h6, ih]

/-- What `prxSendWindow` does on a platform that accepts every frame. -/
theorem prxSendWindow_eq (p : Platform) (s : AwsIotLargeObjectSendSession) (w : World)
    (hnet : p.AcceptsAll) (hmem : p.AllocOk)
    (hobj : s.pucObject.length = s.xObjectLength)
    (hsz : s.xObjectLength + s.usBlockSize + 5 < 2 ^ 32) :
    prxSendWindow p s w = (AWS_IOT_LARGE_OBJECT_TRANSFER_SUCCESS,
      { w with sent := w.sent ++
          (if s.xOffset < s.xObjectLength then windowFrames s s.usWindowSize 0 else []) }) := by
  unfold prxSendWindow
  by_cases hoff : s.xOffset < s.xObjectLength
  · rw [if_pos hoff, if_pos hoff]
    exact prxSendWindow_loop_eq p s hnet hmem hobj hsz _ 0 w (by simpa using hoff)
  · rw [if_neg hoff, if_neg hoff]
    simp

theorem windowFrames_ne_nil (s : AwsIotLargeObjectSendSession) (n k : Nat) (hn : 1 ≤ n) :
    windowFrames s n k ≠ [] := by
  obtain ⟨m, rfl⟩ : ∃ m, n = m + 1 := ⟨n - 1, by omega⟩
  unfold windowFrames
  simp only
  split <;> simp

/-- Every frame of a window carries the session id in its first two bytes. -/
theorem windowFrames_id (s : AwsIotLargeObjectSendSession) :
    ∀ n k, ∀ f ∈ windowFrames s n k,
      f.getD 0 0 = s.usSessionID % 256 ∧ f.getD 1 0 = s.usSessionID / 256 % 256 := by
  intro n
  induction n with
  | zero => intro k f hf; simp [windowFrames] at hf
  | succ n ih =>
    intro k f hf
    unfold windowFrames at hf
    simp only at hf
    split at hf
    · rw [List.mem_singleton] at hf
      subst hf
      simp [dataFrame]
    · rcases List.mem_cons.mp hf with rfl | hf
      · simp [dataFrame]
      · exact ih (k + 1) f hf

theorem send_eq (p : Platform) (ctx : AwsIotLargeObjectTransferContext) (obj : List Nat)
    (s0 : AwsIotLargeObjectSendSession) (rest : List AwsIotLargeObjectSendSession)
    (sid : Nat) (w : World)
    (hnet : p.AcceptsAll) (hmem : p.AllocOk)
    (hctx : ctx.pxSendSessions = s0 :: rest)
    (hsz : obj.length + s0.usBlockSize + 5 < 2 ^ 32) :
    AwsIotLargeObjectTransfer_Send p ctx obj obj.length sid w =
      { xError := AWS_IOT_LARGE_OBJECT_TRANSFER_SUCCESS,
        pxSendSessions :=
          { s0 with usSessionID := 1, pucObject := obj, xObjectLength := obj.length,
                    xOffset := 0, xWindowType := AWS_IOT_LARGE_OBJECT_WINDOW_EVEN,
                    usRetriesLeft := s0.usNumRetries, xRetransmitTimer := true,
                    xState := eAwsIotLargeObjectTransferOpen } :: rest,
        usSessionID := 0,
        world := { w with sent := w.sent ++
          (if 0 < obj.length then
            windowFrames { s0 with usSessionID := 1, pucObject := obj,
                                   xObjectLength := obj.length, xOffset := 0,
                                   xWindowType := AWS_IOT_LARGE_OBJECT_WINDOW_EVEN,
                                   usRetriesLeft := s0.usNumRetries } s0.usWindowSize 0
           else []) } } := by
  unfold AwsIotLargeObjectTransfer_Send
  rw [hctx]
  unfold AwsIotLargeObjectTransfer_Send.loop
  simp only [sessionFree_true, if_true]
  unfold prxOpenSendSession
  simp only
  rw [prxSendWindow_eq p _ w hnet hmem rfl hsz]
  simp [toU16]

theorem windowsFrom_congr (s t : AwsIotLargeObjectSendSession)
    (h1 : s.usSessionID = t.usSessionID) (h2 : s.pucObject = t.pucObject)
    (h3 : s.xObjectLength = t.xObjectLength) (h4 : s.usWindowSize = t.usWindowSize)
    (h5 : s.usBlockSize = t.usBlockSize) :
    ∀ n off wt, windowsFrom s n off wt = windowsFrom t n off wt := by
  intro n
  induction n with
  | zero => intro off wt; rfl
  | succ n ih =>
    intro off wt
    unfold windowsFrom
    rw [windowFrames_congr { s with xOffset := off, xWindowType := wt }
      { t with xOffset := off, xWindowType := wt } h1 h2 h3 rfl h5 rfl, ih, h3, h4, h5]

/-- What `prvProcessACK` does with a full ACK (three bytes, error code Success) on a
platform that accepts every frame. -/
theorem prvProcessACK_full (p : Platform) (s : AwsIotLargeObjectSendSession) (a b : Nat)
    (w : World) (hnet : p.AcceptsAll) (hmem : p.AllocOk)
    (hopen : s.xState = eAwsIotLargeObjectTransferOpen)
    (hobj : s.pucObject.length = s.xObjectLength)
    (hlen : s.xObjectLength + s.usBlockSize + 5 < 2 ^ 32)
    (hsz : s.xOffset + s.usWindowSize * s.usBlockSize < 2 ^ 32) :
    prvProcessACK p s [a, b, 0] 3 w =
      ({ s with usRetriesLeft := s.usNumRetries,
                xOffset := s.xOffset + s.usWindowSize * s.usBlockSize,
                xWindowType := toggleWindow s.xWindowType,
                xRetransmitTimer := true },
       { w with sent := w.sent ++
          (if s.xOffset + s.usWindowSize * s.usBlockSize < s.xObjectLength then
            windowFrames { s with xOffset := s.xOffset + s.usWindowSize * s.usBlockSize,
                                  xWindowType := toggleWindow s.xWindowType }
              s.usWindowSize 0
           else []) }) := by
  have hinc : _INCR_OFFSET s.xOffset s.usWindowSize s.usBlockSize
      = s.xOffset + s.usWindowSize * s.usBlockSize := sizeAdd_eq hsz
  have hbl : toU16 (_BITMAP_LEN 3) = 0 := by decide
  unfold prvProcessACK
  simp only [_MIN_ACK_LENGTH, _ACK_HEADER_LENGTH, Nat.lt_irrefl, if_false, _ERROR_CODE,
    List.getD_cons_succ, List.getD_cons_zero, AwsIotLargeObjectTransferError.code, if_true,
    hbl, hinc]
  have key := prxSendWindow_eq p
    { s with usRetriesLeft := s.usNumRetries, xRetransmitTimer := false,
             xOffset := s.xOffset + s.usWindowSize * s.usBlockSize,
             xWindowType := toggleWindow s.xWindowType } w hnet hmem hobj hlen
  have hc := windowFrames_congr
    { s with usRetriesLeft := s.usNumRetries, xRetransmitTimer := false,
             xOffset := s.xOffset + s.usWindowSize * s.usBlockSize,
             xWindowType := toggleWindow s.xWindowType }
    { s with xOffset := s.xOffset + s.usWindowSize * s.usBlockSize,
             xWindowType := toggleWindow s.xWindowType } rfl rfl rfl rfl rfl rfl
  simp only [hc] at key
  rw [key]
  simp only [ne_eq, not_true_eq_false, if_false, hopen, if_true]

/-- The dispatcher hands an inbound packet to the first send session when that session
is open and holds the packet's session id. -/
theorem prvNetworkReceiveCallback_head (p : Platform) (ctx : AwsIotLargeObjectTransferContext)
    (s : AwsIotLargeObjectSendSession) (rest : List AwsIotLargeObjectSendSession)
    (pkt : List Nat) (len : Nat) (w : World)
    (hctx : ctx.pxSendSessions = s :: rest)
    (hid : s.usSessionID = _SESSION_ID pkt)
    (hopen : s.xState = eAwsIotLargeObjectTransferOpen) :
    prvNetworkReceiveCallback p ctx pkt len w =
      ({ ctx with pxSendSessions := (prvProcessACK p s pkt len w).1 :: rest },
       (prvProcessACK p s pkt len w).2) := by
  unfold prvNetworkReceiveCallback
  rw [hctx]
  unfold prvNetworkReceiveCallback.sendLoop
  simp only [hid, hopen, if_true]

theorem ackWindows_eq (p : Platform) (hnet : p.AcceptsAll) (hmem : p.AllocOk) :
    ∀ (n : Nat) (ctx : AwsIotLargeObjectTransferContext) (w : World)
      (s : AwsIotLargeObjectSendSession) (rest : List AwsIotLargeObjectSendSession)
      (f : List Nat),
      ctx.pxSendSessions = s :: rest →
      s.xState = eAwsIotLargeObjectTransferOpen →
      s.usSessionID = 1 →
      s.pucObject.length = s.xObjectLength →
      1 ≤ s.usWindowSize →
      s.xObjectLength + s.usWindowSize * s.usBlockSize + s.usBlockSize + 5 < 2 ^ 32 →
      s.xOffset < s.xObjectLength →
      w.sent.getLast? = some f → f.getD 0 0 = 1 → f.getD 1 0 = 0 →
      ackWindows p n ctx w =
        windowsFrom s n (s.xOffset + s.usWindowSize * s.usBlockSize)
          (toggleWindow s.xWindowType) := by
  intro n
  induction n with
  | zero => intros; rfl
  | succ n ih =>
    intro ctx w s rest f hctx hopen hid hobj hws hsz hoff hlast hf0 hf1
    have hack : fullAckFor f = [1, 0, 0] := by
      unfold fullAckFor
      rw [hf0, hf1]
      rfl
    have hsid : s.usSessionID = _SESSION_ID [1, 0, 0] := by rw [hid]; decide
    unfold ackWindows windowsFrom
    simp only [hlast, hack]
    rw [prvNetworkReceiveCallback_head p ctx s rest _ 3 w hctx hsid hopen,
      prvProcessACK_full p s 1 0 w hnet hmem hopen hobj (by omega) (by omega)]
    simp only [List.drop_left]
    by_cases hnext : s.xOffset + s.usWindowSize * s.usBlockSize < s.xObjectLength
    · have hne := windowFrames_ne_nil
        { s with xOffset := s.xOffset + s.usWindowSize * s.usBlockSize,
                 xWindowType := toggleWindow s.xWindowType } s.usWindowSize 0 hws
      simp only [hnext, if_true, hne, if_false]
      congr 1
      have hlast' := List.getLast?_eq_getLast _ hne
      have hmem' := List.getLast_mem hne
      obtain ⟨g0, g1⟩ := windowFrames_id _ _ _ _ hmem'
      rw [ih _ _
        { s with usRetriesLeft := s.usNumRetries,
                 xOffset := s.xOffset + s.usWindowSize * s.usBlockSize,
                 xWindowType := toggleWindow s.xWindowType,
                 xRetransmitTimer := true } rest _ rfl hopen hid hobj hws hsz hnext
        (by rw [List.getLast?_append_of_ne_nil _ hne]; exact hlast')
        (by rw [g0, hid]) (by rw [g1, hid])]
      exact windowsFrom_congr
        { s with usRetriesLeft := s.usNumRetries,
                 xOffset := s.xOffset + s.usWindowSize * s.usBlockSize,
                 xWindowType := toggleWindow s.xWindowType,
                 xRetransmitTimer := true } s rfl rfl rfl rfl rfl _ _ _
    · simp [hnext]

theorem blockData_dataFrame (a b c : Nat) (payload : List Nat) :
    _BLOCK_DATA (dataFrame a b c payload) = payload := by
  simp [_BLOCK_DATA, _BLOCK_HEADER_LENGTH, _SESSION_ID_LENGTH, _FLAGS_LENGTH,
    _BLOCK_NUMBER_LENGTH, dataFrame]

theorem flags_dataFrame (a b c : Nat) (payload : List Nat) :
    _FLAGS (dataFrame a b c payload) = c := by
  simp [_FLAGS, _SESSION_ID_LENGTH, _BLOCK_NUMBER_LENGTH, dataFrame]

theorem flagsByte_odd (l : Bool) (wt : AwsIotLargeObjectWindowType) :
    (flagsByte l false wt &&& _ODD_WINDOW_MASK = _ODD_WINDOW_MASK)
      ↔ wt = AWS_IOT_LARGE_OBJECT_WINDOW_ODD := by
  cases l <;> cases wt <;> decide

/-- The payloads of a window, concatenated, are the next bytes of the object. -/
theorem windowFrames_payload (s : AwsIotLargeObjectSendSession)
    (hobj : s.pucObject.length = s.xObjectLength) :
    ∀ n k, ((windowFrames s n k).map _BLOCK_DATA).flatten
      = (s.pucObject.drop (s.xOffset + k * s.usBlockSize)).take (n * s.usBlockSize) := by
  intro n
  induction n with
  | zero => intro k; simp [windowFrames]
  | succ n ih =>
    intro k
    unfold windowFrames
    simp only
    have e : (n + 1) * s.usBlockSize = s.usBlockSize + n * s.usBlockSize := by
      rw [Nat.add_mul]; omega
    split
    · rename_i hlast
      simp only [List.map_cons, List.map_nil, List.flatten_cons, List.flatten_nil,
        List.append_nil, blockData_dataFrame]
      rw [List.take_of_length_le (by simp [hobj]), List.take_of_length_le (by simp [hobj]; omega)]
    · simp only [List.map_cons, List.flatten_cons, blockData_dataFrame, ih]
      rw [e, List.take_add, List.drop_drop]
      congr 3
      rw [Nat.add_mul]
      omega

theorem windowFrames_odd (s : AwsIotLargeObjectSendSession) :
    ∀ n k, ∀ f ∈ windowFrames s n k,
      (isOddWindow f ↔ s.xWindowType = AWS_IOT_LARGE_OBJECT_WINDOW_ODD) := by
  intro n
  induction n with
  | zero => intro k f hf; simp [windowFrames] at hf
  | succ n ih =>
    intro k f hf
    unfold windowFrames at hf
    simp only at hf
    split at hf
    · rw [List.mem_singleton] at hf
      subst hf
      unfold isOddWindow
      rw [flags_dataFrame]
      exact flagsByte_odd _ _
    · rcases List.mem_cons.mp hf with rfl | hf
      · unfold isOddWindow
        rw [flags_dataFrame]
        exact flagsByte_odd _ _
      · exact ih (k + 1) f hf

/-- A window that ends before the end of the object has no `LAST_BLOCK` frame. -/
theorem windowFrames_no_last (s : AwsIotLargeObjectSendSession) :
    ∀ n k, s.xOffset + (k + n) * s.usBlockSize < s.xObjectLength →
      ∀ f ∈ windowFrames s n k, ¬ isLastBlock f := by
  intro n
  induction n with
  | zero => intro k _ f hf; simp [windowFrames] at hf
  | succ n ih =>
    intro k hk f hf
    have e : (k + (n + 1)) * s.usBlockSize
        = k * s.usBlockSize + s.usBlockSize + n * s.usBlockSize := by
      rw [Nat.add_mul, Nat.add_mul]; omega
    unfold windowFrames at hf
    simp only at hf
    split at hf
    · omega
    · rcases List.mem_cons.mp hf with rfl | hf
      · unfold isLastBlock
        rw [flags_dataFrame, flagsByte_last]
        simp
      · exact ih (k + 1) (by rw [Nat.add_mul, Nat.add_mul] at hk ⊢; omega) f hf

/-- A window that reaches the end of the object ends with its only `LAST_BLOCK` frame. -/
theorem windowFrames_last (s : AwsIotLargeObjectSendSession) :
    ∀ n k, s.xOffset + k * s.usBlockSize < s.xObjectLength →
      s.xObjectLength ≤ s.xOffset + (k + n) * s.usBlockSize →
      ∃ init last, windowFrames s n k = init ++ [last] ∧ isLastBlock last
        ∧ ∀ f ∈ init, ¬ isLastBlock f := by
  intro n
  induction n with
  | zero => intro k h1 h2; simp at h2; omega
  | succ n ih =>
    intro k h1 h2
    unfold windowFrames
    simp only
    split
    · refine ⟨[], _, rfl, ?_, by simp⟩
      unfold isLastBlock
      rw [flags_dataFrame, flagsByte_last]
    · rename_i hlast
      obtain ⟨init, last, g1, g2, g3⟩ := ih (k + 1)
        (by rw [Nat.add_mul]; omega)
        (by rw [Nat.add_mul, Nat.add_mul] at h2 ⊢; omega)
      refine ⟨_ :: init, last, by rw [g1]; rfl, g2, ?_⟩
      intro f hf
      rcases List.mem_cons.mp hf with rfl | hf
      · unfold isLastBlock
        rw [flags_dataFrame, flagsByte_last]
        simp
      · exact g3 f hf

theorem toggleWindow_toggleWindow (wt : AwsIotLargeObjectWindowType) :
    toggleWindow (toggleWindow wt) = wt := by
  cases wt <;> rfl

theorem windowsFrom_of_ge (s : AwsIotLargeObjectSendSession) (n off : Nat)
    (wt : AwsIotLargeObjectWindowType) (h : s.xObjectLength ≤ off) :
    windowsFrom s n off wt = [] := by
  cases n with
  | zero => rfl
  | succ n =>
    unfold windowsFrom
    rw [if_neg (by omega)]

theorem windowsFrom_payload (s : AwsIotLargeObjectSendSession)
    (hobj : s.pucObject.length = s.xObjectLength) :
    ∀ n off wt, s.xObjectLength ≤ off + n * (s.usWindowSize * s.usBlockSize) →
      ((windowsFrom s n off wt).flatten.map _BLOCK_DATA).flatten = s.pucObject.drop off := by
  intro n
  induction n with
  | zero =>
    intro off wt h
    rw [List.drop_of_length_le (by omega)]
    rfl
  | succ n ih =>
    intro off wt h
    unfold windowsFrom
    by_cases hoff : off < s.xObjectLength
    · rw [if_pos hoff]
      simp only [List.flatten_cons, List.map_append, List.flatten_append]
      rw [ih _ _ (by rw [Nat.add_mul] at h; omega),
        windowFrames_payload { s with xOffset := off, xWindowType := wt } hobj]
      simp only [Nat.zero_mul, Nat.add_zero]
      rw [← List.drop_drop]
      exact List.take_append_drop _ _
    · rw [if_neg hoff, List.drop_of_length_le (by omega)]
      rfl

theorem windowsFrom_last (s : AwsIotLargeObjectSendSession) :
    ∀ n off wt, off < s.xObjectLength →
      s.xObjectLength ≤ off + n * (s.usWindowSize * s.usBlockSize) →
      ∃ init last, (windowsFrom s n off wt).flatten = init ++ [last] ∧ isLastBlock last
        ∧ ∀ f ∈ init, ¬ isLastBlock f := by
  intro n
  induction n with
  | zero => intro off wt h1 h2; omega
  | succ n ih =>
    intro off wt h1 h2
    unfold windowsFrom
    rw [if_pos h1]
    simp only [List.flatten_cons]
    by_cases hend : s.xObjectLength ≤ off + s.usWindowSize * s.usBlockSize
    · rw [windowsFrom_of_ge s n _ _ hend]
      simp only [List.flatten_nil, List.append_nil]
      exact windowFrames_last { s with xOffset := off, xWindowType := wt } s.usWindowSize 0
        (by simpa using h1) (by simpa using hend)
    · obtain ⟨init, last, g1, g2, g3⟩ := ih (off + s.usWindowSize * s.usBlockSize)
        (toggleWindow wt) (by omega) (by rw [Nat.add_mul] at h2; omega)
      refine ⟨windowFrames { s with xOffset := off, xWindowType := wt } s.usWindowSize 0 ++ init,
        last, by rw [g1, List.append_assoc], g2, ?_⟩
      intro f hf
      rcases List.mem_append.mp hf with hf | hf
      · exact windowFrames_no_last { s with xOffset := off, xWindowType := wt } s.usWindowSize 0
          (by simp only [Nat.zero_add]; omega) f hf
      · exact g3 f hf

theorem windowsFrom_colour (s : AwsIotLargeObjectSendSession) :
    ∀ n off wt j (hj : j < (windowsFrom s n off wt).length),
      ∀ f ∈ (windowsFrom s n off wt)[j],
        (isOddWindow f ↔
          (if j % 2 = 0 then wt else toggleWindow wt) = AWS_IOT_LARGE_OBJECT_WINDOW_ODD) := by
  intro n
  induction n with
  | zero => intro off wt j hj; simp [windowsFrom] at hj
  | succ n ih =>
    intro off wt j hj f hf
    unfold windowsFrom at hj hf
    by_cases hoff : off < s.xObjectLength
    · simp only [hoff, if_true] at hj hf
      cases j with
      | zero =>
        simp only [List.getElem_cons_zero] at hf
        have := windowFrames_odd { s with xOffset := off, xWindowType := wt } _ _ f hf
        simpa using this
      | succ j =>
        simp only [List.getElem_cons_succ] at hf
        simp only [List.length_cons] at hj
        have := ih _ _ j (by omega) f hf
        rw [this]
        by_cases hj2 : j % 2 = 0
        · have : (j + 1) % 2 ≠ 0 := by omega
          simp [hj2, this]
        · have : (j + 1) % 2 = 0 := by omega
          simp [hj2, this, toggleWindow_toggleWindow]
    · simp [hoff] at hj

theorem sendAcked_eq (p : Platform) (ctx : AwsIotLargeObjectTransferContext)
    (s0 : AwsIotLargeObjectSendSession) (rest : List AwsIotLargeObjectSendSession)
    (obj : List Nat) (n : Nat)
    (hnet : p.AcceptsAll) (hmem : p.AllocOk)
    (hctx : ctx.pxSendSessions = s0 :: rest)
    (hws : 1 ≤ s0.usWindowSize)
    (hobj : obj ≠ [])
    (hsz : obj.length + s0.usWindowSize * s0.usBlockSize + s0.usBlockSize + 5 < 2 ^ 32) :
    sendAcked p ctx obj n =
      windowsFrom { s0 with usSessionID := 1, pucObject := obj, xObjectLength := obj.length }
        (n + 1) 0 AWS_IOT_LARGE_OBJECT_WINDOW_EVEN := by
  have hlen : 0 < obj.length := List.length_pos.mpr hobj
  have hne := windowFrames_ne_nil
    { s0 with usSessionID := 1, pucObject := obj, xObjectLength := obj.length, xOffset := 0,
              xWindowType := AWS_IOT_LARGE_OBJECT_WINDOW_EVEN,
              usRetriesLeft := s0.usNumRetries } s0.usWindowSize 0 hws
  unfold sendAcked
  simp only [send_eq p ctx obj s0 rest 0 World.empty hnet hmem hctx (by omega)]
  simp only [World.empty, List.nil_append, hlen, if_true, hne, if_false]
  unfold windowsFrom
  simp only [hlen, if_true]
  have hlast' := List.getLast?_eq_getLast _ hne
  obtain ⟨g0, g1⟩ := windowFrames_id _ _ _ _ (List.getLast_mem hne)
  rw [ackWindows_eq p hnet hmem n _ _
    { s0 with usSessionID := 1, pucObject := obj, xObjectLength := obj.length,
              xOffset := 0, xWindowType := AWS_IOT_LARGE_OBJECT_WINDOW_EVEN,
              usRetriesLeft := s0.usNumRetries, xRetransmitTimer := true,
              xState := eAwsIotLargeObjectTransferOpen } rest _ rfl rfl rfl rfl hws hsz hlen
    hlast' (by rw [g0]; simp) (by rw [g1]; simp)]
  congr 1
  · exact windowFrames_congr
      { s0 with usSessionID := 1, pucObject := obj, xObjectLength := obj.length, xOffset := 0,
                xWindowType := AWS_IOT_LARGE_OBJECT_WINDOW_EVEN,
                usRetriesLeft := s0.usNumRetries }
      { s0 with usSessionID := 1, pucObject := obj, xObjectLength := obj.length, xOffset := 0,
                xWindowType := AWS_IOT_LARGE_OBJECT_WINDOW_EVEN }
      rfl rfl rfl rfl rfl rfl _ _
  · simp only [Nat.zero_add]
    exact windowsFrom_congr
      { s0 with usSessionID := 1, pucObject := obj, xObjectLength := obj.length,
                xOffset := 0, xWindowType := AWS_IOT_LARGE_OBJECT_WINDOW_EVEN,
                usRetriesLeft := s0.usNumRetries, xRetransmitTimer := true,
                xState := eAwsIotLargeObjectTransferOpen }
      { s0 with usSessionID := 1, pucObject := obj, xObjectLength := obj.length }
      rfl rfl rfl rfl rfl _ _ _

/-- C2: sender-side coverage. A non-empty object is sent with
`AwsIotLargeObjectTransfer_Send` from a context whose first send slot has window size and
block size at least 1, on a platform that accepts every frame (and whose allocations
succeed), and every emitted window is answered with a full ACK. With at least as many ACKs
allowed as the object has bytes, the payloads of all emitted DATA frames, concatenated in
emission order, are the object; the final emitted frame carries `LAST_BLOCK` and no other
frame does; and the frames of window `j` carry the Odd colour exactly when `j` is odd
(Even, Odd, Even, ... from window 0). -/
theorem send_full_ack_coverage (p : Platform) (ctx : AwsIotLargeObjectTransferContext)
    (s0 : AwsIotLargeObjectSendSession) (rest : List AwsIotLargeObjectSendSession)
    (obj : List Nat) (n : Nat)
    (hnet : p.AcceptsAll) (hmem : p.AllocOk)
    (hctx : ctx.pxSendSessions = s0 :: rest)
    (hws : 1 ≤ s0.usWindowSize) (hbs : 1 ≤ s0.usBlockSize)
    (hobj : obj ≠ [])
    (hsz : obj.length + s0.usWindowSize * s0.usBlockSize + s0.usBlockSize + 5 < 2 ^ 32)
    (hn : obj.length ≤ n) :
    ((sendAcked p ctx obj n).flatten.map _BLOCK_DATA).flatten = obj
    ∧ (∃ init last, (sendAcked p ctx obj n).flatten = init ++ [last] ∧ isLastBlock last
        ∧ ∀ f ∈ init, ¬ isLastBlock f)
    ∧ (∀ (j : Nat) (hj : j < (sendAcked p ctx obj n).length),
        ∀ f ∈ (sendAcked p ctx obj n)[j], (isOddWindow f ↔ j % 2 = 1)) := by
  have hlen : 0 < obj.length := List.length_pos.mpr hobj
  have hmul : 1 ≤ s0.usWindowSize * s0.usBlockSize := Nat.mul_pos hws hbs
  have hcover : obj.length ≤ 0 + (n + 1) * (s0.usWindowSize * s0.usBlockSize) := by
    have : n + 1 ≤ (n + 1) * (s0.usWindowSize * s0.usBlockSize) := Nat.le_mul_of_pos_right _ hmul
    omega
  rw [sendAcked_eq p ctx s0 rest obj n hnet hmem hctx hws hobj hsz]
  refine ⟨?_, ?_, ?_⟩
  · have := windowsFrom_payload
      { s0 with usSessionID := 1, pucObject := obj, xObjectLength := obj.length } rfl
      (n + 1) 0 AWS_IOT_LARGE_OBJECT_WINDOW_EVEN hcover
    simpa using this
  · exact windowsFrom_last
      { s0 with usSessionID := 1, pucObject := obj, xObjectLength := obj.length }
      (n + 1) 0 AWS_IOT_LARGE_OBJECT_WINDOW_EVEN hlen hcover
  · intro j hj f hf
    have := windowsFrom_colour
      { s0 with usSessionID := 1, pucObject := obj, xObjectLength := obj.length }
      (n + 1) 0 AWS_IOT_LARGE_OBJECT_WINDOW_EVEN j hj f hf
    rw [this]
    by_cases hj2 : j % 2 = 0
    · simp [hj2]
    · have : j % 2 = 1 := by omega
      simp [this, toggleWindow]

theorem idealPlatform_acceptsAll : idealPlatform.AcceptsAll := fun _ _ => Nat.le_refl _

theorem idealPlatform_allocOk : idealPlatform.AllocOk := fun _ => rfl

/-- C5: DATA frame layout. For every session id and block number (16-bit values), flag
inputs and data, `prxSendBlock` (when its allocation succeeds) hands the network exactly one
frame of `data.length + 5` bytes: bytes 0-1 the session id, low byte first, bytes 2-3 the
block number, low byte first, byte 4 the flags byte, bytes 5.. the data unchanged; the
receive-side macros read the id and the block number back. -/
theorem prxSendBlock_frame_layout (p : Platform) (usSessionId usBlockNum : Nat)
    (xLastBlock xResume : Bool) (xWindowType : AwsIotLargeObjectWindowType)
    (data : List Nat) (w : World)
    (hid : usSessionId < 65536) (hbn : usBlockNum < 65536)
    (hlen : data.length + 5 < 2 ^ 32) (hmem : p.malloc (data.length + 5) = true) :
    ∃ f : List Nat,
      (prxSendBlock p usSessionId usBlockNum xLastBlock xResume xWindowType data data.length
          w).2.sent = w.sent ++ [f]
      ∧ f.length = data.length + 5
      ∧ f.getD 0 0 = usSessionId % 256 ∧ f.getD 1 0 = usSessionId / 256
      ∧ f.getD 2 0 = usBlockNum % 256 ∧ f.getD 3 0 = usBlockNum / 256
      ∧ f.getD 4 0 = (0xF8 ||| (if xLastBlock then 0x01 else 0) ||| (if xResume then 0x02 else 0)
          ||| (if xWindowType = AWS_IOT_LARGE_OBJECT_WINDOW_ODD then 0x04 else 0))
      ∧ f.drop 5 = data
      ∧ _SESSION_ID f = usSessionId ∧ _BLOCK_NUMBER f = usBlockNum := by
  refine ⟨dataFrame usSessionId usBlockNum (flagsByte xLastBlock xResume xWindowType) data, ?_⟩
  have hfl : flagsByte xLastBlock xResume xWindowType
      = (0xF8 ||| (if xLastBlock then 0x01 else 0) ||| (if xResume then 0x02 else 0)
          ||| (if xWindowType = AWS_IOT_LARGE_OBJECT_WINDOW_ODD then 0x04 else 0)) := by
    cases xLastBlock <;> cases xResume <;> cases xWindowType <;> decide
  refine ⟨?_, ?_, ?_, ?_, ?_, ?_, ?_, ?_, ?_, ?_⟩
  · rw [prxSendBlock_eq p _ _ _ _ _ data data.length w (Nat.le_refl _) hlen, if_pos hmem,
      List.take_length]
  · simp [dataFrame]
  · simp [dataFrame]
  · simp [dataFrame]; omega
  · simp [dataFrame]
  · simp [dataFrame]; omega
  · rw [← hfl]; simp [dataFrame]
  · simp [dataFrame]
  · simp [_SESSION_ID, loadU16, dataFrame]; omega
  · simp [_BLOCK_NUMBER, _SESSION_ID_LENGTH, loadU16, dataFrame]; omega

set_option maxRecDepth 100000 in
/-- The theorem `prxSendBlock_frame_layout` applied to scenario inputs, with the values it yields there. -/
theorem prxSendBlock_frame_layout_witness :
    ((1 : Nat) < 65536 ∧ (2 : Nat) < 65536 ∧ [10, 20, 30].length + 5 < 2 ^ 32
      ∧ idealPlatform.malloc ([10, 20, 30].length + 5) = true)
    ∧ (∃ f : List Nat,
      (prxSendBlock idealPlatform 1 2 true false AWS_IOT_LARGE_OBJECT_WINDOW_ODD [10, 20, 30]
          [10, 20, 30].length World.empty).2.sent = World.empty.sent ++ [f]
      ∧ f.length = [10, 20, 30].length + 5
      ∧ f.getD 0 0 = 1 % 256 ∧ f.getD 1 0 = 1 / 256
      ∧ f.getD 2 0 = 2 % 256 ∧ f.getD 3 0 = 2 / 256
      ∧ f.getD 4 0 = (0xF8 ||| (if true then 0x01 else 0) ||| (if false then 0x02 else 0)
          ||| (if AWS_IOT_LARGE_OBJECT_WINDOW_ODD = AWS_IOT_LARGE_OBJECT_WINDOW_ODD
                then 0x04 else 0))
      ∧ f.drop 5 = [10, 20, 30]
      ∧ _SESSION_ID f = 1 ∧ _BLOCK_NUMBER f = 2)
    ∧ (prxSendBlock idealPlatform 1 2 true false AWS_IOT_LARGE_OBJECT_WINDOW_ODD [10, 20, 30]
          3 World.empty).2.sent = [[1, 0, 2, 0, 0xFD, 10, 20, 30]] :=
  ⟨⟨by decide, by decide, by decide, rfl⟩,
   prxSendBlock_frame_layout idealPlatform 1 2 true false AWS_IOT_LARGE_OBJECT_WINDOW_ODD
     [10, 20, 30] World.empty (by decide) (by decide) (by decide) rfl,
   by decide⟩

theorem ackLength_eq {n : Nat} (h : n + 3 < 2 ^ 32) : _ACK_LENGTH n = n + 3 := by
  unfold _ACK_LENGTH _ACK_HEADER_LENGTH
  exact sizeAdd_eq h

/-- C7: ACK frame layout. For every session id (a 16-bit value), error code and bitmap,
`prxSendACK` (when its allocation succeeds) hands the network exactly one frame of
`3 + bitmap.length` bytes: bytes 0-1 the session id, low byte first, byte 2 the error code,
bytes 3.. the bitmap unchanged; the error codes on the wire are numbered Success 0,
MaxSessions 1, SessionNotFound 2, SessionAborted 3, WrongWindow 4, InvalidPacket 5. -/
theorem prxSendACK_frame_layout (p : Platform) (usSessionId : Nat)
    (xErrorCode : AwsIotLargeObjectTransferError) (bitmap : List Nat) (w : World)
    (hid : usSessionId < 65536)
    (hlen : bitmap.length + 3 < 2 ^ 32) (hmem : p.malloc (bitmap.length + 3) = true) :
    (prxSendACK p usSessionId xErrorCode bitmap bitmap.length w).2.sent
        = w.sent ++ [[usSessionId % 256, usSessionId / 256, xErrorCode.code] ++ bitmap]
    ∧ ([usSessionId % 256, usSessionId / 256, xErrorCode.code] ++ bitmap).length
        = 3 + bitmap.length
    ∧ AWS_IOT_LARGE_OBJECT_TRANSFER_SUCCESS.code = 0
    ∧ AWS_IOT_LARGE_OBJECT_TRANSFER_MAX_SESSIONS_REACHED.code = 1
    ∧ AWS_IOT_LARGE_OBJECT_TRANSFER_SESSION_NOT_FOUND.code = 2
    ∧ AWS_IOT_LARGE_OBJECT_TRANSFER_SESSION_ABORTED.code = 3
    ∧ AWS_IOT_LARGE_OBJECT_TRANSFER_SESSION_WRONG_WINDOW.code = 4
    ∧ AWS_IOT_LARGE_OBJECT_TRANSFER_INVALID_PACKET.code = 5 := by
  refine ⟨?_, by simp; omega, rfl, rfl, rfl, rfl, rfl, rfl⟩
  have hcode : toU8 xErrorCode.code = xErrorCode.code := by
    cases xErrorCode <;> rfl
  have hbm : (if bitmap.length > 0 then memRead bitmap bitmap.length else []) = bitmap := by
    by_cases h : bitmap.length > 0
    · rw [if_pos h, memRead_eq_take (Nat.le_refl _), List.take_length]
    · rw [if_neg h]
      have : bitmap.length = 0 := by omega
      exact (List.length_eq_zero.mp this).symm
  have hhi : usSessionId / 256 % 256 = usSessionId / 256 := by omega
  unfold prxSendACK
  simp only [ackLength_eq hlen, hmem, if_true, hcode, hbm, storeU16, hhi]
  rw [List.take_of_length_le (by simp)]
  split <;> rfl

set_option maxRecDepth 100000 in
/-- The theorem `send_full_ack_coverage` applied to scenario inputs, with the values it yields there. -/
theorem send_full_ack_coverage_witness :
    (idealPlatform.AcceptsAll ∧ idealPlatform.AllocOk
      ∧ scenarioContext.pxSendSessions = scenarioSession :: []
      ∧ 1 ≤ scenarioSession.usWindowSize ∧ 1 ≤ scenarioSession.usBlockSize
      ∧ List.range 100 ≠ []
      ∧ (List.range 100).length + scenarioSession.usWindowSize * scenarioSession.usBlockSize
          + scenarioSession.usBlockSize + 5 < 2 ^ 32
      ∧ (List.range 100).length ≤ 100)
    ∧ (((sendAcked idealPlatform scenarioContext (List.range 100) 100).flatten.map
          _BLOCK_DATA).flatten = List.range 100
      ∧ (∃ init last, (sendAcked idealPlatform scenarioContext (List.range 100) 100).flatten
            = init ++ [last] ∧ isLastBlock last ∧ ∀ f ∈ init, ¬ isLastBlock f)
      ∧ (∀ (j : Nat) (hj : j < (sendAcked idealPlatform scenarioContext (List.range 100)
            100).length),
          ∀ f ∈ (sendAcked idealPlatform scenarioContext (List.range 100) 100)[j],
            (isOddWindow f ↔ j % 2 = 1)))
    ∧ (sendAcked idealPlatform scenarioContext (List.range 100) 100).map
        (fun w => w.map (fun f => (_BLOCK_NUMBER f, _FLAGS f, (_BLOCK_DATA f).length)))
        = [[(0, 0xF8, 18), (1, 0xF8, 18), (2, 0xF8, 18), (3, 0xF8, 18)],
           [(0, 0xFC, 18), (1, 0xFD, 10)]] :=
  ⟨⟨idealPlatform_acceptsAll, idealPlatform_allocOk, by decide, by decide, by decide, by decide,
      by decide, by decide⟩,
   send_full_ack_coverage idealPlatform scenarioContext scenarioSession [] (List.range 100) 100
     idealPlatform_acceptsAll idealPlatform_allocOk (by decide) (by decide) (by decide)
     (by decide) (by decide) (by decide),
   by decide⟩

set_option maxRecDepth 100000 in
/-- The theorem `prxSendWindow_blocks` applied to scenario inputs, with the values it yields there. -/
theorem prxSendWindow_blocks_witness :
    (idealPlatform.AcceptsAll ∧ idealPlatform.AllocOk
      ∧ (scenarioSending (List.range 100) 72 AWS_IOT_LARGE_OBJECT_WINDOW_ODD).pucObject.length
          = (scenarioSending (List.range 100) 72 AWS_IOT_LARGE_OBJECT_WINDOW_ODD).xObjectLength
      ∧ (scenarioSending (List.range 100) 72 AWS_IOT_LARGE_OBJECT_WINDOW_ODD).xOffset
          < (scenarioSending (List.range 100) 72 AWS_IOT_LARGE_OBJECT_WINDOW_ODD).xObjectLength
      ∧ 6 ≤ 23 ∧ 23 < 65536
      ∧ (scenarioSending (List.range 100) 72 AWS_IOT_LARGE_OBJECT_WINDOW_ODD).usBlockSize
          = _MAX_BLOCK_DATA_LEN 23
      ∧ (scenarioSending (List.range 100) 72 AWS_IOT_LARGE_OBJECT_WINDOW_ODD).usWindowSize
          < 65536
      ∧ (scenarioSending (List.range 100) 72 AWS_IOT_LARGE_OBJECT_WINDOW_ODD).xObjectLength
          + 23 < 2 ^ 32)
    ∧ (∃ fs : List (List Nat),
      prxSendWindow idealPlatform
          (scenarioSending (List.range 100) 72 AWS_IOT_LARGE_OBJECT_WINDOW_ODD) World.empty
          = (AWS_IOT_LARGE_OBJECT_TRANSFER_SUCCESS,
             { World.empty with sent := World.empty.sent ++ fs })
      ∧ fs.length ≤ (scenarioSending (List.range 100) 72
          AWS_IOT_LARGE_OBJECT_WINDOW_ODD).usWindowSize
      ∧ (scenarioSending (List.range 100) 72 AWS_IOT_LARGE_OBJECT_WINDOW_ODD).usBlockSize
          = 23 - 5
      ∧ ∀ (k : Nat) (hk : k < fs.length),
          _BLOCK_NUMBER fs[k] = k
          ∧ _BLOCK_DATA fs[k] =
              ((scenarioSending (List.range 100) 72
                  AWS_IOT_LARGE_OBJECT_WINDOW_ODD).pucObject.take
                (min ((scenarioSending (List.range 100) 72
                    AWS_IOT_LARGE_OBJECT_WINDOW_ODD).xOffset + (k + 1) *
                    (scenarioSending (List.range 100) 72
                      AWS_IOT_LARGE_OBJECT_WINDOW_ODD).usBlockSize)
                  (scenarioSending (List.range 100) 72
                    AWS_IOT_LARGE_OBJECT_WINDOW_ODD).xObjectLength)).drop
                ((scenarioSending (List.range 100) 72
                    AWS_IOT_LARGE_OBJECT_WINDOW_ODD).xOffset + k *
                  (scenarioSending (List.range 100) 72
                    AWS_IOT_LARGE_OBJECT_WINDOW_ODD).usBlockSize)
          ∧ 1 ≤ (_BLOCK_DATA fs[k]).length
          ∧ (_BLOCK_DATA fs[k]).length ≤ (scenarioSending (List.range 100) 72
              AWS_IOT_LARGE_OBJECT_WINDOW_ODD).usBlockSize
          ∧ fs[k].length ≤ 23)
    ∧ (prxSendWindow idealPlatform
          (scenarioSending (List.range 100) 72 AWS_IOT_LARGE_OBJECT_WINDOW_ODD)
          World.empty).2.sent
        = [[1, 0, 0, 0, 0xFC, 72, 73, 74, 75, 76, 77, 78, 79, 80, 81, 82, 83, 84, 85, 86, 87,
             88, 89],
           [1, 0, 1, 0, 0xFD, 90, 91, 92, 93, 94, 95, 96, 97, 98, 99]] :=
  ⟨⟨idealPlatform_acceptsAll, idealPlatform_allocOk, by decide, by decide, by decide,
      by decide, by decide, by decide, by decide⟩,
   prxSendWindow_blocks idealPlatform
     (scenarioSending (List.range 100) 72 AWS_IOT_LARGE_OBJECT_WINDOW_ODD) World.empty 23
     idealPlatform_acceptsAll idealPlatform_allocOk (by decide) (by decide) (by decide)
     (by decide) (by decide) (by decide) (by decide),
   by decide⟩

set_option maxRecDepth 100000 in
/-- The theorem `prxSendWindow_last_block` applied to scenario inputs, with the values it yields there. -/
theorem prxSendWindow_last_block_witness :
    ((scenarioSending (List.range 72) 0 AWS_IOT_LARGE_OBJECT_WINDOW_EVEN).pucObject.length
          = (scenarioSending (List.range 72) 0 AWS_IOT_LARGE_OBJECT_WINDOW_EVEN).xObjectLength
      ∧ (scenarioSending (List.range 72) 0 AWS_IOT_LARGE_OBJECT_WINDOW_EVEN).usWindowSize
          < 65536
      ∧ (scenarioSending (List.range 72) 0 AWS_IOT_LARGE_OBJECT_WINDOW_EVEN).xObjectLength
          + (scenarioSending (List.range 72) 0 AWS_IOT_LARGE_OBJECT_WINDOW_EVEN).usBlockSize
          + 5 < 2 ^ 32)
    ∧ (∃ fs : List (List Nat),
      (prxSendWindow idealPlatform
          (scenarioSending (List.range 72) 0 AWS_IOT_LARGE_OBJECT_WINDOW_EVEN)
          World.empty).2.sent = World.empty.sent ++ fs
      ∧ ∀ (k : Nat) (hk : k < fs.length),
          _BLOCK_NUMBER fs[k] = k
          ∧ _BLOCK_DATA fs[k] =
              ((scenarioSending (List.range 72) 0
                  AWS_IOT_LARGE_OBJECT_WINDOW_EVEN).pucObject.take
                (min ((scenarioSending (List.range 72) 0
                    AWS_IOT_LARGE_OBJECT_WINDOW_EVEN).xOffset + (k + 1) *
                    (scenarioSending (List.range 72) 0
                      AWS_IOT_LARGE_OBJECT_WINDOW_EVEN).usBlockSize)
                  (scenarioSending (List.range 72) 0
                    AWS_IOT_LARGE_OBJECT_WINDOW_EVEN).xObjectLength)).drop
                ((scenarioSending (List.range 72) 0
                    AWS_IOT_LARGE_OBJECT_WINDOW_EVEN).xOffset + k *
                  (scenarioSending (List.range 72) 0
                    AWS_IOT_LARGE_OBJECT_WINDOW_EVEN).usBlockSize)
          ∧ ((_FLAGS fs[k] &&& _LAST_BLOCK_MASK = _LAST_BLOCK_MASK)
              ↔ min ((scenarioSending (List.range 72) 0
                    AWS_IOT_LARGE_OBJECT_WINDOW_EVEN).xOffset + (k + 1) *
                    (scenarioSending (List.range 72) 0
                      AWS_IOT_LARGE_OBJECT_WINDOW_EVEN).usBlockSize)
                  (scenarioSending (List.range 72) 0
                    AWS_IOT_LARGE_OBJECT_WINDOW_EVEN).xObjectLength
                = (scenarioSending (List.range 72) 0
                    AWS_IOT_LARGE_OBJECT_WINDOW_EVEN).xObjectLength)
          ∧ ((_FLAGS fs[k] &&& _LAST_BLOCK_MASK = _LAST_BLOCK_MASK) → k + 1 = fs.length))
    ∧ ((prxSendWindow idealPlatform
          (scenarioSending (List.range 72) 0 AWS_IOT_LARGE_OBJECT_WINDOW_EVEN)
          World.empty).2.sent.map
        (fun f => (_BLOCK_NUMBER f, _FLAGS f &&& _LAST_BLOCK_MASK, (_BLOCK_DATA f).length))
        = [(0, 0, 18), (1, 0, 18), (2, 0, 18), (3, 1, 18)])
    ∧ ((prxSendWindow idealPlatform
          (scenarioSending (List.range 10) 0 AWS_IOT_LARGE_OBJECT_WINDOW_EVEN)
          World.empty).2.sent.map
        (fun f => (_BLOCK_NUMBER f, _FLAGS f &&& _LAST_BLOCK_MASK,
          _FLAGS f &&& _ODD_WINDOW_MASK, _BLOCK_DATA f))
        = [(0, 1, 0, List.range 10)]) :=
  ⟨⟨by decide, by decide, by decide⟩,
   prxSendWindow_last_block idealPlatform
     (scenarioSending (List.range 72) 0 AWS_IOT_LARGE_OBJECT_WINDOW_EVEN) World.empty
     (by decide) (by decide) (by decide),
   by decide, by decide⟩

set_option maxRecDepth 100000 in
/-- The theorem `prxSendACK_frame_layout` applied to scenario inputs, with the values it yields there. -/
theorem prxSendACK_frame_layout_witness :
    ((1 : Nat) < 65536 ∧ [0x04].length + 3 < 2 ^ 32
      ∧ idealPlatform.malloc ([0x04].length + 3) = true)
    ∧ ((prxSendACK idealPlatform 1 AWS_IOT_LARGE_OBJECT_TRANSFER_SUCCESS [0x04] [0x04].length
          World.empty).2.sent
        = World.empty.sent ++ [[1 % 256, 1 / 256,
            AWS_IOT_LARGE_OBJECT_TRANSFER_SUCCESS.code] ++ [0x04]]
      ∧ ([1 % 256, 1 / 256, AWS_IOT_LARGE_OBJECT_TRANSFER_SUCCESS.code] ++ [0x04]).length
          = 3 + [0x04].length
      ∧ AWS_IOT_LARGE_OBJECT_TRANSFER_SUCCESS.code = 0
      ∧ AWS_IOT_LARGE_OBJECT_TRANSFER_MAX_SESSIONS_REACHED.code = 1
      ∧ AWS_IOT_LARGE_OBJECT_TRANSFER_SESSION_NOT_FOUND.code = 2
      ∧ AWS_IOT_LARGE_OBJECT_TRANSFER_SESSION_ABORTED.code = 3
      ∧ AWS_IOT_LARGE_OBJECT_TRANSFER_SESSION_WRONG_WINDOW.code = 4
      ∧ AWS_IOT_LARGE_OBJECT_TRANSFER_INVALID_PACKET.code = 5)
    ∧ (prxSendACK idealPlatform 1 AWS_IOT_LARGE_OBJECT_TRANSFER_SESSION_WRONG_WINDOW [] 0
          World.empty).2.sent = [[1, 0, 4]] :=
  ⟨⟨by decide, by decide, rfl⟩,
   prxSendACK_frame_layout idealPlatform 1 AWS_IOT_LARGE_OBJECT_TRANSFER_SUCCESS [0x04]
     World.empty (by decide) (by decide) rfl,
   by decide⟩

/-- The theorem `bitmap_packing` applied to scenario inputs, with the values it yields there. -/
theorem bitmap_packing_witness :
    ([0xFF, 0xFB, 0xFF, 0xFF].length = 4 ∧ 10 < 32 ∧ 9 < 32)
    ∧ ((prxIsBlockReceived [0xFF, 0xFB, 0xFF, 0xFF] 9 = true
          ↔ (([0xFF, 0xFB, 0xFF, 0xFF] : List Nat).getD (9 / 8) 0).testBit (9 % 8) = false)
      ∧ prxIsBlockReceived (prvSetBlockReceived [0xFF, 0xFB, 0xFF, 0xFF] 9) 9 = true
      ∧ (10 ≠ 9 → prxIsBlockReceived (prvSetBlockReceived [0xFF, 0xFB, 0xFF, 0xFF] 9) 10
          = prxIsBlockReceived [0xFF, 0xFB, 0xFF, 0xFF] 10))
    ∧ prvSetBlockReceived [0xFF, 0xFB, 0xFF, 0xFF] 9 = [0xFF, 0xF9, 0xFF, 0xFF]
    ∧ prxIsBlockReceived [0xFF, 0xFB, 0xFF, 0xFF] 10 = true :=
  ⟨⟨by decide, by decide, by decide⟩,
   bitmap_packing [0xFF, 0xFB, 0xFF, 0xFF] 10 9 (by decide) (by decide) (by decide),
   by decide, by decide⟩

set_option maxRecDepth 100000 in
/-- C1, evaluated on a 10-byte object sent between two scenario contexts over the
loss-free, order-preserving link. After the two deliveries (one DATA frame, one ACK) nothing
is in flight and a further step of the link changes nothing. The receive callback was
invoked once with reported length 20, so the delivered bytes are 20 and are not the object;
the send session is still Open (offset 72, retransmit timer running) and only the receive
session is Closed. -/
theorem lossless_transfer_ten_bytes :
    (transfer idealPlatform idealPlatform scenarioContext scenarioContext (List.range 10)
        2).quiet = true
    ∧ (transfer idealPlatform idealPlatform scenarioContext scenarioContext (List.range 10)
        2).wa.sent = [[1, 0, 0, 0, 0xF9, 0, 1, 2, 3, 4, 5, 6, 7, 8, 9]]
    ∧ (transfer idealPlatform idealPlatform scenarioContext scenarioContext (List.range 10)
        2).wb.sent = [[1, 0, 0]]
    ∧ (transfer idealPlatform idealPlatform scenarioContext scenarioContext (List.range 10)
        2).wb.received.map (fun c => c.xDataLength) = [20]
    ∧ (transfer idealPlatform idealPlatform scenarioContext scenarioContext (List.range 10)
        2).wb.delivered.length = 20
    ∧ (transfer idealPlatform idealPlatform scenarioContext scenarioContext (List.range 10)
        2).wb.delivered ≠ List.range 10
    ∧ (transfer idealPlatform idealPlatform scenarioContext scenarioContext (List.range 10)
        2).a.pxSendSessions.map (fun s => (s.xState, s.xOffset, s.xRetransmitTimer))
        = [(eAwsIotLargeObjectTransferOpen, 72, true)]
    ∧ (transfer idealPlatform idealPlatform scenarioContext scenarioContext (List.range 10)
        2).b.pxRecvSessions.map (fun s => s.xState) = [eAwsIotLargeObjectTransferClosed]
    ∧ Link.step idealPlatform idealPlatform
        (transfer idealPlatform idealPlatform scenarioContext scenarioContext (List.range 10) 2)
        = transfer idealPlatform idealPlatform scenarioContext scenarioContext (List.range 10)
            2 := by
  decide

set_option maxRecDepth 100000 in
/-- C9, evaluated on a context whose only send slot is Open with a 100-byte transfer in
progress: `AwsIotLargeObjectTransfer_Send` of a 3-byte object returns Success, hands a DATA
frame to the network and replaces the session in the slot. The test `_SESSION_FREE` holds of
every state. -/
theorem send_reuses_busy_slot :
    busyContext.pxSendSessions.map (fun s => (s.xState, s.pucObject.length, s.xOffset))
        = [(eAwsIotLargeObjectTransferOpen, 100, 0)]
    ∧ (AwsIotLargeObjectTransfer_Send idealPlatform busyContext [7, 7, 7] 3 0
        World.empty).xError = AWS_IOT_LARGE_OBJECT_TRANSFER_SUCCESS
    ∧ (AwsIotLargeObjectTransfer_Send idealPlatform busyContext [7, 7, 7] 3 0
        World.empty).world.sent = [[1, 0, 0, 0, 0xF9, 7, 7, 7]]
    ∧ (AwsIotLargeObjectTransfer_Send idealPlatform busyContext [7, 7, 7] 3 0
        World.empty).pxSendSessions.map (fun s => (s.xState, s.pucObject, s.xOffset))
        = [(eAwsIotLargeObjectTransferOpen, [7, 7, 7], 0)]
    ∧ (∀ x : AwsIotLargeObjectTransferStatus, _SESSION_FREE x = true) := by
  refine ⟨by decide, by decide, by decide, by decide, ?_⟩
  intro x
  cases x <;> rfl

set_option maxRecDepth 100000 in
/-- C10, evaluated on a first `AwsIotLargeObjectTransfer_Send` in the scenario context
(the id output holding 77 before the call): the call succeeds and stores 0, the slot index,
in the id output, while the opened session and its DATA frame carry id 1;
`AwsIotLargeObjectTransfer_CloseSession` with the stored id finds no send session. -/
theorem send_returns_slot_index :
    (AwsIotLargeObjectTransfer_Send idealPlatform scenarioContext (List.range 10) 10 77
        World.empty).xError = AWS_IOT_LARGE_OBJECT_TRANSFER_SUCCESS
    ∧ (AwsIotLargeObjectTransfer_Send idealPlatform scenarioContext (List.range 10) 10 77
        World.empty).usSessionID = 0
    ∧ (AwsIotLargeObjectTransfer_Send idealPlatform scenarioContext (List.range 10) 10 77
        World.empty).pxSendSessions.map (fun s => (s.usSessionID, s.xState))
        = [(1, eAwsIotLargeObjectTransferOpen)]
    ∧ (AwsIotLargeObjectTransfer_Send idealPlatform scenarioContext (List.range 10) 10 77
        World.empty).world.sent.map _SESSION_ID = [1]
    ∧ (AwsIotLargeObjectTransfer_CloseSession
        { scenarioContext with pxSendSessions :=
            (AwsIotLargeObjectTransfer_Send idealPlatform scenarioContext (List.range 10) 10 77
              World.empty).pxSendSessions }
        AWS_IOT_LARGE_OBJECT_SESSION_SEND
        (AwsIotLargeObjectTransfer_Send idealPlatform scenarioContext (List.range 10) 10 77
          World.empty).usSessionID).1 = AWS_IOT_LARGE_OBJECT_TRANSFER_SESSION_NOT_FOUND := by
  decide

theorem blockLength_le (n : Nat) : _BLOCK_LENGTH n ≤ n + 5 := by
  unfold _BLOCK_LENGTH sizeAdd _BLOCK_HEADER_LENGTH _SESSION_ID_LENGTH _FLAGS_LENGTH
    _BLOCK_NUMBER_LENGTH
  exact Nat.mod_le _ _

/-- On any platform `prxSendBlock` either allocates nothing and offers nothing, or offers
one frame and reports a network error exactly when the network's count is short. -/
theorem prxSendBlock_cases (p : Platform) (usSessionId usBlockNum : Nat)
    (xLastBlock xResume : Bool) (xWindowType : AwsIotLargeObjectWindowType) (m : List Nat)
    (n : Nat) (w : World) :
    prxSendBlock p usSessionId usBlockNum xLastBlock xResume xWindowType m n w
        = (AWS_IOT_LARGE_OBJECT_TRANSFER_NO_MEMORY, w)
    ∨ ∃ f : List Nat,
        prxSendBlock p usSessionId usBlockNum xLastBlock xResume xWindowType m n w
          = (if p.send w.sent f < f.length then AWS_IOT_LARGE_OBJECT_TRANSFER_NETWORK_ERROR
              else AWS_IOT_LARGE_OBJECT_TRANSFER_SUCCESS,
             { w with sent := w.sent ++ [f] }) := by
  unfold prxSendBlock
  simp only [flags_eq]
  by_cases hm : p.malloc (_BLOCK_LENGTH n) = true
  · right
    simp only [hm, if_true]
    refine ⟨(storeU16 usSessionId ++ storeU16 usBlockNum ++
        [flagsByte xLastBlock xResume xWindowType] ++ memRead m n).take (_BLOCK_LENGTH n), ?_⟩
    have hl : ((storeU16 usSessionId ++ storeU16 usBlockNum ++
        [flagsByte xLastBlock xResume xWindowType] ++ memRead m n).take
          (_BLOCK_LENGTH n)).length = _BLOCK_LENGTH n := by
      rw [List.length_take]
      simp only [List.length_append, memRead_length, storeU16, List.length_cons,
        List.length_nil]
      have := blockLength_le n
      omega
    rw [hl]
    split <;> rfl
  · left
    simp [hm]

/-- Whatever the platform does, the frames `prxSendWindow.loop` offers end with the first
one whose count the network reports short, and the loop then returns the network error. -/
theorem prxSendWindow_loop_short (p : Platform) (s : AwsIotLargeObjectSendSession) :
    ∀ (n k : Nat) (w : World),
      ∃ fs, (prxSendWindow.loop p s n k w).2.sent = w.sent ++ fs
        ∧ (prxSendWindow.loop p s n k w).2.received = w.received
        ∧ (prxSendWindow.loop p s n k w).2.completed = w.completed
        ∧ ∀ j, j < fs.length → shortAt p w.sent fs j →
            (prxSendWindow.loop p s n k w).1 = AWS_IOT_LARGE_OBJECT_TRANSFER_NETWORK_ERROR
            ∧ j + 1 = fs.length := by
  intro n
  induction n with
  | zero =>
    intro k w
    exact ⟨[], by simp [prxSendWindow.loop], rfl, rfl, by simp⟩
  | succ n ih =>
    intro k w
    unfold prxSendWindow.loop
    simp only
    generalize hlast : decide (sizeAdd (sizeAdd s.xOffset (k * s.usBlockSize)) s.usBlockSize
      ≥ s.xObjectLength) = last
    generalize hlen : (if last = true then
      sizeSub s.xObjectLength (sizeAdd s.xOffset (k * s.usBlockSize))
      else s.usBlockSize) = len
    rcases prxSendBlock_cases p s.usSessionID k last false s.xWindowType
        (s.pucObject.drop (sizeAdd s.xOffset (k * s.usBlockSize))) len w with h | ⟨f, h⟩
    · rw [h]
      exact ⟨[], by simp, rfl, rfl, by simp⟩
    · rw [h]
      by_cases hs : p.send w.sent f < f.length
      · simp only [hs, if_true, ne_eq, reduceCtorEq, not_false_eq_true]
        refine ⟨[f], rfl, trivial, trivial, ?_⟩
        intro j hj _
        simp only [List.length_singleton] at hj ⊢
        exact ⟨trivial, by omega⟩
      · simp only [hs, if_false, ne_eq, not_true_eq_false]
        cases last with
        | true =>
          simp only [if_true]
          refine ⟨[f], rfl, trivial, trivial, ?_⟩
          intro j hj hsh
          simp only [List.length_singleton] at hj
          have : j = 0 := by omega
          subst this
          simp [shortAt] at hsh
          exact absurd hsh hs
        | false =>
          simp only [Bool.false_eq_true, if_false]
          obtain ⟨fs, g1, g2, g3, g4⟩ := ih (k + 1) { w with sent := w.sent ++ [f] }
          refine ⟨f :: fs, by rw [g1]; simp, g2, g3, ?_⟩
          intro j hj hsh
          cases j with
          | zero =>
            simp [shortAt] at hsh
            exact absurd hsh hs
          | succ j =>
            simp only [List.length_cons] at hj ⊢
            have hsh' : shortAt p (w.sent ++ [f]) fs j := by
              unfold shortAt at hsh ⊢
              simpa using hsh
            obtain ⟨e1, e2⟩ := g4 j (by omega) hsh'
            exact ⟨e1, by omega⟩

/-- Whatever the platform does, `prxSendWindow` touches neither callback log, and the
frames it offers end with the first one whose count the network reports short. -/
theorem prxSendWindow_short (p : Platform) (s : AwsIotLargeObjectSendSession) (w : World) :
    ∃ fs, (prxSendWindow p s w).2.sent = w.sent ++ fs
      ∧ (prxSendWindow p s w).2.received = w.received
      ∧ (prxSendWindow p s w).2.completed = w.completed
      ∧ ∀ j, j < fs.length → shortAt p w.sent fs j →
          (prxSendWindow p s w).1 = AWS_IOT_LARGE_OBJECT_TRANSFER_NETWORK_ERROR
          ∧ j + 1 = fs.length := by
  unfold prxSendWindow
  split
  · exact prxSendWindow_loop_short p s s.usWindowSize 0 w
  · exact ⟨[], by simp, rfl, rfl, by simp⟩

/-- C11: partial send. On every platform: (1) `prxSendBlock` either fails to allocate and
offers nothing, or offers one frame and returns NetworkError when the network reports fewer
bytes than the frame has (Success otherwise); (2) if the network reports a short count for
frame `j` of the frames `prxSendWindow` offers, `prxSendWindow` returns NetworkError and
frame `j` is the last frame offered; (3) if that happens in the window
`AwsIotLargeObjectTransfer_Send` transmits, `Send` returns NetworkError, frame `j` is the
last frame offered, the id output is not written, and the state and the timer of the session
are what they were before the call: the session is not put in state Open. -/
theorem partial_send_aborts (p : Platform) :
    (∀ (usSessionId usBlockNum : Nat) (xLastBlock xResume : Bool)
        (xWindowType : AwsIotLargeObjectWindowType) (m : List Nat) (n : Nat) (w : World),
        prxSendBlock p usSessionId usBlockNum xLastBlock xResume xWindowType m n w
            = (AWS_IOT_LARGE_OBJECT_TRANSFER_NO_MEMORY, w)
        ∨ ∃ f : List Nat,
            (prxSendBlock p usSessionId usBlockNum xLastBlock xResume xWindowType m n
                w).2.sent = w.sent ++ [f]
            ∧ (p.send w.sent f < f.length →
                (prxSendBlock p usSessionId usBlockNum xLastBlock xResume xWindowType m n
                  w).1 = AWS_IOT_LARGE_OBJECT_TRANSFER_NETWORK_ERROR)
            ∧ (f.length ≤ p.send w.sent f →
                (prxSendBlock p usSessionId usBlockNum xLastBlock xResume xWindowType m n
                  w).1 = AWS_IOT_LARGE_OBJECT_TRANSFER_SUCCESS))
    ∧ (∀ (s : AwsIotLargeObjectSendSession) (w : World),
        ∃ fs, (prxSendWindow p s w).2.sent = w.sent ++ fs
          ∧ ∀ j, j < fs.length → shortAt p w.sent fs j →
              (prxSendWindow p s w).1 = AWS_IOT_LARGE_OBJECT_TRANSFER_NETWORK_ERROR
              ∧ j + 1 = fs.length)
    ∧ (∀ (ctx : AwsIotLargeObjectTransferContext) (s0 : AwsIotLargeObjectSendSession)
        (rest : List AwsIotLargeObjectSendSession) (pucObject : List Nat)
        (xObjectLength sid : Nat) (w : World),
        ctx.pxSendSessions = s0 :: rest →
        ∃ fs s1,
          (AwsIotLargeObjectTransfer_Send p ctx pucObject xObjectLength sid w).world.sent
              = w.sent ++ fs
          ∧ (AwsIotLargeObjectTransfer_Send p ctx pucObject xObjectLength sid
              w).pxSendSessions = s1 :: rest
          ∧ ∀ j, j < fs.length → shortAt p w.sent fs j →
              (AwsIotLargeObjectTransfer_Send p ctx pucObject xObjectLength sid w).xError
                  = AWS_IOT_LARGE_OBJECT_TRANSFER_NETWORK_ERROR
              ∧ j + 1 = fs.length
              ∧ (AwsIotLargeObjectTransfer_Send p ctx pucObject xObjectLength sid
                  w).usSessionID = sid
              ∧ s1.xState = s0.xState
              ∧ s1.xRetransmitTimer = s0.xRetransmitTimer) := by
  refine ⟨?_, ?_, ?_⟩
  · intro usSessionId usBlockNum xLastBlock xResume xWindowType m n w
    rcases prxSendBlock_cases p usSessionId usBlockNum xLastBlock xResume xWindowType m n w
      with h | ⟨f, h⟩
    · exact Or.inl h
    · refine Or.inr ⟨f, by rw [h], ?_, ?_⟩
      · intro hs; rw [h]; simp [hs]
      · intro hs; rw [h]; simp [Nat.not_lt.mpr hs]
  · intro s w
    obtain ⟨fs, h1, _, _, h4⟩ := prxSendWindow_short p s w
    exact ⟨fs, h1, h4⟩
  · intro ctx s0 rest pucObject xObjectLength sid w hctx
    obtain ⟨fs, h1, _, _, h4⟩ := prxSendWindow_short p
      { s0 with usSessionID := toU16 (0 + 1), pucObject := pucObject,
                xObjectLength := xObjectLength, xOffset := 0,
                xWindowType := AWS_IOT_LARGE_OBJECT_WINDOW_EVEN,
                usRetriesLeft := s0.usNumRetries } w
    unfold AwsIotLargeObjectTransfer_Send
    rw [hctx]
    unfold AwsIotLargeObjectTransfer_Send.loop
    simp only [sessionFree_true, if_true]
    unfold prxOpenSendSession
    simp only
    by_cases hok : (prxSendWindow p
      { s0 with usSessionID := toU16 (0 + 1), pucObject := pucObject,
                xObjectLength := xObjectLength, xOffset := 0,
                xWindowType := AWS_IOT_LARGE_OBJECT_WINDOW_EVEN,
                usRetriesLeft := s0.usNumRetries } w).1
        = AWS_IOT_LARGE_OBJECT_TRANSFER_SUCCESS
    · simp only [hok, if_true]
      refine ⟨fs, _, h1, rfl, ?_⟩
      intro j hj hsh
      have := (h4 j hj hsh).1
      rw [hok] at this
      exact absurd this (by decide)
    · simp only [hok, if_false]
      refine ⟨fs, _, h1, rfl, ?_⟩
      intro j hj hsh
      obtain ⟨e1, e2⟩ := h4 j hj hsh
      exact ⟨e1, e2, trivial, rfl, rfl⟩

set_option maxRecDepth 100000 in
/-- The theorem `partial_send_aborts` read on the platform that loses the third frame: the
first window of a 100-byte object is cut after its third block, `Send` returns NetworkError,
the id output keeps its value 77 and the session stays in state Init. -/
theorem partial_send_aborts_witness :
    (∃ fs, (prxSendWindow thirdFrameLost
          (scenarioSending (List.range 100) 0 AWS_IOT_LARGE_OBJECT_WINDOW_EVEN)
          World.empty).2.sent = World.empty.sent ++ fs
        ∧ ∀ j, j < fs.length → shortAt thirdFrameLost World.empty.sent fs j →
            (prxSendWindow thirdFrameLost
              (scenarioSending (List.range 100) 0 AWS_IOT_LARGE_OBJECT_WINDOW_EVEN)
              World.empty).1 = AWS_IOT_LARGE_OBJECT_TRANSFER_NETWORK_ERROR
            ∧ j + 1 = fs.length)
    ∧ shortAt thirdFrameLost []
        (AwsIotLargeObjectTransfer_Send thirdFrameLost scenarioContext (List.range 100) 100 77
          World.empty).world.sent 2
    ∧ (AwsIotLargeObjectTransfer_Send thirdFrameLost scenarioContext (List.range 100) 100 77
          World.empty).xError = AWS_IOT_LARGE_OBJECT_TRANSFER_NETWORK_ERROR
    ∧ (AwsIotLargeObjectTransfer_Send thirdFrameLost scenarioContext (List.range 100) 100 77
          World.empty).usSessionID = 77
    ∧ (AwsIotLargeObjectTransfer_Send thirdFrameLost scenarioContext (List.range 100) 100 77
          World.empty).world.sent.map _BLOCK_NUMBER = [0, 1, 2]
    ∧ (AwsIotLargeObjectTransfer_Send thirdFrameLost scenarioContext (List.range 100) 100 77
          World.empty).pxSendSessions.map (fun s => (s.xState, s.xRetransmitTimer))
        = [(eAwsIotLargeObjectTransferInit, false)] :=
  ⟨(partial_send_aborts thirdFrameLost).2.1
      (scenarioSending (List.range 100) 0 AWS_IOT_LARGE_OBJECT_WINDOW_EVEN) World.empty,
   by unfold shortAt; decide, by decide, by decide, by decide, by decide⟩

theorem prxSendBlock_logs (p : Platform) (usSessionId usBlockNum : Nat)
    (xLastBlock xResume : Bool) (xWindowType : AwsIotLargeObjectWindowType) (m : List Nat)
    (n : Nat) (w : World) :
    (prxSendBlock p usSessionId usBlockNum xLastBlock xResume xWindowType m n w).2.received
        = w.received
    ∧ (prxSendBlock p usSessionId usBlockNum xLastBlock xResume xWindowType m n w).2.completed
        = w.completed := by
  rcases prxSendBlock_cases p usSessionId usBlockNum xLastBlock xResume xWindowType m n w
    with h | ⟨f, h⟩ <;> rw [h] <;> exact ⟨rfl, rfl⟩

theorem prxRetransmitMissingBlocks_loop_logs (p : Platform)
    (s : AwsIotLargeObjectSendSession) (bm : List Nat) :
    ∀ (n k : Nat) (w : World),
      (prxRetransmitMissingBlocks.loop p s bm n k w).2.received = w.received
      ∧ (prxRetransmitMissingBlocks.loop p s bm n k w).2.completed = w.completed := by
  intro n
  induction n with
  | zero => intro k w; exact ⟨rfl, rfl⟩
  | succ n ih =>
    intro k w
    unfold prxRetransmitMissingBlocks.loop
    simp only
    split
    · generalize hlast : decide (sizeAdd (sizeAdd s.xOffset (k * s.usBlockSize)) s.usBlockSize
        ≥ s.xObjectLength) = last
      generalize hlen : (if last = true then
        sizeSub s.xObjectLength (sizeAdd s.xOffset (k * s.usBlockSize))
        else s.usBlockSize) = len
      have hb := prxSendBlock_logs p s.usSessionID k last false s.xWindowType
        (s.pucObject.drop (sizeAdd s.xOffset (k * s.usBlockSize))) len w
      split
      · exact hb
      · split
        · exact hb
        · obtain ⟨g1, g2⟩ := ih (k + 1) (prxSendBlock p s.usSessionID k last false s.xWindowType
            (s.pucObject.drop (sizeAdd s.xOffset (k * s.usBlockSize))) len w).2
          exact ⟨g1.trans hb.1, g2.trans hb.2⟩
    · exact ih (k + 1) w

/-- No path of `prvProcessACK` invokes either user callback. -/
theorem prvProcessACK_logs (p : Platform) (s : AwsIotLargeObjectSendSession)
    (pucACK : List Nat) (xLength : Nat) (w : World) :
    (prvProcessACK p s pucACK xLength w).2.received = w.received
    ∧ (prvProcessACK p s pucACK xLength w).2.completed = w.completed := by
  have hw : ∀ t : AwsIotLargeObjectSendSession,
      (prxSendWindow p t w).2.received = w.received
      ∧ (prxSendWindow p t w).2.completed = w.completed := by
    intro t
    obtain ⟨_, _, h2, h3, _⟩ := prxSendWindow_short p t w
    exact ⟨h2, h3⟩
  have hr : ∀ (t : AwsIotLargeObjectSendSession) (bm : List Nat) (l : Nat),
      (prxRetransmitMissingBlocks p t bm l w).2.received = w.received
      ∧ (prxRetransmitMissingBlocks p t bm l w).2.completed = w.completed := by
    intro t bm l
    exact prxRetransmitMissingBlocks_loop_logs p t bm _ 0 w
  unfold prvProcessACK
  simp only
  split
  · exact ⟨rfl, rfl⟩
  · split <;> split <;> (try split) <;> (try split) <;>
      first
      | exact hw _
      | exact hr _ _ _
      | exact ⟨rfl, rfl⟩

/-- The retransmit timer's callback invokes neither user callback. -/
theorem prvRetransmitWindow_logs (p : Platform) (s : AwsIotLargeObjectSendSession)
    (w : World) :
    (prvRetransmitWindow p s w).2.received = w.received
    ∧ (prvRetransmitWindow p s w).2.completed = w.completed := by
  obtain ⟨_, _, h2, h3, _⟩ := prxSendWindow_short p s w
  unfold prvRetransmitWindow
  split
  · simp only
    split <;> exact ⟨h2, h3⟩
  · exact ⟨rfl, rfl⟩

set_option maxRecDepth 100000 in
/-- C12, evaluated on an Open send session holding a 72-byte object (window size 4, block
size 18, offset 0, colour Even) that receives a Success ACK with the one-byte bitmap
`0b00000100`: bit 2 is set (block 2 is the missing one, `prxIsBlockReceived` is false for
it), yet the frames re-sent are blocks 0, 1 and 3 and block 2 is not among them. The same
happens with the bitmap `0xF4` a receiver holds after receiving blocks 0, 1 and 3. Offset,
colour and state are unchanged. -/
theorem retransmit_sends_received_blocks :
    prxIsBlockReceived [0x04] 2 = false
    ∧ (prvProcessACK idealPlatform
        (scenarioSending (List.range 72) 0 AWS_IOT_LARGE_OBJECT_WINDOW_EVEN) [1, 0, 0, 0x04] 4
        World.empty).2.sent.map _BLOCK_NUMBER = [0, 1, 3]
    ∧ (prvProcessACK idealPlatform
        (scenarioSending (List.range 72) 0 AWS_IOT_LARGE_OBJECT_WINDOW_EVEN) [1, 0, 0, 0xF4] 4
        World.empty).2.sent.map _BLOCK_NUMBER = [0, 1, 3]
    ∧ (prxRetransmitMissingBlocks idealPlatform
        (scenarioSending (List.range 72) 0 AWS_IOT_LARGE_OBJECT_WINDOW_EVEN) [0x04] 1
        World.empty).2.sent.map _BLOCK_NUMBER = [0, 1, 3]
    ∧ (prvProcessACK idealPlatform
        (scenarioSending (List.range 72) 0 AWS_IOT_LARGE_OBJECT_WINDOW_EVEN) [1, 0, 0, 0x04] 4
        World.empty).1
        = scenarioSending (List.range 72) 0 AWS_IOT_LARGE_OBJECT_WINDOW_EVEN := by
  decide

set_option maxRecDepth 100000 in
/-- C13, evaluated on the send session that has just sent a 10-byte object in one window
(one frame, block 0, with `LAST_BLOCK`): when the dispatcher is handed the full ACK
`[1, 0, 0]`, the session stays Open with the retransmit timer running, its offset moves to
72 and its colour to Odd, no frame is emitted and the completion callback is not invoked.
No path of `prvProcessACK` invokes the completion callback. -/
theorem full_ack_of_last_window_keeps_session_open :
    sentTenBytes.world.sent.map (fun f => (_BLOCK_NUMBER f, _FLAGS f &&& _LAST_BLOCK_MASK))
        = [(0, 1)]
    ∧ sentTenBytes.pxSendSessions.map (fun s => (s.xState, s.xOffset, s.xObjectLength))
        = [(eAwsIotLargeObjectTransferOpen, 0, 10)]
    ∧ (prvNetworkReceiveCallback idealPlatform
        { scenarioContext with pxSendSessions := sentTenBytes.pxSendSessions } [1, 0, 0] 3
        sentTenBytes.world).1.pxSendSessions.map
          (fun s => (s.xState, s.xRetransmitTimer, s.xOffset, s.xWindowType))
        = [(eAwsIotLargeObjectTransferOpen, true, 72, AWS_IOT_LARGE_OBJECT_WINDOW_ODD)]
    ∧ (prvNetworkReceiveCallback idealPlatform
        { scenarioContext with pxSendSessions := sentTenBytes.pxSendSessions } [1, 0, 0] 3
        sentTenBytes.world).2 = sentTenBytes.world
    ∧ (prvNetworkReceiveCallback idealPlatform
        { scenarioContext with pxSendSessions := sentTenBytes.pxSendSessions } [1, 0, 0] 3
        sentTenBytes.world).2.completed = []
    ∧ (∀ (p : Platform) (s : AwsIotLargeObjectSendSession) (pucACK : List Nat)
        (xLength : Nat) (w : World),
        (prvProcessACK p s pucACK xLength w).2.completed = w.completed) := by
  refine ⟨by decide, by decide, by decide, by decide, by decide, ?_⟩
  intro p s pucACK xLength w
  exact (prvProcessACK_logs p s pucACK xLength w).2

set_option maxRecDepth 100000 in
/-- C16, evaluated on an Open send session (100-byte object, offset 0) whose retransmit
timer expires with no retries left: the session becomes Resumable with the timer stopped
and no frame is emitted, but the completion callback is not invoked. The callback of the
retransmit timer never invokes the completion callback. -/
theorem retries_exhausted_without_callback :
    (prvRetransmitWindow idealPlatform
        { scenarioSending (List.range 100) 0 AWS_IOT_LARGE_OBJECT_WINDOW_EVEN with
          usRetriesLeft := 0 } World.empty).1
      = { scenarioSending (List.range 100) 0 AWS_IOT_LARGE_OBJECT_WINDOW_EVEN with
          usRetriesLeft := 0
          xState := eAwsIotLargeObjectTransferResumable
          xRetransmitTimer := false }
    ∧ (prvRetransmitWindow idealPlatform
        { scenarioSending (List.range 100) 0 AWS_IOT_LARGE_OBJECT_WINDOW_EVEN with
          usRetriesLeft := 0 } World.empty).2.sent = []
    ∧ (prvRetransmitWindow idealPlatform
        { scenarioSending (List.range 100) 0 AWS_IOT_LARGE_OBJECT_WINDOW_EVEN with
          usRetriesLeft := 0 } World.empty).2.completed = []
    ∧ (∀ (p : Platform) (s : AwsIotLargeObjectSendSession) (w : World),
        (prvRetransmitWindow p s w).2.completed = w.completed) := by
  refine ⟨by decide, by decide, by decide, ?_⟩
  intro p s w
  exact (prvRetransmitWindow_logs p s w).2

set_option maxRecDepth 100000 in
/-- C20, evaluated on the scenario receive session (window size 4, block size 18, colour
Even, all bits set). Block 1 with 18 bytes of 7 is ingested, then block 0 with 18 bytes
of 1. The ingest of block 0 clears its bit and counts one more block, but it adds 28 to
the buffer length where the frame carries 18 data bytes, and it writes the 28 bytes
`[0, 28)` of the buffer: the bytes `[18, 28)`, which held data of block 1, are
overwritten. Already the first ingest reports buffer length 28. -/
theorem block_ingest_copies_ten_bytes_more :
    (scenarioReceiving.xState, scenarioReceiving.xWindowType, scenarioReceiving.usWindowSize,
        scenarioReceiving.usBlockSize, scenarioReceiving.ucBlockBitMap,
        scenarioReceiving.xBufferLength, scenarioReceiving.usNumBlocksReceived)
      = (eAwsIotLargeObjectTransferOpen, AWS_IOT_LARGE_OBJECT_WINDOW_EVEN, 4, 18,
          [0xFF, 0xFF, 0xFF, 0xFF], 0, 0)
    ∧ (fullBlock 0 1).length = 23 ∧ (_BLOCK_DATA (fullBlock 0 1)).length = 18
    ∧ (prvProcessBlock idealPlatform scenarioReceiving (fullBlock 1 7) 23
        World.empty).1.xBufferLength = 28
    ∧ ((prvProcessBlock idealPlatform scenarioReceiving (fullBlock 1 7) 23
        World.empty).1.pucBuffer.drop 18).take 18 = List.replicate 18 7
    ∧ (prvProcessBlock idealPlatform
        (prvProcessBlock idealPlatform scenarioReceiving (fullBlock 1 7) 23 World.empty).1
        (fullBlock 0 1) 23 World.empty).1.xBufferLength = 28 + 28
    ∧ ((prvProcessBlock idealPlatform
        (prvProcessBlock idealPlatform scenarioReceiving (fullBlock 1 7) 23 World.empty).1
        (fullBlock 0 1) 23 World.empty).1.pucBuffer.drop 18).take 18
        = List.replicate 10 0 ++ List.replicate 8 7
    ∧ (prvProcessBlock idealPlatform
        (prvProcessBlock idealPlatform scenarioReceiving (fullBlock 1 7) 23 World.empty).1
        (fullBlock 0 1) 23 World.empty).1.usNumBlocksReceived = 2
    ∧ (prvProcessBlock idealPlatform
        (prvProcessBlock idealPlatform scenarioReceiving (fullBlock 1 7) 23 World.empty).1
        (fullBlock 0 1) 23 World.empty).1.ucBlockBitMap = [0xFC, 0xFF, 0xFF, 0xFF] := by
  decide

/-- C14: window advance. An Open send session whose current window ends before the end of
the object (`xOffset + usWindowSize * usBlockSize < xObjectLength`) is handed a full ACK
(three bytes, error code Success) on a platform that accepts every frame (and whose
allocations succeed). Then the offset grows by exactly `usWindowSize * usBlockSize`, the
colour is toggled once, `usRetriesLeft` is reset to `usNumRetries`, the session stays Open
with the retransmit timer running and every other field unchanged, and the frames handed
to the network are the next window: what `prxSendWindow` sends for the new offset and
colour, a non-empty list of at most `usWindowSize` frames, frame `k` being block `k` from
the new offset in the new colour. -/
theorem window_advance (p : Platform) (s : AwsIotLargeObjectSendSession) (a b : Nat)
    (w : World) (hnet : p.AcceptsAll) (hmem : p.AllocOk)
    (hopen : s.xState = eAwsIotLargeObjectTransferOpen)
    (hobj : s.pucObject.length = s.xObjectLength)
    (hws : 1 ≤ s.usWindowSize)
    (hlen : s.xObjectLength + s.usBlockSize + 5 < 2 ^ 32)
    (hmore : s.xOffset + s.usWindowSize * s.usBlockSize < s.xObjectLength) :
    ∃ fs : List (List Nat),
      prvProcessACK p s [a, b, AWS_IOT_LARGE_OBJECT_TRANSFER_SUCCESS.code] 3 w =
        ({ s with usRetriesLeft := s.usNumRetries
                  xOffset := s.xOffset + s.usWindowSize * s.usBlockSize
                  xWindowType := toggleWindow s.xWindowType
                  xRetransmitTimer := true },
         { w with sent := w.sent ++ fs })
      ∧ (prvProcessACK p s [a, b, AWS_IOT_LARGE_OBJECT_TRANSFER_SUCCESS.code] 3 w).1.xState
          = eAwsIotLargeObjectTransferOpen
      ∧ toggleWindow s.xWindowType ≠ s.xWindowType
      ∧ (prxSendWindow p
          { s with xOffset := s.xOffset + s.usWindowSize * s.usBlockSize
                   xWindowType := toggleWindow s.xWindowType } w).2.sent = w.sent ++ fs
      ∧ fs ≠ [] ∧ fs.length ≤ s.usWindowSize
      ∧ ∀ (k : Nat) (hk : k < fs.length),
          fs[k] = blockFrame
            { s with xOffset := s.xOffset + s.usWindowSize * s.usBlockSize
                     xWindowType := toggleWindow s.xWindowType } k := by
  have hfull := prvProcessACK_full p s a b w hnet hmem hopen hobj hlen (by omega)
  rw [if_pos hmore] at hfull
  have hsw := prxSendWindow_eq p
    { s with xOffset := s.xOffset + s.usWindowSize * s.usBlockSize
             xWindowType := toggleWindow s.xWindowType } w hnet hmem hobj hlen
  rw [if_pos hmore] at hsw
  refine ⟨windowFrames
    { s with xOffset := s.xOffset + s.usWindowSize * s.usBlockSize
             xWindowType := toggleWindow s.xWindowType } s.usWindowSize 0, hfull, ?_, ?_, ?_,
    windowFrames_ne_nil _ _ _ hws, windowFrames_length_le _ _ _, ?_⟩
  · have : (prvProcessACK p s [a, b, AWS_IOT_LARGE_OBJECT_TRANSFER_SUCCESS.code] 3 w).1.xState
        = s.xState := by
      rw [show AWS_IOT_LARGE_OBJECT_TRANSFER_SUCCESS.code = 0 from rfl, hfull]
    rw [this, hopen]
  · cases s.xWindowType <;> decide
  · rw [hsw]
  · intro k hk
    have := (windowFrames_get _ _ 0 k hk).1
    rw [Nat.zero_add] at this
    exact this

/-- C15: an ACK with error code WrongWindow is handled as a full ACK. For every send
session, every platform and every world, `prvProcessACK` on an ACK of at least three bytes
whose error code is WrongWindow (whatever follows the header) gives the same session and the
same world, hence the same emitted frames, as on the three-byte ACK with error code
Success. -/
theorem wrong_window_as_full_ack (p : Platform) (s : AwsIotLargeObjectSendSession)
    (a b : Nat) (rest : List Nat) (xLength : Nat) (w : World) (hlen : 3 ≤ xLength) :
    prvProcessACK p s
        (a :: b :: AWS_IOT_LARGE_OBJECT_TRANSFER_SESSION_WRONG_WINDOW.code :: rest) xLength w
      = prvProcessACK p s [a, b, AWS_IOT_LARGE_OBJECT_TRANSFER_SUCCESS.code] 3 w := by
  have hbl : toU16 (_BITMAP_LEN 3) = 0 := by decide
  have h3 : ¬ xLength < 3 := by omega
  unfold prvProcessACK
  simp only [_MIN_ACK_LENGTH, _ACK_HEADER_LENGTH, Nat.lt_irrefl, h3, if_false, _ERROR_CODE,
    List.getD_cons_succ, List.getD_cons_zero, AwsIotLargeObjectTransferError.code, if_true,
    hbl]
  simp

set_option maxRecDepth 100000 in
/-- The theorem `window_advance` applied to the first window of a 100-byte object in the
scenario, with the values it yields there. -/
theorem window_advance_witness :
    (idealPlatform.AcceptsAll ∧ idealPlatform.AllocOk
      ∧ (scenarioSending (List.range 100) 0 AWS_IOT_LARGE_OBJECT_WINDOW_EVEN).xState
          = eAwsIotLargeObjectTransferOpen
      ∧ (scenarioSending (List.range 100) 0 AWS_IOT_LARGE_OBJECT_WINDOW_EVEN).pucObject.length
          = (scenarioSending (List.range 100) 0 AWS_IOT_LARGE_OBJECT_WINDOW_EVEN).xObjectLength
      ∧ 1 ≤ (scenarioSending (List.range 100) 0 AWS_IOT_LARGE_OBJECT_WINDOW_EVEN).usWindowSize
      ∧ (scenarioSending (List.range 100) 0 AWS_IOT_LARGE_OBJECT_WINDOW_EVEN).xObjectLength
          + (scenarioSending (List.range 100) 0 AWS_IOT_LARGE_OBJECT_WINDOW_EVEN).usBlockSize
          + 5 < 2 ^ 32
      ∧ (scenarioSending (List.range 100) 0 AWS_IOT_LARGE_OBJECT_WINDOW_EVEN).xOffset
          + (scenarioSending (List.range 100) 0 AWS_IOT_LARGE_OBJECT_WINDOW_EVEN).usWindowSize
            * (scenarioSending (List.range 100) 0 AWS_IOT_LARGE_OBJECT_WINDOW_EVEN).usBlockSize
          < (scenarioSending (List.range 100) 0
              AWS_IOT_LARGE_OBJECT_WINDOW_EVEN).xObjectLength)
    ∧ (∃ fs : List (List Nat),
        prvProcessACK idealPlatform
            (scenarioSending (List.range 100) 0 AWS_IOT_LARGE_OBJECT_WINDOW_EVEN)
            [1, 0, AWS_IOT_LARGE_OBJECT_TRANSFER_SUCCESS.code] 3 World.empty
          = ({ scenarioSending (List.range 100) 0 AWS_IOT_LARGE_OBJECT_WINDOW_EVEN with
                usRetriesLeft := (scenarioSending (List.range 100) 0
                  AWS_IOT_LARGE_OBJECT_WINDOW_EVEN).usNumRetries
                xOffset := (scenarioSending (List.range 100) 0
                    AWS_IOT_LARGE_OBJECT_WINDOW_EVEN).xOffset
                  + (scenarioSending (List.range 100) 0
                      AWS_IOT_LARGE_OBJECT_WINDOW_EVEN).usWindowSize
                    * (scenarioSending (List.range 100) 0
                        AWS_IOT_LARGE_OBJECT_WINDOW_EVEN).usBlockSize
                xWindowType := toggleWindow (scenarioSending (List.range 100) 0
                  AWS_IOT_LARGE_OBJECT_WINDOW_EVEN).xWindowType
                xRetransmitTimer := true },
             { World.empty with sent := World.empty.sent ++ fs }))
    ∧ (prvProcessACK idealPlatform
          (scenarioSending (List.range 100) 0 AWS_IOT_LARGE_OBJECT_WINDOW_EVEN)
          [1, 0, 0] 3 World.empty).1
        = scenarioSending (List.range 100) 72 AWS_IOT_LARGE_OBJECT_WINDOW_ODD
    ∧ (prvProcessACK idealPlatform
          (scenarioSending (List.range 100) 0 AWS_IOT_LARGE_OBJECT_WINDOW_EVEN)
          [1, 0, 0] 3 World.empty).2.sent.map
          (fun f => (_BLOCK_NUMBER f, _FLAGS f, _BLOCK_DATA f))
        = [(0, 0xFC, (List.range 100).drop 72 |>.take 18),
           (1, 0xFD, (List.range 100).drop 90)] :=
  ⟨⟨idealPlatform_acceptsAll, idealPlatform_allocOk, by decide, by decide, by decide,
      by decide, by decide⟩,
   (window_advance idealPlatform
     (scenarioSending (List.range 100) 0 AWS_IOT_LARGE_OBJECT_WINDOW_EVEN) 1 0 World.empty
     idealPlatform_acceptsAll idealPlatform_allocOk (by decide) (by decide) (by decide)
     (by decide) (by decide)).imp (fun _ h => h.1),
   by decide, by decide⟩

set_option maxRecDepth 100000 in
/-- The theorem `wrong_window_as_full_ack` applied to the first window of a 100-byte object
in the scenario, with the values both ACKs yield there. -/
theorem wrong_window_as_full_ack_witness :
    (3 ≤ 3)
    ∧ prvProcessACK idealPlatform
        (scenarioSending (List.range 100) 0 AWS_IOT_LARGE_OBJECT_WINDOW_EVEN)
        (1 :: 0 :: AWS_IOT_LARGE_OBJECT_TRANSFER_SESSION_WRONG_WINDOW.code :: []) 3 World.empty
      = prvProcessACK idealPlatform
        (scenarioSending (List.range 100) 0 AWS_IOT_LARGE_OBJECT_WINDOW_EVEN)
        [1, 0, AWS_IOT_LARGE_OBJECT_TRANSFER_SUCCESS.code] 3 World.empty
    ∧ (prvProcessACK idealPlatform
        (scenarioSending (List.range 100) 0 AWS_IOT_LARGE_OBJECT_WINDOW_EVEN)
        [1, 0, 4] 3 World.empty).1
      = scenarioSending (List.range 100) 72 AWS_IOT_LARGE_OBJECT_WINDOW_ODD
    ∧ (prvProcessACK idealPlatform
        (scenarioSending (List.range 100) 0 AWS_IOT_LARGE_OBJECT_WINDOW_EVEN)
        [1, 0, 4] 3 World.empty).2.sent.map _BLOCK_NUMBER = [0, 1] :=
  ⟨by decide,
   wrong_window_as_full_ack idealPlatform
     (scenarioSending (List.range 100) 0 AWS_IOT_LARGE_OBJECT_WINDOW_EVEN) 1 0 [] 3
     World.empty (by decide),
   by decide, by decide⟩

theorem expiries_eq (p : Platform) (s : AwsIotLargeObjectSendSession) (w : World)
    (hnet : p.AcceptsAll) (hmem : p.AllocOk)
    (hobj : s.pucObject.length = s.xObjectLength)
    (hsz : s.xObjectLength + s.usBlockSize + 5 < 2 ^ 32)
    (hoff : s.xOffset < s.xObjectLength)
    (htimer : s.xRetransmitTimer = true) :
    ∀ k, k ≤ s.usRetriesLeft →
      expiries p k (s, w) =
        ({ s with usRetriesLeft := s.usRetriesLeft - k },
         { w with sent := w.sent ++
            (List.replicate k (windowFrames s s.usWindowSize 0)).flatten }) := by
  intro k
  induction k with
  | zero => intro _; simp [expiries]
  | succ k ih =>
    intro hk
    have hpos : s.usRetriesLeft - k > 0 := by omega
    have hsw := prxSendWindow_eq p { s with usRetriesLeft := s.usRetriesLeft - k }
      { w with sent := w.sent ++
          (List.replicate k (windowFrames s s.usWindowSize 0)).flatten } hnet hmem hobj hsz
    rw [if_pos hoff] at hsw
    have hcongr := windowFrames_congr { s with usRetriesLeft := s.usRetriesLeft - k } s
      rfl rfl rfl rfl rfl rfl s.usWindowSize 0
    simp only [expiries]
    rw [ih (by omega)]
    unfold prvRetransmitWindow
    simp only [hpos, if_true, hsw, ne_eq, not_true_eq_false, if_false]
    simp only [hcongr, htimer, List.replicate_succ', List.flatten_append,
      List.flatten_cons, List.flatten_nil, List.append_nil, List.append_assoc,
      Nat.sub_sub]
    cases s
    simp_all

theorem expiries_last (p : Platform) (s : AwsIotLargeObjectSendSession) (w : World)
    (h0 : s.usRetriesLeft = 0) :
    prvRetransmitWindow p s w =
      ({ s with xState := eAwsIotLargeObjectTransferResumable, xRetransmitTimer := false },
       w) := by
  unfold prvRetransmitWindow
  simp [h0, prvCloseSession_xSend]

/-- C17: retry budget. `AwsIotLargeObjectTransfer_Send` of a non-empty object on a platform
that accepts every frame (and whose allocations succeed, window size at least one) returns
Success, leaves a session `s1` that is Open with its retransmit timer running and
`usRetriesLeft = usNumRetries`, and emits a non-empty list of frames `F`, the first window.
With no ACK arriving, after `k ≤ usNumRetries` expiries of the retransmit timer
(`prvRetransmitWindow`) the session is `s1` with `usRetriesLeft` lowered by exactly `k`
and nothing else changed (still Open, timer running, same offset and colour), and the
frames sent since the call of Send are `k + 1` copies of `F`. After `usNumRetries + 1`
expiries the session is Resumable with the timer stopped, and the frames sent are
`usNumRetries + 1` copies of `F`. -/
theorem retry_budget (p : Platform) (ctx : AwsIotLargeObjectTransferContext)
    (s0 : AwsIotLargeObjectSendSession) (rest : List AwsIotLargeObjectSendSession)
    (obj : List Nat) (sid : Nat) (w : World) (k : Nat)
    (hnet : p.AcceptsAll) (hmem : p.AllocOk)
    (hctx : ctx.pxSendSessions = s0 :: rest)
    (hws : 1 ≤ s0.usWindowSize)
    (hobj : obj ≠ [])
    (hsz : obj.length + s0.usBlockSize + 5 < 2 ^ 32)
    (hk : k ≤ s0.usNumRetries) :
    ∃ (s1 : AwsIotLargeObjectSendSession) (F : List (List Nat)),
      (AwsIotLargeObjectTransfer_Send p ctx obj obj.length sid w).xError
          = AWS_IOT_LARGE_OBJECT_TRANSFER_SUCCESS
      ∧ (AwsIotLargeObjectTransfer_Send p ctx obj obj.length sid w).pxSendSessions
          = s1 :: rest
      ∧ (AwsIotLargeObjectTransfer_Send p ctx obj obj.length sid w).world
          = { w with sent := w.sent ++ F }
      ∧ F ≠ []
      ∧ s1.xState = eAwsIotLargeObjectTransferOpen
      ∧ s1.xRetransmitTimer = true
      ∧ s1.usRetriesLeft = s0.usNumRetries
      ∧ expiries p k
            (s1, (AwsIotLargeObjectTransfer_Send p ctx obj obj.length sid w).world)
          = ({ s1 with usRetriesLeft := s0.usNumRetries - k },
             { w with sent := w.sent ++ (List.replicate (k + 1) F).flatten })
      ∧ expiries p (s0.usNumRetries + 1)
            (s1, (AwsIotLargeObjectTransfer_Send p ctx obj obj.length sid w).world)
          = ({ s1 with
                usRetriesLeft := 0
                xState := eAwsIotLargeObjectTransferResumable
                xRetransmitTimer := false },
             { w with sent := w.sent ++
                (List.replicate (s0.usNumRetries + 1) F).flatten }) := by
  have hlen : 0 < obj.length := List.length_pos.mpr hobj
  have hsend := send_eq p ctx obj s0 rest sid w hnet hmem hctx hsz
  rw [if_pos hlen] at hsend
  have hcongr := windowFrames_congr
    { s0 with usSessionID := 1, pucObject := obj, xObjectLength := obj.length, xOffset := 0,
              xWindowType := AWS_IOT_LARGE_OBJECT_WINDOW_EVEN,
              usRetriesLeft := s0.usNumRetries }
    { s0 with usSessionID := 1, pucObject := obj, xObjectLength := obj.length,
              xOffset := 0, xWindowType := AWS_IOT_LARGE_OBJECT_WINDOW_EVEN,
              usRetriesLeft := s0.usNumRetries, xRetransmitTimer := true,
              xState := eAwsIotLargeObjectTransferOpen }
    rfl rfl rfl rfl rfl rfl s0.usWindowSize 0
  have hexp := fun (j : Nat) (hj : j ≤ s0.usNumRetries) => expiries_eq p
    { s0 with usSessionID := 1, pucObject := obj, xObjectLength := obj.length,
              xOffset := 0, xWindowType := AWS_IOT_LARGE_OBJECT_WINDOW_EVEN,
              usRetriesLeft := s0.usNumRetries, xRetransmitTimer := true,
              xState := eAwsIotLargeObjectTransferOpen }
    { w with sent := w.sent ++
        windowFrames { s0 with usSessionID := 1, pucObject := obj,
                               xObjectLength := obj.length, xOffset := 0,
                               xWindowType := AWS_IOT_LARGE_OBJECT_WINDOW_EVEN,
                               usRetriesLeft := s0.usNumRetries } s0.usWindowSize 0 }
    hnet hmem rfl hsz hlen rfl j hj
  refine ⟨_, _, by rw [hsend], by rw [hsend], by rw [hsend],
    windowFrames_ne_nil _ _ _ hws, rfl, rfl, rfl, ?_, ?_⟩
  · rw [hsend, hexp k hk, ← hcongr]
    simp [List.replicate_succ, List.append_assoc]
  · rw [hsend]
    simp only [expiries]
    rw [hexp s0.usNumRetries (Nat.le_refl _), expiries_last _ _ _ (by simp), ← hcongr]
    simp [List.replicate_succ, List.append_assoc]

set_option maxRecDepth 100000 in
/-- The theorem `retry_budget` applied to a 100-byte object in the scenario (three retries)
after two expiries, with the values the run yields: four transmissions of blocks 0 to 3,
the session Open after the third expiry and Resumable after the fourth, no frame sent by
the fourth. -/
theorem retry_budget_witness :
    (idealPlatform.AcceptsAll ∧ idealPlatform.AllocOk
      ∧ scenarioContext.pxSendSessions = scenarioSession :: []
      ∧ 1 ≤ scenarioSession.usWindowSize
      ∧ List.range 100 ≠ []
      ∧ (List.range 100).length + scenarioSession.usBlockSize + 5 < 2 ^ 32
      ∧ 2 ≤ scenarioSession.usNumRetries)
    ∧ (∃ (s1 : AwsIotLargeObjectSendSession) (F : List (List Nat)),
        (AwsIotLargeObjectTransfer_Send idealPlatform scenarioContext (List.range 100)
            (List.range 100).length 0 World.empty).pxSendSessions = s1 :: []
        ∧ F ≠ []
        ∧ expiries idealPlatform 2
            (s1, (AwsIotLargeObjectTransfer_Send idealPlatform scenarioContext
              (List.range 100) (List.range 100).length 0 World.empty).world)
          = ({ s1 with usRetriesLeft := scenarioSession.usNumRetries - 2 },
             { World.empty with sent := World.empty.sent ++
                (List.replicate (2 + 1) F).flatten }))
    ∧ (expiries idealPlatform 3
        (scenarioSending (List.range 100) 0 AWS_IOT_LARGE_OBJECT_WINDOW_EVEN,
         busyWorld)).1
        = { scenarioSending (List.range 100) 0 AWS_IOT_LARGE_OBJECT_WINDOW_EVEN with
              usRetriesLeft := 0 }
    ∧ (expiries idealPlatform 4
        (scenarioSending (List.range 100) 0 AWS_IOT_LARGE_OBJECT_WINDOW_EVEN,
         busyWorld)).1
        = { scenarioSending (List.range 100) 0 AWS_IOT_LARGE_OBJECT_WINDOW_EVEN with
              usRetriesLeft := 0
              xState := eAwsIotLargeObjectTransferResumable
              xRetransmitTimer := false }
    ∧ (expiries idealPlatform 3
        (scenarioSending (List.range 100) 0 AWS_IOT_LARGE_OBJECT_WINDOW_EVEN,
         busyWorld)).2.sent.map _BLOCK_NUMBER
        = [0, 1, 2, 3, 0, 1, 2, 3, 0, 1, 2, 3, 0, 1, 2, 3]
    ∧ (expiries idealPlatform 4
        (scenarioSending (List.range 100) 0 AWS_IOT_LARGE_OBJECT_WINDOW_EVEN,
         busyWorld)).2
        = (expiries idealPlatform 3
        (scenarioSending (List.range 100) 0 AWS_IOT_LARGE_OBJECT_WINDOW_EVEN,
         busyWorld)).2 :=
  ⟨⟨idealPlatform_acceptsAll, idealPlatform_allocOk, by decide, by decide, by decide,
      by decide, by decide⟩,
   (retry_budget idealPlatform scenarioContext scenarioSession [] (List.range 100) 0
      World.empty 2 idealPlatform_acceptsAll idealPlatform_allocOk (by decide) (by decide)
      (by decide) (by decide) (by decide)).imp
     (fun _ h => h.imp (fun _ g => ⟨g.2.1, g.2.2.2.1, g.2.2.2.2.2.2.2.1⟩)),
   by decide, by decide, by decide, by decide⟩

theorem resume_loop_none (p : Platform) (usSessionID : Nat) :
    ∀ (l : List AwsIotLargeObjectSendSession) (xError : AwsIotLargeObjectTransferError)
      (w : World), (∀ s ∈ l, resumableWith usSessionID s = false) →
      AwsIotLargeObjectTransfer_Resume.loop p usSessionID l xError w = (xError, l, w) := by
  intro l
  induction l with
  | nil => intro xError w _; rfl
  | cons s rest ih =>
    intro xError w h
    have hs := h s (List.mem_cons_self _ _)
    have hs' : ¬ (s.usSessionID = usSessionID ∧
        s.xState = eAwsIotLargeObjectTransferResumable ∧ s.xOffset < s.xObjectLength) := by
      simpa [resumableWith] using hs
    unfold AwsIotLargeObjectTransfer_Resume.loop
    rw [if_neg hs', ih xError w (fun t ht => h t (List.mem_cons_of_mem _ ht))]

theorem resume_loop_accept (p : Platform) (usSessionID : Nat)
    (hnet : p.AcceptsAll) (hmem : p.AllocOk) :
    ∀ (l : List AwsIotLargeObjectSendSession) (xError : AwsIotLargeObjectTransferError)
      (w : World),
      (∀ s ∈ l, resumableWith usSessionID s = true →
        s.pucObject.length = s.xObjectLength ∧
        s.xObjectLength + s.usBlockSize + 5 < 2 ^ 32) →
      AwsIotLargeObjectTransfer_Resume.loop p usSessionID l xError w =
        (if l.any (resumableWith usSessionID) then AWS_IOT_LARGE_OBJECT_TRANSFER_SUCCESS
          else xError,
         l.map (fun s => if resumableWith usSessionID s then
            { s with xRetransmitTimer := true, xState := eAwsIotLargeObjectTransferOpen }
            else s),
         { w with sent := w.sent ++
            ((l.filter (resumableWith usSessionID)).map
              (fun s => windowFrames s s.usWindowSize 0)).flatten }) := by
  intro l
  induction l with
  | nil => intro xError w _; simp [AwsIotLargeObjectTransfer_Resume.loop]
  | cons s rest ih =>
    intro xError w h
    have hrest := fun t ht => h t (List.mem_cons_of_mem _ ht)
    unfold AwsIotLargeObjectTransfer_Resume.loop
    by_cases hs : resumableWith usSessionID s = true
    · have hs' : s.usSessionID = usSessionID ∧
          s.xState = eAwsIotLargeObjectTransferResumable ∧ s.xOffset < s.xObjectLength := by
        simpa [resumableWith] using hs
      obtain ⟨hobj, hsz⟩ := h s (List.mem_cons_self _ _) hs
      have hsw := prxSendWindow_eq p s w hnet hmem hobj hsz
      rw [if_pos hs'.2.2] at hsw
      rw [if_pos hs']
      simp only [hsw, if_true]
      rw [ih _ _ hrest]
      simp [hs, List.append_assoc]
    · have hs' : ¬ (s.usSessionID = usSessionID ∧
          s.xState = eAwsIotLargeObjectTransferResumable ∧ s.xOffset < s.xObjectLength) := by
        simpa [resumableWith] using hs
      rw [if_neg hs']
      simp only
      rw [ih _ _ hrest]
      simp [hs]

/-- C18: `AwsIotLargeObjectTransfer_Resume` is valid only for a Resumable session with data
left. Unless some send session holds the id, is Resumable and has `xOffset <
xObjectLength`, Resume returns InvalidParam and leaves the context and the world (so no
frame is emitted) as they were, on every platform; in particular a session that is Open or
Closed is not resumed. When such a session exists, on a platform that accepts every frame
(and whose allocations succeed), Resume returns Success, every such session becomes Open
with its retransmit timer running and no other field changed (same offset and colour), the
other sessions are unchanged, and the frames emitted are the current window of each such
session (`windowFrames` at its offset and colour), which is not empty. -/
theorem resume_contract (p : Platform) (ctx : AwsIotLargeObjectTransferContext)
    (usSessionID : Nat) (w : World) :
    ((∀ s ∈ ctx.pxSendSessions, resumableWith usSessionID s = false) →
      AwsIotLargeObjectTransfer_Resume p ctx usSessionID w =
        (AWS_IOT_LARGE_OBJECT_TRANSFER_INVALID_PARAM, ctx, w))
    ∧ (∀ s ∈ ctx.pxSendSessions,
        s.xState = eAwsIotLargeObjectTransferOpen ∨ s.xState = eAwsIotLargeObjectTransferClosed
          → resumableWith usSessionID s = false)
    ∧ (p.AcceptsAll → p.AllocOk →
        (∀ s ∈ ctx.pxSendSessions, resumableWith usSessionID s = true →
          s.pucObject.length = s.xObjectLength ∧
          s.xObjectLength + s.usBlockSize + 5 < 2 ^ 32 ∧ 1 ≤ s.usWindowSize) →
        (∃ s ∈ ctx.pxSendSessions, resumableWith usSessionID s = true) →
        AwsIotLargeObjectTransfer_Resume p ctx usSessionID w =
          (AWS_IOT_LARGE_OBJECT_TRANSFER_SUCCESS,
           { ctx with pxSendSessions := List.map (fun s =>
              if resumableWith usSessionID s then
                { s with xRetransmitTimer := true, xState := eAwsIotLargeObjectTransferOpen }
                else s) ctx.pxSendSessions },
           { w with sent := w.sent ++
              ((ctx.pxSendSessions.filter (resumableWith usSessionID)).map
                (fun s => windowFrames s s.usWindowSize 0)).flatten })
        ∧ ((ctx.pxSendSessions.filter (resumableWith usSessionID)).map
              (fun s => windowFrames s s.usWindowSize 0)).flatten ≠ []) := by
  refine ⟨?_, ?_, ?_⟩
  · intro h
    unfold AwsIotLargeObjectTransfer_Resume
    simp only [resume_loop_none p usSessionID _ _ w h]
  · intro s _ hst
    unfold resumableWith
    rcases hst with h | h <;> simp [h]
  · intro hnet hmem hall hex
    constructor
    · unfold AwsIotLargeObjectTransfer_Resume
      have hany : ctx.pxSendSessions.any (resumableWith usSessionID) = true := by
        obtain ⟨s, hs, hr⟩ := hex
        exact List.any_eq_true.mpr ⟨s, hs, hr⟩
      simp only [resume_loop_accept p usSessionID hnet hmem _ _ w
        (fun s hs hr => ⟨(hall s hs hr).1, (hall s hs hr).2.1⟩), hany, if_true]
    · obtain ⟨s, hs, hr⟩ := hex
      intro hnil
      have hmemf : windowFrames s s.usWindowSize 0 ∈
          (ctx.pxSendSessions.filter (resumableWith usSessionID)).map
            (fun s => windowFrames s s.usWindowSize 0) :=
        List.mem_map.mpr ⟨s, List.mem_filter.mpr ⟨hs, hr⟩, rfl⟩
      have := List.flatten_eq_nil_iff.mp hnil _ hmemf
      exact windowFrames_ne_nil s s.usWindowSize 0 (hall s hs hr).2.2 this

set_option maxRecDepth 100000 in
/-- The theorem `resume_contract` applied in the scenario: to the context whose session is
Open (not resumed), and to the context whose session is Resumable at offset 72 in the odd
colour (resumed: blocks 0 and 1 of the second window are sent again). -/
theorem resume_contract_witness :
    ((∀ s ∈ busyContext.pxSendSessions, resumableWith 1 s = false)
      ∧ AwsIotLargeObjectTransfer_Resume idealPlatform busyContext 1 busyWorld =
          (AWS_IOT_LARGE_OBJECT_TRANSFER_INVALID_PARAM, busyContext, busyWorld))
    ∧ ((∃ s ∈ resumableContext.pxSendSessions, resumableWith 1 s = true)
      ∧ AwsIotLargeObjectTransfer_Resume idealPlatform resumableContext 1 World.empty =
          (AWS_IOT_LARGE_OBJECT_TRANSFER_SUCCESS,
           { resumableContext with
            pxSendSessions := List.map (fun s =>
              if resumableWith 1 s then
                { s with xRetransmitTimer := true, xState := eAwsIotLargeObjectTransferOpen }
                else s) resumableContext.pxSendSessions },
           { World.empty with sent := World.empty.sent ++
              ((resumableContext.pxSendSessions.filter (resumableWith 1)).map
                (fun s => windowFrames s s.usWindowSize 0)).flatten }))
    ∧ (AwsIotLargeObjectTransfer_Resume idealPlatform resumableContext 1
          World.empty).2.1.pxSendSessions
        = [{ scenarioSending (List.range 100) 72 AWS_IOT_LARGE_OBJECT_WINDOW_ODD with
              usRetriesLeft := 0 }]
    ∧ (AwsIotLargeObjectTransfer_Resume idealPlatform resumableContext 1
          World.empty).2.2.sent.map (fun f => (_BLOCK_NUMBER f, _FLAGS f, _BLOCK_DATA f))
        = [(0, 0xFC, (List.range 100).drop 72 |>.take 18),
           (1, 0xFD, (List.range 100).drop 90)]
    ∧ (AwsIotLargeObjectTransfer_Resume idealPlatform resumableContext 2 World.empty)
        = (AWS_IOT_LARGE_OBJECT_TRANSFER_INVALID_PARAM, resumableContext, World.empty) :=
  ⟨⟨by decide,
    (resume_contract idealPlatform busyContext 1 busyWorld).1 (by decide)⟩,
   ⟨by decide,
    ((resume_contract idealPlatform resumableContext 1 World.empty).2.2
      idealPlatform_acceptsAll idealPlatform_allocOk (by decide) (by decide)).1⟩,
   by decide, by decide, by decide⟩

theorem map_close_send_twice (usSessionID : Nat) (l : List AwsIotLargeObjectSendSession) :
    (l.map (fun s => if s.usSessionID = usSessionID then prvCloseSession_xSend s false
        else s)).map
      (fun s => if s.usSessionID = usSessionID then prvCloseSession_xSend s false else s)
    = l.map (fun s => if s.usSessionID = usSessionID then prvCloseSession_xSend s false
        else s) := by
  rw [List.map_map]
  apply List.map_congr_left
  intro s _
  by_cases h : s.usSessionID = usSessionID <;> simp [h, prvCloseSession_xSend]

theorem map_close_recv_twice (usSessionID : Nat) (l : List AwsIotLargeObjectReceiveSession) :
    (l.map (fun s => if s.usSessionID = usSessionID then prvCloseSession_xRecv s false
        else s)).map
      (fun s => if s.usSessionID = usSessionID then prvCloseSession_xRecv s false else s)
    = l.map (fun s => if s.usSessionID = usSessionID then prvCloseSession_xRecv s false
        else s) := by
  rw [List.map_map]
  apply List.map_congr_left
  intro s _
  by_cases h : s.usSessionID = usSessionID <;> simp [h, prvCloseSession_xRecv]

theorem any_close_send (usSessionID : Nat) (l : List AwsIotLargeObjectSendSession) :
    (l.map (fun s => if s.usSessionID = usSessionID then prvCloseSession_xSend s false
        else s)).any (fun s => decide (s.usSessionID = usSessionID))
    = l.any (fun s => decide (s.usSessionID = usSessionID)) := by
  rw [List.any_map]
  congr 1
  funext s
  by_cases h : s.usSessionID = usSessionID <;> simp [h, prvCloseSession_xSend]

theorem any_close_recv (usSessionID : Nat) (l : List AwsIotLargeObjectReceiveSession) :
    (l.map (fun s => if s.usSessionID = usSessionID then prvCloseSession_xRecv s false
        else s)).any (fun s => decide (s.usSessionID = usSessionID))
    = l.any (fun s => decide (s.usSessionID = usSessionID)) := by
  rw [List.any_map]
  congr 1
  funext s
  by_cases h : s.usSessionID = usSessionID <;> simp [h, prvCloseSession_xRecv]

/-- C19: `AwsIotLargeObjectTransfer_CloseSession` is idempotent. For the send direction the
context it leaves is the given one in which every send session holding the id has state
Closed and its retransmit timer stopped, every other field of those sessions, every other
send session, the receive sessions and the parameters being unchanged; for the receive
direction likewise with the receive sessions and the ACK timer. The result is Success
when some session of that direction holds the id and SessionNotFound otherwise, and in
the latter case the context is unchanged. Calling it again with the same arguments on
the context it left gives the same result and the same context. -/
theorem close_session_idempotent (ctx : AwsIotLargeObjectTransferContext)
    (xType : AwsIotLargeObjectSessionType) (usSessionID : Nat) :
    (xType = AWS_IOT_LARGE_OBJECT_SESSION_SEND →
      (AwsIotLargeObjectTransfer_CloseSession ctx xType usSessionID).2 =
        { ctx with
          pxSendSessions := List.map (fun s =>
            if s.usSessionID = usSessionID then
              { s with xState := eAwsIotLargeObjectTransferClosed, xRetransmitTimer := false }
            else s) ctx.pxSendSessions }
      ∧ ((∃ s ∈ ctx.pxSendSessions, s.usSessionID = usSessionID) →
          (AwsIotLargeObjectTransfer_CloseSession ctx xType usSessionID).1
            = AWS_IOT_LARGE_OBJECT_TRANSFER_SUCCESS)
      ∧ ((∀ s ∈ ctx.pxSendSessions, s.usSessionID ≠ usSessionID) →
          AwsIotLargeObjectTransfer_CloseSession ctx xType usSessionID
            = (AWS_IOT_LARGE_OBJECT_TRANSFER_SESSION_NOT_FOUND, ctx)))
    ∧ (xType = AWS_IOT_LARGE_OBJECT_SESSION_RECIEVE →
      (AwsIotLargeObjectTransfer_CloseSession ctx xType usSessionID).2 =
        { ctx with
          pxRecvSessions := List.map (fun s =>
            if s.usSessionID = usSessionID then
              { s with xState := eAwsIotLargeObjectTransferClosed, xAckTimer := false }
            else s) ctx.pxRecvSessions }
      ∧ ((∃ s ∈ ctx.pxRecvSessions, s.usSessionID = usSessionID) →
          (AwsIotLargeObjectTransfer_CloseSession ctx xType usSessionID).1
            = AWS_IOT_LARGE_OBJECT_TRANSFER_SUCCESS)
      ∧ ((∀ s ∈ ctx.pxRecvSessions, s.usSessionID ≠ usSessionID) →
          AwsIotLargeObjectTransfer_CloseSession ctx xType usSessionID
            = (AWS_IOT_LARGE_OBJECT_TRANSFER_SESSION_NOT_FOUND, ctx)))
    ∧ AwsIotLargeObjectTransfer_CloseSession
          (AwsIotLargeObjectTransfer_CloseSession ctx xType usSessionID).2 xType usSessionID
        = AwsIotLargeObjectTransfer_CloseSession ctx xType usSessionID := by
  refine ⟨?_, ?_, ?_⟩
  · intro hT
    subst hT
    refine ⟨?_, ?_, ?_⟩
    · simp [AwsIotLargeObjectTransfer_CloseSession, prvCloseSession_xSend]
    · rintro ⟨s, hs, hid⟩
      have : ctx.pxSendSessions.any (fun s => decide (s.usSessionID = usSessionID)) = true :=
        List.any_eq_true.mpr ⟨s, hs, by simpa using hid⟩
      simp [AwsIotLargeObjectTransfer_CloseSession, this]
    · intro hno
      have hany : ctx.pxSendSessions.any (fun s => decide (s.usSessionID = usSessionID))
          = false := by
        rw [List.any_eq_false]
        intro s hs
        simpa using hno s hs
      have hmap : ctx.pxSendSessions.map
          (fun s => if s.usSessionID = usSessionID then prvCloseSession_xSend s false else s)
          = ctx.pxSendSessions := by
        conv => rhs; rw [← List.map_id ctx.pxSendSessions]
        apply List.map_congr_left
        intro s hs
        simp [hno s hs]
      simp only [AwsIotLargeObjectTransfer_CloseSession, if_true, hany, hmap]
      simp
  · intro hT
    subst hT
    refine ⟨?_, ?_, ?_⟩
    · simp [AwsIotLargeObjectTransfer_CloseSession, prvCloseSession_xRecv]
    · rintro ⟨s, hs, hid⟩
      have : ctx.pxRecvSessions.any (fun s => decide (s.usSessionID = usSessionID)) = true :=
        List.any_eq_true.mpr ⟨s, hs, by simpa using hid⟩
      simp [AwsIotLargeObjectTransfer_CloseSession, this]
    · intro hno
      have hany : ctx.pxRecvSessions.any (fun s => decide (s.usSessionID = usSessionID))
          = false := by
        rw [List.any_eq_false]
        intro s hs
        simpa using hno s hs
      have hmap : ctx.pxRecvSessions.map
          (fun s => if s.usSessionID = usSessionID then prvCloseSession_xRecv s false else s)
          = ctx.pxRecvSessions := by
        conv => rhs; rw [← List.map_id ctx.pxRecvSessions]
        apply List.map_congr_left
        intro s hs
        simp [hno s hs]
      simp only [AwsIotLargeObjectTransfer_CloseSession, hany, hmap]
      simp
  · cases xType
    · simp only [AwsIotLargeObjectTransfer_CloseSession, if_true, map_close_send_twice,
        any_close_send]
    · have hne : ¬ (AWS_IOT_LARGE_OBJECT_SESSION_RECIEVE
          = AWS_IOT_LARGE_OBJECT_SESSION_SEND) := by decide
      simp only [AwsIotLargeObjectTransfer_CloseSession, hne, if_false,
        map_close_recv_twice, any_close_recv]

set_option maxRecDepth 100000 in
/-- The theorem `close_session_idempotent` applied in the scenario to the context whose send
session 1 is Open: the first and the second call both return Success and leave the session
Closed with its timer stopped; the id 2, which no send session holds, is not found. -/
theorem close_session_idempotent_witness :
    AwsIotLargeObjectTransfer_CloseSession
        (AwsIotLargeObjectTransfer_CloseSession busyContext
          AWS_IOT_LARGE_OBJECT_SESSION_SEND 1).2 AWS_IOT_LARGE_OBJECT_SESSION_SEND 1
      = AwsIotLargeObjectTransfer_CloseSession busyContext AWS_IOT_LARGE_OBJECT_SESSION_SEND 1
    ∧ AwsIotLargeObjectTransfer_CloseSession busyContext AWS_IOT_LARGE_OBJECT_SESSION_SEND 1
      = (AWS_IOT_LARGE_OBJECT_TRANSFER_SUCCESS,
         { busyContext with
           pxSendSessions :=
             [{ scenarioSending (List.range 100) 0 AWS_IOT_LARGE_OBJECT_WINDOW_EVEN with
                 xState := eAwsIotLargeObjectTransferClosed
                 xRetransmitTimer := false }] })
    ∧ ((∀ s ∈ busyContext.pxSendSessions, s.usSessionID ≠ 2)
      ∧ AwsIotLargeObjectTransfer_CloseSession busyContext AWS_IOT_LARGE_OBJECT_SESSION_SEND 2
        = (AWS_IOT_LARGE_OBJECT_TRANSFER_SESSION_NOT_FOUND, busyContext)) :=
  ⟨(close_session_idempotent busyContext AWS_IOT_LARGE_OBJECT_SESSION_SEND 1).2.2,
   by decide,
   by decide,
   ((close_session_idempotent busyContext AWS_IOT_LARGE_OBJECT_SESSION_SEND 2).1 rfl).2.2
     (by decide)⟩

theorem prxSendACK_short (p : Platform) (usSessionId : Nat)
    (xErrorCode : AwsIotLargeObjectTransferError) (w : World) (hmem : p.malloc 3 = true) :
    (prxSendACK p usSessionId xErrorCode [] 0 w).2
      = { w with sent := w.sent ++ [shortAck usSessionId xErrorCode] } := by
  have h3 : _ACK_LENGTH 0 = 3 := by decide
  have hc : toU8 xErrorCode.code = xErrorCode.code := by cases xErrorCode <;> rfl
  unfold prxSendACK
  simp only [h3, hmem, if_true, Nat.lt_irrefl, if_false, hc, storeU16, shortAck]
  split <;> simp

/-- C23: wrong-colour block. When the colour bit of an incoming DATA frame differs from the
receive session's current window colour, `prvProcessBlock` (the allocation of the 3-byte
ACK succeeding) returns the session unchanged in every field and a world in which exactly
one frame has been added to the frames sent, the 3-byte ACK with the session's id and error
code WrongWindow (4) and no bitmap; the receive callback is not invoked. -/
theorem wrong_colour_block (p : Platform) (s : AwsIotLargeObjectReceiveSession)
    (pucBlock : List Nat) (xLength : Nat) (w : World)
    (hmem : p.malloc 3 = true)
    (hcol : frameColour pucBlock ≠ s.xWindowType) :
    prvProcessBlock p s pucBlock xLength w =
      (s, { w with sent := w.sent ++
        [[s.usSessionID % 256, s.usSessionID / 256 % 256, 4]] })
    ∧ (prvProcessBlock p s pucBlock xLength w).2.received = w.received
    ∧ shortAck s.usSessionID AWS_IOT_LARGE_OBJECT_TRANSFER_SESSION_WRONG_WINDOW
        = [s.usSessionID % 256, s.usSessionID / 256 % 256, 4] := by
  have h : prvProcessBlock p s pucBlock xLength w =
      (s, { w with sent := w.sent ++
        [[s.usSessionID % 256, s.usSessionID / 256 % 256, 4]] }) := by
    unfold prvProcessBlock
    unfold frameColour at hcol
    simp only [hcol, if_false]
    rw [prxSendACK_short p _ _ w hmem]
    rfl
  exact ⟨h, by rw [h], rfl⟩

/-- C24: out-of-range block number. When an incoming DATA frame has the receive session's
current colour and a block number that is not below the window size, `prvProcessBlock`
(the allocation of the 3-byte ACK succeeding) returns the session with state Closed and
the ACK timer stopped, every other field (buffer, buffer length, bitmap, counters, colour)
unchanged, and a world in which exactly one frame has been added to the frames sent, the
3-byte ACK with the session's id and error code InvalidPacket (5); the receive callback is
not invoked. -/
theorem out_of_range_block (p : Platform) (s : AwsIotLargeObjectReceiveSession)
    (pucBlock : List Nat) (xLength : Nat) (w : World)
    (hmem : p.malloc 3 = true)
    (hcol : frameColour pucBlock = s.xWindowType)
    (hnum : s.usWindowSize ≤ _BLOCK_NUMBER pucBlock) :
    prvProcessBlock p s pucBlock xLength w =
      ({ s with xState := eAwsIotLargeObjectTransferClosed, xAckTimer := false },
       { w with sent := w.sent ++
        [[s.usSessionID % 256, s.usSessionID / 256 % 256, 5]] })
    ∧ (prvProcessBlock p s pucBlock xLength w).1.xState ≠ eAwsIotLargeObjectTransferResumable
    ∧ (prvProcessBlock p s pucBlock xLength w).2.received = w.received := by
  have h : prvProcessBlock p s pucBlock xLength w =
      ({ s with xState := eAwsIotLargeObjectTransferClosed, xAckTimer := false },
       { w with sent := w.sent ++
        [[s.usSessionID % 256, s.usSessionID / 256 % 256, 5]] }) := by
    unfold prvProcessBlock
    unfold frameColour at hcol
    have hn : ¬ _BLOCK_NUMBER pucBlock < s.usWindowSize := by omega
    simp only [hcol, if_true, hn, if_false]
    rw [prxSendACK_short p _ _ w hmem]
    rfl
  refine ⟨h, ?_, ?_⟩
  · rw [h]; simp
  · rw [h]

set_option maxRecDepth 100000 in
/-- The theorem `wrong_colour_block` applied to the scenario receive session (colour Even)
and a frame of block 0 in colour Odd: the ACK is `[1, 0, 4]` and the session is as it
was. -/
theorem wrong_colour_block_witness :
    (idealPlatform.malloc 3 = true
      ∧ frameColour ([1, 0, 0, 0, 0xFC] ++ List.replicate 18 7) ≠ scenarioReceiving.xWindowType)
    ∧ prvProcessBlock idealPlatform scenarioReceiving
        ([1, 0, 0, 0, 0xFC] ++ List.replicate 18 7) 23 World.empty
      = (scenarioReceiving, { World.empty with sent := World.empty.sent ++
          [[scenarioReceiving.usSessionID % 256, scenarioReceiving.usSessionID / 256 % 256,
            4]] })
    ∧ (prvProcessBlock idealPlatform scenarioReceiving
        ([1, 0, 0, 0, 0xFC] ++ List.replicate 18 7) 23 World.empty).2
      = { sent := [[1, 0, 4]], received := [], completed := [] } :=
  ⟨⟨by decide, by decide⟩,
   (wrong_colour_block idealPlatform scenarioReceiving
     ([1, 0, 0, 0, 0xFC] ++ List.replicate 18 7) 23 World.empty (by decide) (by decide)).1,
   by decide⟩

set_option maxRecDepth 100000 in
/-- The theorem `out_of_range_block` applied to the scenario receive session (window size 4,
colour Even) and a frame of colour Even with block number 4: the ACK is `[1, 0, 5]` and the
session is Closed. -/
theorem out_of_range_block_witness :
    (idealPlatform.malloc 3 = true
      ∧ frameColour (fullBlock 4 7) = scenarioReceiving.xWindowType
      ∧ scenarioReceiving.usWindowSize ≤ _BLOCK_NUMBER (fullBlock 4 7))
    ∧ prvProcessBlock idealPlatform scenarioReceiving (fullBlock 4 7) 23 World.empty
      = ({ scenarioReceiving with
            xState := eAwsIotLargeObjectTransferClosed
            xAckTimer := false },
         { World.empty with sent := World.empty.sent ++
          [[scenarioReceiving.usSessionID % 256, scenarioReceiving.usSessionID / 256 % 256,
            5]] })
    ∧ (prvProcessBlock idealPlatform scenarioReceiving (fullBlock 4 7) 23 World.empty).2
      = { sent := [[1, 0, 5]], received := [], completed := [] }
    ∧ (prvProcessBlock idealPlatform scenarioReceiving (fullBlock 4 7) 23
        World.empty).1.xState = eAwsIotLargeObjectTransferClosed :=
  ⟨⟨by decide, by decide, by decide⟩,
   (out_of_range_block idealPlatform scenarioReceiving (fullBlock 4 7) 23 World.empty
     (by decide) (by decide) (by decide)).1,
   by decide, by decide⟩

theorem prxIsBlockReceived_set (bm : List Nat) (k : Nat) (hk : k / 8 < bm.length) :
    prxIsBlockReceived (prvSetBlockReceived bm k) k = true := by
  rw [prxIsBlockReceived_iff, getD_prvSetBlockReceived bm k _ hk, if_pos rfl,
    testBit_cleared _ _ _ (Nat.mod_lt _ (by norm_num))]
  simp

theorem prxSendACK_received (p : Platform) (usSessionId : Nat)
    (xErrorCode : AwsIotLargeObjectTransferError) (bm : List Nat) (n : Nat) (w : World) :
    (prxSendACK p usSessionId xErrorCode bm n w).2.received = w.received := by
  unfold prxSendACK
  simp only
  split_ifs <;> rfl

theorem blockStored_fields (s : AwsIotLargeObjectReceiveSession) (f : List Nat) (L : Nat) :
    (blockStored s f L).xWindowType = s.xWindowType
    ∧ (blockStored s f L).usWindowSize = s.usWindowSize
    ∧ (blockStored s f L).ucBlockBitMap = prvSetBlockReceived s.ucBlockBitMap (_BLOCK_NUMBER f)
    ∧ (blockStored s f L).usSessionID = s.usSessionID
    ∧ (blockStored s f L).xState = s.xState
    ∧ (blockStored s f L).xBufferLength = sizeAdd s.xBufferLength (_BLOCK_LENGTH L)
    ∧ (blockStored s f L).xLastWindow
        = (s.xLastWindow || decide (_FLAGS f &&& _LAST_BLOCK_MASK = _LAST_BLOCK_MASK)) := by
  unfold blockStored
  by_cases h : _FLAGS f &&& _LAST_BLOCK_MASK = _LAST_BLOCK_MASK <;> simp [h]

theorem prvProcessBlock_store (p : Platform) (s : AwsIotLargeObjectReceiveSession)
    (f : List Nat) (L : Nat) (w : World)
    (hcol : frameColour f = s.xWindowType)
    (hnum : _BLOCK_NUMBER f < s.usWindowSize)
    (hbit : prxIsBlockReceived s.ucBlockBitMap (_BLOCK_NUMBER f) = false)
    (hlt : (blockStored s f L).usNumBlocksReceived < (blockStored s f L).usNumWindowBlocks) :
    prvProcessBlock p s f L w = (blockStored s f L, w) := by
  unfold frameColour at hcol
  unfold blockStored at hlt
  unfold prvProcessBlock blockStored
  simp only [hcol, if_true, hnum, hbit]
  by_cases h : _FLAGS f &&& _LAST_BLOCK_MASK = _LAST_BLOCK_MASK
  · simp only [h, if_true, decide_True] at hlt ⊢
    rw [if_neg (by simpa using hlt)]
  · simp only [h, if_false, decide_False] at hlt ⊢
    simp only [Bool.false_eq_true, if_false]
    rw [if_neg (by simpa using hlt)]

theorem prvProcessBlock_complete (p : Platform) (s : AwsIotLargeObjectReceiveSession)
    (f : List Nat) (L : Nat) (w : World)
    (hcol : frameColour f = s.xWindowType)
    (hnum : _BLOCK_NUMBER f < s.usWindowSize)
    (hbit : prxIsBlockReceived s.ucBlockBitMap (_BLOCK_NUMBER f) = false)
    (hge : (blockStored s f L).usNumBlocksReceived ≥ (blockStored s f L).usNumWindowBlocks) :
    (prvProcessBlock p s f L w).2.received = w.received ++
      [{ usSessionID := (blockStored s f L).usSessionID
         pucData := (blockStored s f L).pucBuffer
         xDataLength := (blockStored s f L).xBufferLength
         xMore := (blockStored s f L).xLastWindow }] := by
  unfold frameColour at hcol
  unfold blockStored at hge
  unfold prvProcessBlock blockStored
  simp only [hcol, if_true, hnum, hbit]
  by_cases h : _FLAGS f &&& _LAST_BLOCK_MASK = _LAST_BLOCK_MASK
  · simp only [h, if_true, decide_True] at hge ⊢
    rw [if_pos (by simpa using hge)]
    split_ifs <;> simp only [prxSendACK_received]
  · simp only [h, if_false, decide_False] at hge ⊢
    simp only [Bool.false_eq_true, if_false]
    rw [if_pos (by simpa using hge)]
    split_ifs <;> simp only [prxSendACK_received]

/-- C25: duplicate blocks are silently dropped. For an incoming DATA frame of the receive
session's current colour with a block number below the window size: when the bitmap bit of
the block is already cleared, `prvProcessBlock` returns the session and the world as they
were (no frame emitted, no callback); and, the bitmap being the four-byte array and the
window size at most 32, when the ingest of the frame did not complete the window (it
invoked no receive callback), ingesting the same frame a second time right after leaves
the session and the world as the first ingest left them. -/
theorem duplicate_block_dropped (p : Platform) (s : AwsIotLargeObjectReceiveSession)
    (pucBlock : List Nat) (xLength : Nat) (w : World)
    (hcol : frameColour pucBlock = s.xWindowType)
    (hnum : _BLOCK_NUMBER pucBlock < s.usWindowSize) :
    (prxIsBlockReceived s.ucBlockBitMap (_BLOCK_NUMBER pucBlock) = true →
      prvProcessBlock p s pucBlock xLength w = (s, w))
    ∧ (s.ucBlockBitMap.length = IOT_LARGE_OBJECT_TRANSFER_BITMAP_SIZE →
        s.usWindowSize ≤ IOT_LARGE_OBJECT_TRANSFER_MAX_WINDOW_SIZE →
        (prvProcessBlock p s pucBlock xLength w).2.received = w.received →
        prvProcessBlock p (prvProcessBlock p s pucBlock xLength w).1 pucBlock xLength
            (prvProcessBlock p s pucBlock xLength w).2
          = prvProcessBlock p s pucBlock xLength w) := by
  have hdup : ∀ t : AwsIotLargeObjectReceiveSession, frameColour pucBlock = t.xWindowType →
      _BLOCK_NUMBER pucBlock < t.usWindowSize →
      prxIsBlockReceived t.ucBlockBitMap (_BLOCK_NUMBER pucBlock) = true →
      prvProcessBlock p t pucBlock xLength w = (t, w) := by
    intro t hc hn hb
    unfold prvProcessBlock
    unfold frameColour at hc
    simp only [hc, if_true, hn, hb, Bool.true_eq_false, if_false]
  refine ⟨hdup s hcol hnum, ?_⟩
  intro hlen hws hrec
  by_cases hb : prxIsBlockReceived s.ucBlockBitMap (_BLOCK_NUMBER pucBlock) = true
  · rw [hdup s hcol hnum hb]
    exact hdup s hcol hnum hb
  · have hb' : prxIsBlockReceived s.ucBlockBitMap (_BLOCK_NUMBER pucBlock) = false := by
      simpa using hb
    have hk8 : _BLOCK_NUMBER pucBlock / 8 < s.ucBlockBitMap.length := by
      rw [hlen]
      have h1 : s.usWindowSize ≤ 32 := hws
      have h2 : IOT_LARGE_OBJECT_TRANSFER_BITMAP_SIZE = 4 := by decide
      omega
    have hset := prxIsBlockReceived_set s.ucBlockBitMap _ hk8
    obtain ⟨g1, g2, g3, _⟩ := blockStored_fields s pucBlock xLength
    by_cases hlt : (blockStored s pucBlock xLength).usNumBlocksReceived
        < (blockStored s pucBlock xLength).usNumWindowBlocks
    · rw [prvProcessBlock_store p s pucBlock xLength w hcol hnum hb' hlt]
      exact hdup _ (by rw [g1]; exact hcol) (by rw [g2]; exact hnum) (by rw [g3]; exact hset)
    · exfalso
      rw [prvProcessBlock_complete p s pucBlock xLength w hcol hnum hb' (by omega)] at hrec
      simp at hrec

set_option maxRecDepth 100000 in
/-- The theorem `duplicate_block_dropped` applied to the scenario receive session and block 1:
the first ingest stores the block without completing the window, the second changes
nothing. -/
theorem duplicate_block_dropped_witness :
    (frameColour (fullBlock 1 7) = scenarioReceiving.xWindowType
      ∧ _BLOCK_NUMBER (fullBlock 1 7) < scenarioReceiving.usWindowSize
      ∧ scenarioReceiving.ucBlockBitMap.length = IOT_LARGE_OBJECT_TRANSFER_BITMAP_SIZE
      ∧ scenarioReceiving.usWindowSize ≤ IOT_LARGE_OBJECT_TRANSFER_MAX_WINDOW_SIZE
      ∧ (prvProcessBlock idealPlatform scenarioReceiving (fullBlock 1 7) 23
          World.empty).2.received = World.empty.received)
    ∧ prvProcessBlock idealPlatform
        (prvProcessBlock idealPlatform scenarioReceiving (fullBlock 1 7) 23 World.empty).1
        (fullBlock 1 7) 23
        (prvProcessBlock idealPlatform scenarioReceiving (fullBlock 1 7) 23 World.empty).2
      = prvProcessBlock idealPlatform scenarioReceiving (fullBlock 1 7) 23 World.empty
    ∧ (prvProcessBlock idealPlatform scenarioReceiving (fullBlock 1 7) 23
        World.empty).1.ucBlockBitMap = [0xFD, 0xFF, 0xFF, 0xFF]
    ∧ (prvProcessBlock idealPlatform scenarioReceiving (fullBlock 1 7) 23
        World.empty).1.usNumBlocksReceived = 1
    ∧ (prvProcessBlock idealPlatform scenarioReceiving (fullBlock 1 7) 23 World.empty).2
        = World.empty :=
  ⟨⟨by decide, by decide, by decide, by decide, by decide⟩,
   (duplicate_block_dropped idealPlatform scenarioReceiving (fullBlock 1 7) 23 World.empty
     (by decide) (by decide)).2 (by decide) (by decide) (by decide),
   by decide, by decide, by decide⟩

theorem sendLoop_none (p : Platform) (usSessionID : Nat) (pkt : List Nat) (len : Nat) :
    ∀ (l : List AwsIotLargeObjectSendSession) (w : World),
      l.find? (fun s => decide (s.usSessionID = usSessionID)) = none →
      prvNetworkReceiveCallback.sendLoop p usSessionID pkt len l w = none := by
  intro l
  induction l with
  | nil => intro w _; rfl
  | cons s rest ih =>
    intro w h
    by_cases hs : s.usSessionID = usSessionID
    · simp [List.find?, hs] at h
    · have hr : rest.find? (fun s => decide (s.usSessionID = usSessionID)) = none := by
        simpa [List.find?, hs] using h
      unfold prvNetworkReceiveCallback.sendLoop
      rw [if_neg hs, ih w hr]

theorem sendLoop_some (p : Platform) (usSessionID : Nat) (pkt : List Nat) (len : Nat)
    (t : AwsIotLargeObjectSendSession) :
    ∀ (l : List AwsIotLargeObjectSendSession) (w : World),
      l.find? (fun s => decide (s.usSessionID = usSessionID)) = some t →
      ∃ r, prvNetworkReceiveCallback.sendLoop p usSessionID pkt len l w = some r
        ∧ r.2.received = w.received
        ∧ (t.xState ≠ eAwsIotLargeObjectTransferOpen →
            r = (l, (prxSendACK p usSessionID
              AWS_IOT_LARGE_OBJECT_TRANSFER_SESSION_ABORTED [] 0 w).2)) := by
  intro l
  induction l with
  | nil => intro w h; simp at h
  | cons s rest ih =>
    intro w h
    by_cases hs : s.usSessionID = usSessionID
    · have hst : s = t := by simpa [List.find?, hs] using h
      subst hst
      unfold prvNetworkReceiveCallback.sendLoop
      rw [if_pos hs]
      by_cases ho : s.xState = eAwsIotLargeObjectTransferOpen
      · rw [if_pos ho]
        exact ⟨_, rfl, (prvProcessACK_logs p s pkt len w).1, fun hn => absurd ho hn⟩
      · rw [if_neg ho]
        exact ⟨_, rfl, prxSendACK_received _ _ _ _ _ _, fun _ => rfl⟩
    · have hr : rest.find? (fun s => decide (s.usSessionID = usSessionID)) = some t := by
        simpa [List.find?, hs] using h
      obtain ⟨r, h1, h2, h3⟩ := ih w hr
      unfold prvNetworkReceiveCallback.sendLoop
      rw [if_neg hs, h1]
      refine ⟨_, rfl, h2, ?_⟩
      intro hn
      rw [h3 hn]

theorem recvLoop_closed (p : Platform) (usSessionID : Nat) (pkt : List Nat) (len : Nat)
    (t : AwsIotLargeObjectReceiveSession)
    (h1 : t.xState ≠ eAwsIotLargeObjectTransferOpen)
    (h2 : t.xState ≠ eAwsIotLargeObjectTransferResumable) :
    ∀ (l : List AwsIotLargeObjectReceiveSession) (w : World),
      l.find? (fun s => decide (s.usSessionID = usSessionID)) = some t →
      prvNetworkReceiveCallback.recvLoop p usSessionID pkt len l w
        = some (l, (prxSendACK p usSessionID
            AWS_IOT_LARGE_OBJECT_TRANSFER_SESSION_ABORTED [] 0 w).2) := by
  intro l
  induction l with
  | nil => intro w h; simp at h
  | cons s rest ih =>
    intro w h
    by_cases hs : s.usSessionID = usSessionID
    · have hst : s = t := by simpa [List.find?, hs] using h
      subst hst
      unfold prvNetworkReceiveCallback.recvLoop
      rw [if_pos hs, if_neg (by simp [h1, h2])]
    · have hr : rest.find? (fun s => decide (s.usSessionID = usSessionID)) = some t := by
        simpa [List.find?, hs] using h
      unfold prvNetworkReceiveCallback.recvLoop
      rw [if_neg hs, ih w hr]

/-- C28: packets for inactive sessions. Let the allocation of a 3-byte ACK succeed and let
`id` be the session id in the first two bytes of an inbound packet of any length. If the
send session the dispatcher finds for `id` (the first one holding it) is not Open, or if no
send session holds `id` and the receive session the dispatcher finds for `id` is neither
Open nor Resumable, then `prvNetworkReceiveCallback` returns the context unchanged (no
session is modified) and a world in which exactly one frame has been added to the frames
sent, the 3-byte ACK `[id low, id high, 3]` with error code SessionAborted, and no
callback has been invoked. -/
theorem inactive_session_aborted (p : Platform) (ctx : AwsIotLargeObjectTransferContext)
    (pkt : List Nat) (len : Nat) (w : World) (hmem : p.malloc 3 = true) :
    ((∃ s, firstSendSession ctx (_SESSION_ID pkt) = some s
          ∧ s.xState ≠ eAwsIotLargeObjectTransferOpen)
      ∨ (firstSendSession ctx (_SESSION_ID pkt) = none
          ∧ ∃ s, firstRecvSession ctx (_SESSION_ID pkt) = some s
            ∧ s.xState ≠ eAwsIotLargeObjectTransferOpen
            ∧ s.xState ≠ eAwsIotLargeObjectTransferResumable)) →
    prvNetworkReceiveCallback p ctx pkt len w =
      (ctx, { w with sent := w.sent ++
        [[_SESSION_ID pkt % 256, _SESSION_ID pkt / 256 % 256,
          AWS_IOT_LARGE_OBJECT_TRANSFER_SESSION_ABORTED.code]] })
    ∧ AWS_IOT_LARGE_OBJECT_TRANSFER_SESSION_ABORTED.code = 3 := by
  intro h
  refine ⟨?_, rfl⟩
  have hack := prxSendACK_short p (_SESSION_ID pkt)
    AWS_IOT_LARGE_OBJECT_TRANSFER_SESSION_ABORTED w hmem
  unfold shortAck at hack
  unfold prvNetworkReceiveCallback
  rcases h with ⟨s, hs, hst⟩ | ⟨hnone, s, hs, h1, h2⟩
  · obtain ⟨r, e1, _, e3⟩ := sendLoop_some p (_SESSION_ID pkt) pkt len s _ w hs
    simp only [e1, e3 hst, hack]
  · simp only [sendLoop_none p (_SESSION_ID pkt) pkt len _ w hnone,
      recvLoop_closed p (_SESSION_ID pkt) pkt len s h1 h2 _ w hs, hack]

set_option maxRecDepth 100000 in
/-- The theorem `inactive_session_aborted` applied in the scenario: a packet with id 0 meets
the send session that `AwsIotLargeObjectTransfer_Init` left in state Init, and a packet with
id 5 meets a Closed receive session; both are answered with a SessionAborted ACK. -/
theorem inactive_session_aborted_witness :
    (idealPlatform.malloc 3 = true
      ∧ (∃ s, firstSendSession scenarioContext (_SESSION_ID [0, 0, 0]) = some s
          ∧ s.xState ≠ eAwsIotLargeObjectTransferOpen)
      ∧ firstSendSession closedRecvContext (_SESSION_ID (5 :: 0 :: [0, 0, 0xF8, 7])) = none
      ∧ (∃ s, firstRecvSession closedRecvContext (_SESSION_ID (5 :: 0 :: [0, 0, 0xF8, 7]))
            = some s
          ∧ s.xState ≠ eAwsIotLargeObjectTransferOpen
          ∧ s.xState ≠ eAwsIotLargeObjectTransferResumable))
    ∧ prvNetworkReceiveCallback idealPlatform scenarioContext [0, 0, 0] 3 World.empty =
        (scenarioContext, { World.empty with sent := World.empty.sent ++
          [[_SESSION_ID [0, 0, 0] % 256, _SESSION_ID [0, 0, 0] / 256 % 256,
            AWS_IOT_LARGE_OBJECT_TRANSFER_SESSION_ABORTED.code]] })
    ∧ prvNetworkReceiveCallback idealPlatform closedRecvContext (5 :: 0 :: [0, 0, 0xF8, 7]) 6
          busyWorld =
        (closedRecvContext, { busyWorld with sent := busyWorld.sent ++
          [[_SESSION_ID (5 :: 0 :: [0, 0, 0xF8, 7]) % 256,
            _SESSION_ID (5 :: 0 :: [0, 0, 0xF8, 7]) / 256 % 256,
            AWS_IOT_LARGE_OBJECT_TRANSFER_SESSION_ABORTED.code]] })
    ∧ (prvNetworkReceiveCallback idealPlatform closedRecvContext (5 :: 0 :: [0, 0, 0xF8, 7]) 6
          World.empty).2 = { sent := [[5, 0, 3]], received := [], completed := [] } :=
  ⟨⟨by decide, ⟨_, rfl, by decide⟩, by decide, ⟨_, rfl, by decide, by decide⟩⟩,
   (inactive_session_aborted idealPlatform scenarioContext [0, 0, 0] 3 World.empty
      (by decide) (Or.inl ⟨_, rfl, by decide⟩)).1,
   (inactive_session_aborted idealPlatform closedRecvContext (5 :: 0 :: [0, 0, 0xF8, 7]) 6
      busyWorld (by decide) (Or.inr ⟨by decide, _, rfl, by decide, by decide⟩)).1,
   by decide⟩

theorem prvProcessBlock_received_cases (p : Platform) (s : AwsIotLargeObjectReceiveSession)
    (f : List Nat) (L : Nat) (w : World) :
    (prvProcessBlock p s f L w).2.received = w.received
    ∨ (prvProcessBlock p s f L w).2.received = w.received ++
        [{ usSessionID := (blockStored s f L).usSessionID
           pucData := (blockStored s f L).pucBuffer
           xDataLength := (blockStored s f L).xBufferLength
           xMore := (blockStored s f L).xLastWindow }] := by
  by_cases hcol : frameColour f = s.xWindowType
  · by_cases hnum : _BLOCK_NUMBER f < s.usWindowSize
    · by_cases hbit : prxIsBlockReceived s.ucBlockBitMap (_BLOCK_NUMBER f) = false
      · by_cases hlt : (blockStored s f L).usNumBlocksReceived
            < (blockStored s f L).usNumWindowBlocks
        · left
          rw [prvProcessBlock_store p s f L w hcol hnum hbit hlt]
        · right
          exact prvProcessBlock_complete p s f L w hcol hnum hbit (by omega)
      · left
        have hb : prxIsBlockReceived s.ucBlockBitMap (_BLOCK_NUMBER f) = true := by
          simpa using hbit
        unfold frameColour at hcol
        unfold prvProcessBlock
        simp only [hcol, if_true, hnum, hb, Bool.true_eq_false, if_false]
    · left
      unfold frameColour at hcol
      unfold prvProcessBlock
      simp only [hcol, if_true, hnum, if_false, prxSendACK_received]
  · left
    unfold frameColour at hcol
    unfold prvProcessBlock
    simp only [hcol, if_false, prxSendACK_received]

set_option maxRecDepth 100000 in
/-- C21, evaluated in the scenario (window size 4, block size 18). The single frame of a
10-byte object (15 bytes, block 0 with `LAST_BLOCK`) handed to the dispatcher of a fresh
context completes the window: the receive callback is invoked once, with id 1, but with
length 20 and `xMore` true. The four frames of the first window of a 100-byte object,
ingested in order, complete that window: the receive callback is invoked once, on the last
frame, with length 112 and `xMore` false. Whenever `prvProcessBlock` invokes the receive
callback, `xMore` is true exactly when the session is in its last window (the frame
carries `LAST_BLOCK` or an earlier block of the window did), and the length is the
buffer length after `xLength + 5` has been added for the frame. -/
theorem window_delivery_more_is_last_window :
    sentTenBytes.world.sent = [[1, 0, 0, 0, 0xF9, 0, 1, 2, 3, 4, 5, 6, 7, 8, 9]]
    ∧ (prvNetworkReceiveCallback idealPlatform scenarioContext
        [1, 0, 0, 0, 0xF9, 0, 1, 2, 3, 4, 5, 6, 7, 8, 9] 15 World.empty).2.received.map
          (fun c => (c.usSessionID, c.xDataLength, c.xMore, c.pucData.take 10))
        = [(1, 20, true, List.range 10)]
    ∧ busyWorld.sent.map (fun f => (_BLOCK_NUMBER f, f.length, _FLAGS f, _BLOCK_DATA f))
        = [(0, 23, 0xF8, (List.range 100).take 18),
           (1, 23, 0xF8, ((List.range 100).drop 18).take 18),
           (2, 23, 0xF8, ((List.range 100).drop 36).take 18),
           (3, 23, 0xF8, ((List.range 100).drop 54).take 18)]
    ∧ (feed idealPlatform (busyWorld.sent.take 3)
        (scenarioReceiving, World.empty)).2.received = []
    ∧ (feed idealPlatform busyWorld.sent (scenarioReceiving, World.empty)).2.received.map
          (fun c => (c.usSessionID, c.xDataLength, c.xMore, c.pucData.take 72))
        = [(1, 112, false, List.range 72)]
    ∧ (∀ (p : Platform) (s : AwsIotLargeObjectReceiveSession) (f : List Nat) (L : Nat)
        (w : World) (c : ReceiveCall),
        (prvProcessBlock p s f L w).2.received = w.received ++ [c] →
          c.xMore = (s.xLastWindow || decide (_FLAGS f &&& _LAST_BLOCK_MASK = _LAST_BLOCK_MASK))
          ∧ c.xDataLength = sizeAdd s.xBufferLength (sizeAdd L 5)) := by
  refine ⟨by decide, by decide, by decide, by decide, by decide, ?_⟩
  intro p s f L w c h
  obtain ⟨_, _, _, _, _, g6, g7⟩ := blockStored_fields s f L
  rcases prvProcessBlock_received_cases p s f L w with h1 | h1
  · rw [h1] at h
    simp at h
  · rw [h1] at h
    have hc := List.append_cancel_left h
    simp only [List.cons.injEq, and_true] at hc
    subst hc
    exact ⟨g7, g6⟩

set_option maxRecDepth 100000 in
/-- C22, evaluated on the first window of a 100-byte object in the scenario: four frames
of 18 data bytes, handed to a freshly opened receive session with the same parameters. In
either order the receive callback is invoked exactly once, when the fourth frame is
ingested, but with length 112, where the window holds 72 bytes of the object. Delivered
in the order 0, 1, 2, 3 the first 72 bytes of the buffer are the window's bytes; delivered
in the order 3, 2, 1, 0 they are not: the first 10 bytes of the blocks 1, 2 and 3 have
been overwritten by the bytes copied from behind the end of the frames 0, 1 and 2. -/
theorem reordered_window_delivers_other_bytes :
    busyWorld.sent.length = 4
    ∧ (feed idealPlatform (busyWorld.sent.take 3)
        (scenarioReceiving, World.empty)).2.received = []
    ∧ (feed idealPlatform (busyWorld.sent.reverse.take 3)
        (scenarioReceiving, World.empty)).2.received = []
    ∧ (feed idealPlatform busyWorld.sent (scenarioReceiving, World.empty)).2.received.map
          (fun c => (c.xDataLength, c.pucData.take 72))
        = [(112, List.range 72)]
    ∧ (feed idealPlatform busyWorld.sent.reverse
          (scenarioReceiving, World.empty)).2.received.map
          (fun c => (c.xDataLength, c.pucData.take 72))
        = [(112, List.range 18
            ++ List.replicate 10 0 ++ [28, 29, 30, 31, 32, 33, 34, 35]
            ++ List.replicate 10 0 ++ [46, 47, 48, 49, 50, 51, 52, 53]
            ++ List.replicate 10 0 ++ [64, 65, 66, 67, 68, 69, 70, 71])]
    ∧ (feed idealPlatform busyWorld.sent.reverse (scenarioReceiving, World.empty)).2.received
        ≠ (feed idealPlatform busyWorld.sent (scenarioReceiving, World.empty)).2.received := by
  decide

set_option maxRecDepth 100000 in
/-- C27, evaluated in the scenario on packets of two bytes. The packet `[9, 0]` handed to
the dispatcher of a fresh context (no session holds the id 9) opens the receive slot: the
receive session gets the id 9 and state Open, and the bytes behind the packet are
ingested as block 0 (one block counted, buffer length 7). The packet `[1, 0]` handed to
a context whose send session is Open with id 1 closes that send session. The dispatcher
reads the session id and dispatches without looking at the packet length. -/
theorem short_packet_changes_sessions :
    scenarioContext.pxRecvSessions.map (fun s => (s.usSessionID, s.xState))
        = [(0, eAwsIotLargeObjectTransferInit)]
    ∧ (prvNetworkReceiveCallback idealPlatform scenarioContext [9, 0] 2
        World.empty).1.pxRecvSessions.map
          (fun s => (s.usSessionID, s.xState, s.usNumBlocksReceived, s.xBufferLength))
        = [(9, eAwsIotLargeObjectTransferOpen, 1, 7)]
    ∧ busyContext.pxSendSessions.map (fun s => (s.usSessionID, s.xState, s.xRetransmitTimer))
        = [(1, eAwsIotLargeObjectTransferOpen, true)]
    ∧ (prvNetworkReceiveCallback idealPlatform busyContext [1, 0] 2
        busyWorld).1.pxSendSessions.map
          (fun s => (s.usSessionID, s.xState, s.xRetransmitTimer))
        = [(1, eAwsIotLargeObjectTransferClosed, false)]
    ∧ (prvNetworkReceiveCallback idealPlatform busyContext [1, 0] 2 busyWorld).2
        = busyWorld := by
  decide

set_option maxRecDepth 100000 in
/-- C29, evaluated in the scenario on a context whose only receive slot is Open with id 1
in the middle of a window (block 1 ingested) and whose send session holds the id 0: a DATA
frame with the id 2, which no session holds, is handed to the dispatcher. No ACK is
emitted; the Open slot is taken over: it now holds the id 2, its bitmap and counters are
those of a fresh window in which block 0 has been ingested, and the frame's bytes are in
its buffer. The macro `_SESSION_FREE` is true of every state. -/
theorem busy_receive_slot_is_taken_over :
    receivingContext.pxRecvSessions.map
        (fun s => (s.usSessionID, s.xState, s.ucBlockBitMap, s.usNumBlocksReceived,
          s.xBufferLength, s.pucBuffer.take 18))
      = [(1, eAwsIotLargeObjectTransferOpen, [0xFD, 0xFF, 0xFF, 0xFF], 1, 28,
          List.replicate 18 0)]
    ∧ receivingContext.pxSendSessions.map (fun s => s.usSessionID) = [0]
    ∧ (prvNetworkReceiveCallback idealPlatform receivingContext
        ([2, 0, 0, 0, 0xF8] ++ List.replicate 18 9) 23 World.empty).2.sent = []
    ∧ (prvNetworkReceiveCallback idealPlatform receivingContext
        ([2, 0, 0, 0, 0xF8] ++ List.replicate 18 9) 23 World.empty).1.pxRecvSessions.map
        (fun s => (s.usSessionID, s.xState, s.ucBlockBitMap, s.usNumBlocksReceived,
          s.xBufferLength, s.pucBuffer.take 18))
      = [(2, eAwsIotLargeObjectTransferOpen, [0xFE, 0xFF, 0xFF, 0xFF], 1, 28,
          List.replicate 18 9)]
    ∧ (∀ x : AwsIotLargeObjectTransferStatus, _SESSION_FREE x = true) := by
  refine ⟨by decide, by decide, by decide, by decide, ?_⟩
  intro x
  cases x <;> decide

theorem dispatcher_send_first (p : Platform) (ctx : AwsIotLargeObjectTransferContext)
    (pkt : List Nat) (len : Nat) (w : World) (t : AwsIotLargeObjectSendSession)
    (h : firstSendSession ctx (_SESSION_ID pkt) = some t) :
    (prvNetworkReceiveCallback p ctx pkt len w).1.pxRecvSessions = ctx.pxRecvSessions
    ∧ (prvNetworkReceiveCallback p ctx pkt len w).2.received = w.received := by
  obtain ⟨r, e1, e2, _⟩ := sendLoop_some p (_SESSION_ID pkt) pkt len t _ w h
  unfold prvNetworkReceiveCallback
  simp only [e1]
  exact ⟨trivial, e2⟩

set_option maxRecDepth 100000 in
/-- C30 as stated fails in the scenario on a context whose send session is Open with id 1
(100-byte object, first window sent) and whose receive slot is free: DATA frames of a
peer's transfer that also carries the id 1 are handed to the dispatcher. The frame of
block 0 (23 bytes) is taken for an ACK of the send session: four DATA frames of the send
session, blocks 0 to 3, are emitted. The frame of block 1 is taken for an ACK with error
code 1: the send session becomes Closed and its timer is stopped. In both cases the
receive sessions are unchanged and the receive callback is not invoked; whenever a send
session holds the id of an inbound packet, the dispatcher never reaches the receive
side. -/
theorem data_frame_taken_for_ack :
    busyContext.pxSendSessions.map
        (fun s => (s.usSessionID, s.xState, s.xOffset, s.xWindowType, s.usRetriesLeft))
      = [(1, eAwsIotLargeObjectTransferOpen, 0, AWS_IOT_LARGE_OBJECT_WINDOW_EVEN, 3)]
    ∧ (fullBlock 0 7).length = 23 ∧ _SESSION_ID (fullBlock 0 7) = 1
    ∧ (prvNetworkReceiveCallback idealPlatform busyContext (fullBlock 0 7) 23
        World.empty).2.sent.map (fun f => (_SESSION_ID f, _BLOCK_NUMBER f, f.length))
      = [(1, 0, 23), (1, 1, 23), (1, 2, 23), (1, 3, 23)]
    ∧ (prvNetworkReceiveCallback idealPlatform busyContext (fullBlock 0 7) 23
        World.empty).2.sent = busyWorld.sent
    ∧ (prvNetworkReceiveCallback idealPlatform busyContext (fullBlock 1 7) 23
        World.empty).1.pxSendSessions.map
        (fun s => (s.usSessionID, s.xState, s.xRetransmitTimer))
      = [(1, eAwsIotLargeObjectTransferClosed, false)]
    ∧ (prvNetworkReceiveCallback idealPlatform busyContext (fullBlock 0 7) 23
        World.empty).1.pxRecvSessions = busyContext.pxRecvSessions
    ∧ (prvNetworkReceiveCallback idealPlatform busyContext (fullBlock 1 7) 23
        World.empty).1.pxRecvSessions = busyContext.pxRecvSessions
    ∧ (prvNetworkReceiveCallback idealPlatform busyContext (fullBlock 0 7) 23
        World.empty).2.received = []
    ∧ (∀ (p : Platform) (ctx : AwsIotLargeObjectTransferContext) (pkt : List Nat)
        (len : Nat) (w : World),
        (∃ s ∈ ctx.pxSendSessions, s.usSessionID = _SESSION_ID pkt) →
          (prvNetworkReceiveCallback p ctx pkt len w).1.pxRecvSessions = ctx.pxRecvSessions
          ∧ (prvNetworkReceiveCallback p ctx pkt len w).2.received = w.received) := by
  refine ⟨by decide, by decide, by decide, by decide, by decide, by decide, by decide,
    by decide, by decide, ?_⟩
  intro p ctx pkt len w ⟨s, hs, hid⟩
  have hsome : (firstSendSession ctx (_SESSION_ID pkt)).isSome = true := by
    unfold firstSendSession
    rw [List.find?_isSome]
    exact ⟨s, hs, by simpa using hid⟩
  obtain ⟨t, ht⟩ := Option.isSome_iff_exists.mp hsome
  exact dispatcher_send_first p ctx pkt len w t ht

theorem prxIsBlockReceived_set_ne (bm : List Nat) (j k : Nat) (hk : k / 8 < bm.length)
    (hjk : j ≠ k) :
    prxIsBlockReceived (prvSetBlockReceived bm k) j = prxIsBlockReceived bm j := by
  rw [Bool.eq_iff_iff, prxIsBlockReceived_iff, prxIsBlockReceived_iff,
    getD_prvSetBlockReceived bm k _ hk]
  by_cases h : j / 8 = k / 8
  · rw [if_pos h, testBit_cleared _ _ _ (Nat.mod_lt _ (by norm_num)), h]
    have : k % 8 ≠ j % 8 := by omega
    simp [this]
  · rw [if_neg h]

theorem prvSetBlockReceived_length (bm : List Nat) (k : Nat) :
    (prvSetBlockReceived bm k).length = bm.length := by
  unfold prvSetBlockReceived
  simp

theorem prvProcessBlock_quiet (p : Platform) (s : AwsIotLargeObjectReceiveSession)
    (f : List Nat) (L : Nat) (w : World)
    (hbm : s.ucBlockBitMap.length = 4) (hws : s.usWindowSize ≤ 32)
    (hrec : (prvProcessBlock p s f L w).2.received = w.received) :
    (prvProcessBlock p s f L w).1.xWindowType = s.xWindowType
    ∧ (prvProcessBlock p s f L w).1.usWindowSize = s.usWindowSize
    ∧ (prvProcessBlock p s f L w).1.usSessionID = s.usSessionID
    ∧ (prvProcessBlock p s f L w).1.ucBlockBitMap.length = 4
    ∧ ∀ k, (prxIsBlockReceived (prvProcessBlock p s f L w).1.ucBlockBitMap k = true ↔
        prxIsBlockReceived s.ucBlockBitMap k = true
          ∨ (k < s.usWindowSize ∧ frameColour f = s.xWindowType ∧ _BLOCK_NUMBER f = k)) := by
  by_cases hcol : frameColour f = s.xWindowType
  · by_cases hnum : _BLOCK_NUMBER f < s.usWindowSize
    · by_cases hbit : prxIsBlockReceived s.ucBlockBitMap (_BLOCK_NUMBER f) = false
      · by_cases hlt : (blockStored s f L).usNumBlocksReceived
            < (blockStored s f L).usNumWindowBlocks
        · obtain ⟨g1, g2, g3, g4, _⟩ := blockStored_fields s f L
          have hk8 : _BLOCK_NUMBER f / 8 < s.ucBlockBitMap.length := by omega
          rw [prvProcessBlock_store p s f L w hcol hnum hbit hlt]
          refine ⟨g1, g2, g4, by rw [g3, prvSetBlockReceived_length, hbm], ?_⟩
          intro k
          rw [g3]
          by_cases hk : k = _BLOCK_NUMBER f
          · subst hk
            rw [prxIsBlockReceived_set _ _ hk8]
            simp [hnum, hcol]
          · rw [prxIsBlockReceived_set_ne _ _ _ hk8 hk]
            constructor
            · intro h; exact Or.inl h
            · rintro (h | ⟨_, _, h⟩)
              · exact h
              · exact absurd h.symm hk
        · exfalso
          rw [prvProcessBlock_complete p s f L w hcol hnum hbit (by omega)] at hrec
          simp at hrec
      · have hb : prxIsBlockReceived s.ucBlockBitMap (_BLOCK_NUMBER f) = true := by
          simpa using hbit
        have e : prvProcessBlock p s f L w = (s, w) := by
          have hcol' := hcol
          unfold frameColour at hcol'
          unfold prvProcessBlock
          simp only [hcol', if_true, hnum, hb, Bool.true_eq_false, if_false]
        rw [e]
        refine ⟨rfl, rfl, rfl, hbm, ?_⟩
        intro k
        constructor
        · intro h; exact Or.inl h
        · rintro (h | ⟨_, _, h⟩)
          · exact h
          · rw [← h]; exact hb
    · have e : (prvProcessBlock p s f L w).1 = prvCloseSession_xRecv s false := by
        have hcol' := hcol
        unfold frameColour at hcol'
        unfold prvProcessBlock
        simp only [hcol', if_true, hnum, if_false]
      rw [e]
      refine ⟨rfl, rfl, rfl, hbm, ?_⟩
      intro k
      constructor
      · intro h; exact Or.inl h
      · rintro (h | ⟨h1, _, h3⟩)
        · exact h
        · exact absurd (h3 ▸ h1) hnum
  · have e : (prvProcessBlock p s f L w).1 = s := by
      have hcol' := hcol
      unfold frameColour at hcol'
      unfold prvProcessBlock
      simp only [hcol', if_false]
    rw [e]
    refine ⟨rfl, rfl, rfl, hbm, ?_⟩
    intro k
    constructor
    · intro h; exact Or.inl h
    · rintro (h | ⟨_, h2, _⟩)
      · exact h
      · exact absurd h2 hcol

theorem feed_received_grows (p : Platform) :
    ∀ (fs : List (List Nat)) (x : AwsIotLargeObjectReceiveSession × World),
      ∃ extra, (feed p fs x).2.received = x.2.received ++ extra := by
  intro fs
  induction fs with
  | nil => intro x; exact ⟨[], by simp [feed]⟩
  | cons f fs ih =>
    intro x
    obtain ⟨e, he⟩ := ih (prvProcessBlock p x.1 f f.length x.2)
    simp only [feed]
    rw [he]
    rcases prvProcessBlock_received_cases p x.1 f f.length x.2 with h | h
    · exact ⟨e, by rw [h]⟩
    · exact ⟨[{ usSessionID := (blockStored x.1 f f.length).usSessionID
                pucData := (blockStored x.1 f f.length).pucBuffer
                xDataLength := (blockStored x.1 f f.length).xBufferLength
                xMore := (blockStored x.1 f f.length).xLastWindow }] ++ e,
        by rw [h, List.append_assoc]⟩

theorem feed_quiet (p : Platform) :
    ∀ (fs : List (List Nat)) (s : AwsIotLargeObjectReceiveSession) (w : World),
      s.ucBlockBitMap.length = 4 → s.usWindowSize ≤ 32 →
      (feed p fs (s, w)).2.received = w.received →
      (feed p fs (s, w)).1.usWindowSize = s.usWindowSize
      ∧ (feed p fs (s, w)).1.usSessionID = s.usSessionID
      ∧ (feed p fs (s, w)).1.ucBlockBitMap.length = 4
      ∧ ∀ k, (prxIsBlockReceived (feed p fs (s, w)).1.ucBlockBitMap k = true ↔
          prxIsBlockReceived s.ucBlockBitMap k = true
            ∨ (k < s.usWindowSize ∧
                ∃ f ∈ fs, frameColour f = s.xWindowType ∧ _BLOCK_NUMBER f = k)) := by
  intro fs
  induction fs with
  | nil =>
    intro s w hbm _ _
    refine ⟨rfl, rfl, hbm, ?_⟩
    intro k
    simp [feed]
  | cons f fs ih =>
    intro s w hbm hws hrec
    simp only [feed] at hrec ⊢
    obtain ⟨e, he⟩ := feed_received_grows p fs (prvProcessBlock p s f f.length w)
    have hstep : (prvProcessBlock p s f f.length w).2.received = w.received := by
      rcases prvProcessBlock_received_cases p s f f.length w with h | h
      · exact h
      · exfalso
        rw [he, h] at hrec
        have := congrArg List.length hrec
        simp at this
    obtain ⟨q1, q2, q3, q4, q5⟩ := prvProcessBlock_quiet p s f f.length w hbm hws hstep
    have hrec' : (feed p fs ((prvProcessBlock p s f f.length w).1,
        (prvProcessBlock p s f f.length w).2)).2.received
        = (prvProcessBlock p s f f.length w).2.received := by
      rw [hstep]; exact hrec
    obtain ⟨r1, r2, r3, r4⟩ := ih _ _ q4 (by rw [q2]; exact hws) hrec'
    refine ⟨by rw [r1, q2], by rw [r2, q3], r3, ?_⟩
    intro k
    rw [r4 k, q5 k, q1, q2]
    constructor
    · rintro ((h | ⟨h1, h2, h3⟩) | ⟨h1, g, hg, h2, h3⟩)
      · exact Or.inl h
      · exact Or.inr ⟨h1, f, List.mem_cons_self _ _, h2, h3⟩
      · exact Or.inr ⟨h1, g, List.mem_cons_of_mem _ hg, h2, h3⟩
    · rintro (h | ⟨h1, g, hg, h2, h3⟩)
      · exact Or.inl (Or.inl h)
      · rcases List.mem_cons.mp hg with rfl | hg'
        · exact Or.inl (Or.inr ⟨h1, h2, h3⟩)
        · exact Or.inr ⟨h1, g, hg', h2, h3⟩

theorem bitmapLength_eq {ws : Nat} (h : ws ≤ 32) : _BITMAP_LENGTH ws = (ws + 7) / 8 := by
  unfold _BITMAP_LENGTH _BITS_TO_BYTES_ROUNDUP
  rw [sizeAdd_eq (by omega), Nat.shiftRight_eq_div_pow]

theorem prvTimerSendACK_eq (p : Platform) (s : AwsIotLargeObjectReceiveSession) (w : World)
    (hmem : p.AllocOk) (hbm : s.ucBlockBitMap.length = 4) (hws : s.usWindowSize ≤ 32) :
    prvTimerSendACK p s w = { w with sent := w.sent ++
      [[s.usSessionID % 256, s.usSessionID / 256 % 256, 0]
        ++ s.ucBlockBitMap.take ((s.usWindowSize + 7) / 8)] } := by
  have hn : (s.usWindowSize + 7) / 8 ≤ s.ucBlockBitMap.length := by omega
  have hl : _ACK_LENGTH ((s.usWindowSize + 7) / 8) = (s.usWindowSize + 7) / 8 + 3 :=
    ackLength_eq (by omega)
  have hr : (if (s.usWindowSize + 7) / 8 > 0 then
      memRead s.ucBlockBitMap ((s.usWindowSize + 7) / 8) else [])
      = s.ucBlockBitMap.take ((s.usWindowSize + 7) / 8) := by
    rw [memRead_eq_take hn]
    split
    · rfl
    · rename_i h0
      have : (s.usWindowSize + 7) / 8 = 0 := by omega
      rw [this]; rfl
  have htake : (s.usSessionID % 256 :: s.usSessionID / 256 % 256 :: 0 ::
      s.ucBlockBitMap.take ((s.usWindowSize + 7) / 8)).take ((s.usWindowSize + 7) / 8 + 3)
      = s.usSessionID % 256 :: s.usSessionID / 256 % 256 :: 0 ::
        s.ucBlockBitMap.take ((s.usWindowSize + 7) / 8) := by
    apply List.take_of_length_le
    simp
  unfold prvTimerSendACK prxSendACK
  simp only [bitmapLength_eq hws, hl, hmem _, if_true, hr, storeU16,
    AwsIotLargeObjectTransferError.code, toU8, Nat.zero_mod, List.cons_append,
    List.nil_append, htake]
  split <;> rfl

theorem fresh_bitmap_all_missing :
    ∀ k, k < 32 →
      prxIsBlockReceived (List.replicate IOT_LARGE_OBJECT_TRANSFER_BITMAP_SIZE 0xFF) k
        = false := by
  decide

theorem and_mask_of_and_five (v x m : Nat) (hm : 5 &&& m = m) (h : v &&& 5 = x &&& 5) :
    v &&& m = x &&& m := by
  rw [← hm, ← Nat.and_assoc, ← Nat.and_assoc, h]

/-- C32: the decoder ignores the RESUME and reserved flag bits. For every platform, receive
session, reported length and world, and every DATA frame `f`: replacing the flags byte
(byte 4) of `f` by any value `v` that agrees with it in bit 0 (`LAST_BLOCK`) and bit 2
(`ODD_WINDOW`), that is `v &&& 0x05 = flags &&& 0x05`, so that the two frames differ only in
the flags bits 1 and 3 to 7, gives the same result of `prvProcessBlock`: the same session,
the same frames sent and the same callback invocations. -/
theorem resume_and_reserved_bits_ignored (p : Platform) (s : AwsIotLargeObjectReceiveSession)
    (f : List Nat) (v : Nat) (xLength : Nat) (w : World)
    (hbits : v &&& 0x05 = _FLAGS f &&& 0x05) :
    prvProcessBlock p s (f.set 4 v) xLength w = prvProcessBlock p s f xLength w := by
  have hnum : _BLOCK_NUMBER (f.set 4 v) = _BLOCK_NUMBER f := by
    unfold _BLOCK_NUMBER loadU16 _SESSION_ID_LENGTH
    simp [List.getD_eq_getElem?_getD, List.getElem?_set]
  have hdata : _BLOCK_DATA (f.set 4 v) = _BLOCK_DATA f := by
    unfold _BLOCK_DATA _BLOCK_HEADER_LENGTH _SESSION_ID_LENGTH _FLAGS_LENGTH
      _BLOCK_NUMBER_LENGTH
    apply List.ext_getElem?
    intro i
    simp [List.getElem?_drop, List.getElem?_set]
    omega
  by_cases hlen : 4 < f.length
  · have hflags : _FLAGS (f.set 4 v) = v := by
      unfold _FLAGS _SESSION_ID_LENGTH _BLOCK_NUMBER_LENGTH
      simp [List.getD_eq_getElem?_getD, List.getElem?_set, hlen]
    have h1 : v &&& _LAST_BLOCK_MASK = _FLAGS f &&& _LAST_BLOCK_MASK :=
      and_mask_of_and_five _ _ _ (by decide) hbits
    have h4 : v &&& _ODD_WINDOW_MASK = _FLAGS f &&& _ODD_WINDOW_MASK :=
      and_mask_of_and_five _ _ _ (by decide) hbits
    unfold prvProcessBlock
    simp only [hnum, hdata, hflags, h1, h4]
  · rw [List.set_eq_of_length_le (by omega)]

set_option maxRecDepth 100000 in
/-- The theorem `resume_and_reserved_bits_ignored` applied to the scenario receive session and
block 1: the frame with flags `0x02` (RESUME set, reserved bits clear) is ingested like
the frame with flags `0xF8`. -/
theorem resume_and_reserved_bits_ignored_witness :
    ((0x02 : Nat) &&& 0x05 = _FLAGS (fullBlock 1 7) &&& 0x05)
    ∧ (fullBlock 1 7).set 4 0x02 = [1, 0, 1, 0, 0x02] ++ List.replicate 18 7
    ∧ prvProcessBlock idealPlatform scenarioReceiving ((fullBlock 1 7).set 4 0x02) 23
        World.empty
      = prvProcessBlock idealPlatform scenarioReceiving (fullBlock 1 7) 23 World.empty
    ∧ (prvProcessBlock idealPlatform scenarioReceiving
        ([1, 0, 1, 0, 0x02] ++ List.replicate 18 7) 23 World.empty).1.ucBlockBitMap
      = [0xFD, 0xFF, 0xFF, 0xFF] :=
  ⟨by decide, by decide,
   resume_and_reserved_bits_ignored idealPlatform scenarioReceiving (fullBlock 1 7) 0x02 23
     World.empty (by decide),
   by decide⟩

theorem prvProcessBlock_complete_eq (p : Platform) (s : AwsIotLargeObjectReceiveSession)
    (f : List Nat) (L : Nat) (w : World)
    (hcol : frameColour f = s.xWindowType)
    (hnum : _BLOCK_NUMBER f < s.usWindowSize)
    (hbit : prxIsBlockReceived s.ucBlockBitMap (_BLOCK_NUMBER f) = false)
    (hge : (blockStored s f L).usNumBlocksReceived ≥ (blockStored s f L).usNumWindowBlocks) :
    prvProcessBlock p s f L w =
      (if (prxSendACK p s.usSessionID AWS_IOT_LARGE_OBJECT_TRANSFER_SUCCESS [] 0
            { w with received := w.received ++
              [{ usSessionID := (blockStored s f L).usSessionID
                 pucData := (blockStored s f L).pucBuffer
                 xDataLength := (blockStored s f L).xBufferLength
                 xMore := (blockStored s f L).xLastWindow }] }).1
            ≠ AWS_IOT_LARGE_OBJECT_TRANSFER_SUCCESS then windowReset (blockStored s f L)
        else if (blockStored s f L).xLastWindow = true then
          prvCloseSession_xRecv (windowReset (blockStored s f L)) false
        else windowReset (blockStored s f L),
       (prxSendACK p s.usSessionID AWS_IOT_LARGE_OBJECT_TRANSFER_SUCCESS [] 0
            { w with received := w.received ++
              [{ usSessionID := (blockStored s f L).usSessionID
                 pucData := (blockStored s f L).pucBuffer
                 xDataLength := (blockStored s f L).xBufferLength
                 xMore := (blockStored s f L).xLastWindow }] }).2) := by
  unfold frameColour at hcol
  unfold blockStored at hge
  unfold prvProcessBlock blockStored windowReset
  simp only [hcol, if_true, hnum, hbit]
  by_cases h : _FLAGS f &&& _LAST_BLOCK_MASK = _LAST_BLOCK_MASK
  · simp only [h, if_true, decide_True] at hge ⊢
    rw [if_pos (by simpa using hge)]
    split_ifs <;> rfl
  · simp only [h, if_false, decide_False] at hge ⊢
    simp only [Bool.false_eq_true, if_false]
    rw [if_pos (by simpa using hge)]
    split_ifs <;> rfl

theorem prvProcessBlock_cases (p : Platform) (s : AwsIotLargeObjectReceiveSession)
    (f : List Nat) (L : Nat) (w : World) :
    ((prvProcessBlock p s f L w).2.received = w.received
      ∧ ((prvProcessBlock p s f L w).1 = s
        ∨ (prvProcessBlock p s f L w).1 = prvCloseSession_xRecv s false
        ∨ ((prvProcessBlock p s f L w).1 = blockStored s f L
            ∧ frameColour f = s.xWindowType ∧ _BLOCK_NUMBER f < s.usWindowSize
            ∧ prxIsBlockReceived s.ucBlockBitMap (_BLOCK_NUMBER f) = false
            ∧ (blockStored s f L).usNumBlocksReceived
                < (blockStored s f L).usNumWindowBlocks)))
    ∨ (frameColour f = s.xWindowType ∧ _BLOCK_NUMBER f < s.usWindowSize
        ∧ prxIsBlockReceived s.ucBlockBitMap (_BLOCK_NUMBER f) = false
        ∧ (blockStored s f L).usNumBlocksReceived ≥ (blockStored s f L).usNumWindowBlocks) := by
  by_cases hcol : frameColour f = s.xWindowType
  · by_cases hnum : _BLOCK_NUMBER f < s.usWindowSize
    · by_cases hbit : prxIsBlockReceived s.ucBlockBitMap (_BLOCK_NUMBER f) = false
      · by_cases hlt : (blockStored s f L).usNumBlocksReceived
            < (blockStored s f L).usNumWindowBlocks
        · left
          rw [prvProcessBlock_store p s f L w hcol hnum hbit hlt]
          exact ⟨rfl, Or.inr (Or.inr ⟨rfl, hcol, hnum, hbit, hlt⟩)⟩
        · right
          exact ⟨hcol, hnum, hbit, by omega⟩
      · left
        have hb : prxIsBlockReceived s.ucBlockBitMap (_BLOCK_NUMBER f) = true := by
          simpa using hbit
        have e : prvProcessBlock p s f L w = (s, w) := by
          unfold frameColour at hcol
          unfold prvProcessBlock
          simp only [hcol, if_true, hnum, hb, Bool.true_eq_false, if_false]
        rw [e]
        exact ⟨rfl, Or.inl rfl⟩
    · left
      unfold frameColour at hcol
      unfold prvProcessBlock
      simp only [hcol, if_true, hnum, if_false, prxSendACK_received]
      simp
  · left
    unfold frameColour at hcol
    unfold prvProcessBlock
    simp only [hcol, if_false, prxSendACK_received]
    simp

theorem blockStored_kept (s : AwsIotLargeObjectReceiveSession) (f : List Nat) (L : Nat) :
    (blockStored s f L).xOffset = s.xOffset
    ∧ (blockStored s f L).xAckTimer = s.xAckTimer
    ∧ (blockStored s f L).usBlockSize = s.usBlockSize := by
  unfold blockStored
  by_cases h : _FLAGS f &&& _LAST_BLOCK_MASK = _LAST_BLOCK_MASK <;> simp [h]

theorem prvProcessBlock_offset (p : Platform) (s : AwsIotLargeObjectReceiveSession)
    (f : List Nat) (L : Nat) (w : World) :
    (prvProcessBlock p s f L w).1.xOffset = s.xOffset
    ∧ ((prvProcessBlock p s f L w).1.xAckTimer = true → s.xAckTimer = true) := by
  obtain ⟨k1, k2, _⟩ := blockStored_kept s f L
  rcases prvProcessBlock_cases p s f L w with ⟨_, h | h | ⟨h, _⟩⟩ | ⟨hcol, hnum, hbit, hge⟩
  · rw [h]; exact ⟨rfl, id⟩
  · rw [h]; exact ⟨rfl, fun h => by simp [prvCloseSession_xRecv] at h⟩
  · rw [h, k1, k2]; exact ⟨rfl, id⟩
  · rw [prvProcessBlock_complete_eq p s f L w hcol hnum hbit hge]
    simp only
    split_ifs
    · exact ⟨k1, fun h => by simp [windowReset] at h⟩
    · exact ⟨k1, fun h => by simp [windowReset, prvCloseSession_xRecv] at h⟩
    · exact ⟨k1, fun h => by simp [windowReset] at h⟩

set_option maxRecDepth 100000 in
/-- C33, evaluated in the scenario: the four frames of the first window of a 100-byte
object are ingested by a freshly opened receive session; the fourth completes the window.
Afterwards the buffer length and the block count are 0, a window of 4 blocks is expected,
every bitmap bit is 1, the colour has toggled to Odd and exactly one frame, the ACK
`[1, 0, 0]`, has been emitted; but the session's offset is 0 as before, although the
callback was handed a window (72 bytes of the object, reported length 112). No call of
`prvProcessBlock` changes the offset of a receive session. -/
theorem window_completion_keeps_offset :
    (scenarioReceiving.xOffset, scenarioReceiving.xWindowType)
        = (0, AWS_IOT_LARGE_OBJECT_WINDOW_EVEN)
    ∧ (feed idealPlatform (busyWorld.sent.take 3)
        (scenarioReceiving, World.empty)).2 = World.empty
    ∧ (feed idealPlatform busyWorld.sent (scenarioReceiving, World.empty)).2.received.map
          (fun c => (c.xDataLength, c.pucData.take 72)) = [(112, List.range 72)]
    ∧ (feed idealPlatform busyWorld.sent (scenarioReceiving, World.empty)).2.sent
        = [[1, 0, 0]]
    ∧ (fun s : AwsIotLargeObjectReceiveSession =>
          (s.xBufferLength, s.usNumBlocksReceived, s.usNumWindowBlocks, s.ucBlockBitMap,
            s.xWindowType))
        (feed idealPlatform busyWorld.sent (scenarioReceiving, World.empty)).1
        = (0, 0, 4, [0xFF, 0xFF, 0xFF, 0xFF], AWS_IOT_LARGE_OBJECT_WINDOW_ODD)
    ∧ (feed idealPlatform busyWorld.sent (scenarioReceiving, World.empty)).1.xOffset = 0
    ∧ (∀ (p : Platform) (s : AwsIotLargeObjectReceiveSession) (f : List Nat) (L : Nat)
        (w : World), (prvProcessBlock p s f L w).1.xOffset = s.xOffset) := by
  refine ⟨by decide, by decide, by decide, by decide, by decide, by decide, ?_⟩
  intro p s f L w
  exact (prvProcessBlock_offset p s f L w).1

set_option maxRecDepth 100000 in
/-- C35, evaluated in the scenario: a freshly opened receive session (every bitmap bit
set, ACK timer not running) ingests block 0 of a window of four blocks, which does not
complete the window; afterwards the bit of block 0 is cleared and the ACK timer is still
not running. No call of `prvProcessBlock` starts the ACK timer, and neither does
`prxOpenReceiveSession`. -/
theorem ack_timer_never_started :
    (scenarioReceiving.ucBlockBitMap, scenarioReceiving.xAckTimer)
        = ([0xFF, 0xFF, 0xFF, 0xFF], false)
    ∧ (prvProcessBlock idealPlatform scenarioReceiving (fullBlock 0 1) 23 World.empty).2
        = World.empty
    ∧ (fun s : AwsIotLargeObjectReceiveSession =>
          (s.ucBlockBitMap, s.usNumBlocksReceived, s.usNumWindowBlocks, s.xAckTimer))
        (prvProcessBlock idealPlatform scenarioReceiving (fullBlock 0 1) 23 World.empty).1
        = ([0xFE, 0xFF, 0xFF, 0xFF], 1, 4, false)
    ∧ (∀ (p : Platform) (s : AwsIotLargeObjectReceiveSession) (f : List Nat) (L : Nat)
        (w : World),
        (prvProcessBlock p s f L w).1.xAckTimer = true → s.xAckTimer = true)
    ∧ (∀ (s : AwsIotLargeObjectReceiveSession) (usSessionId : Nat),
        (prxOpenReceiveSession s usSessionId).2.xAckTimer = s.xAckTimer) := by
  refine ⟨by decide, by decide, by decide, ?_, ?_⟩
  · intro p s f L w
    exact (prvProcessBlock_offset p s f L w).2
  · intro s usSessionId
    rfl

theorem prxSendACK_result (p : Platform) (usSessionId : Nat)
    (xErrorCode : AwsIotLargeObjectTransferError) (w : World) :
    (prxSendACK p usSessionId xErrorCode [] 0 w).1 = AWS_IOT_LARGE_OBJECT_TRANSFER_SUCCESS
      ↔ (p.malloc 3 = true ∧ 3 ≤ p.send w.sent (shortAck usSessionId xErrorCode)) := by
  have h3 : _ACK_LENGTH 0 = 3 := by decide
  have hc : toU8 xErrorCode.code = xErrorCode.code := by cases xErrorCode <;> rfl
  have hf : (storeU16 usSessionId ++ [xErrorCode.code] ++ []).take 3
      = shortAck usSessionId xErrorCode := by
    simp [storeU16, shortAck]
  unfold prxSendACK
  simp only [h3, Nat.lt_irrefl, if_false, hc, hf]
  by_cases hm : p.malloc 3 = true
  · simp only [hm, if_true, true_and]
    by_cases hs : p.send w.sent (shortAck usSessionId xErrorCode) < 3
    · simp [hs]
    · simp [hs]; omega
  · simp [hm]

/-- C34 (amended): receive-side termination. Whenever an ingest by `prvProcessBlock`
completes a window (it invokes the receive callback) in which a `LAST_BLOCK` block was
seen (the session's `xLastWindow` was already true or the frame carries `LAST_BLOCK`):
if the acknowledgment of the window was sent (the allocation of the 3-byte ACK succeeded
and the network's send reported at least 3 bytes), the session ends the ingest in state
Closed; if it was not, the session ends the ingest in the state it had before. -/
theorem last_window_closes_when_ack_sent (p : Platform)
    (s : AwsIotLargeObjectReceiveSession) (f : List Nat) (L : Nat) (w : World)
    (hcb : (prvProcessBlock p s f L w).2.received ≠ w.received)
    (hlast : s.xLastWindow = true ∨ isLastBlock f) :
    ((p.malloc 3 = true ∧
        3 ≤ p.send w.sent [s.usSessionID % 256, s.usSessionID / 256 % 256,
          AWS_IOT_LARGE_OBJECT_TRANSFER_SUCCESS.code]) →
      (prvProcessBlock p s f L w).1.xState = eAwsIotLargeObjectTransferClosed)
    ∧ (¬ (p.malloc 3 = true ∧
        3 ≤ p.send w.sent [s.usSessionID % 256, s.usSessionID / 256 % 256,
          AWS_IOT_LARGE_OBJECT_TRANSFER_SUCCESS.code]) →
      (prvProcessBlock p s f L w).1.xState = s.xState) := by
  obtain ⟨_, _, _, _, g5, _, g7⟩ := blockStored_fields s f L
  have hlw : (blockStored s f L).xLastWindow = true := by
    rw [g7]
    rcases hlast with h | h
    · simp [h]
    · unfold isLastBlock at h
      simp [h]
  rcases prvProcessBlock_cases p s f L w with ⟨h, _⟩ | ⟨hcol, hnum, hbit, hge⟩
  · exact absurd h hcb
  · have hres := prxSendACK_result p s.usSessionID AWS_IOT_LARGE_OBJECT_TRANSFER_SUCCESS
      { w with received := w.received ++
        [{ usSessionID := (blockStored s f L).usSessionID
           pucData := (blockStored s f L).pucBuffer
           xDataLength := (blockStored s f L).xBufferLength
           xMore := (blockStored s f L).xLastWindow }] }
    unfold shortAck at hres
    rw [prvProcessBlock_complete_eq p s f L w hcol hnum hbit hge]
    constructor
    · intro hok
      rw [if_neg (by rw [ne_eq, not_not]; exact hres.mpr hok), if_pos hlw]
      rfl
    · intro hno
      rw [if_pos (fun h => hno (hres.mp h))]
      simp only [windowReset]
      exact g5

set_option maxRecDepth 100000 in
/-- The theorem `last_window_closes_when_ack_sent` applied to the scenario receive session and
the single frame of a 10-byte object, on the platform that accepts everything: the session
ends Closed. -/
theorem last_window_closes_when_ack_sent_witness :
    ((prvProcessBlock idealPlatform scenarioReceiving
        [1, 0, 0, 0, 0xF9, 0, 1, 2, 3, 4, 5, 6, 7, 8, 9] 15 World.empty).2.received
        ≠ World.empty.received
      ∧ (scenarioReceiving.xLastWindow = true
          ∨ isLastBlock [1, 0, 0, 0, 0xF9, 0, 1, 2, 3, 4, 5, 6, 7, 8, 9])
      ∧ idealPlatform.malloc 3 = true
      ∧ 3 ≤ idealPlatform.send World.empty.sent
          [scenarioReceiving.usSessionID % 256, scenarioReceiving.usSessionID / 256 % 256,
            AWS_IOT_LARGE_OBJECT_TRANSFER_SUCCESS.code])
    ∧ (prvProcessBlock idealPlatform scenarioReceiving
        [1, 0, 0, 0, 0xF9, 0, 1, 2, 3, 4, 5, 6, 7, 8, 9] 15 World.empty).1.xState
      = eAwsIotLargeObjectTransferClosed
    ∧ (prvProcessBlock idealPlatform scenarioReceiving
        [1, 0, 0, 0, 0xF9, 0, 1, 2, 3, 4, 5, 6, 7, 8, 9] 15 World.empty).2.sent
      = [[1, 0, 0]] :=
  ⟨⟨by decide, Or.inr (by unfold isLastBlock; decide), by decide, by decide⟩,
   (last_window_closes_when_ack_sent idealPlatform scenarioReceiving
      [1, 0, 0, 0, 0xF9, 0, 1, 2, 3, 4, 5, 6, 7, 8, 9] 15 World.empty (by decide)
      (Or.inr (by unfold isLastBlock; decide))).1 ⟨by decide, by decide⟩,
   by decide⟩

set_option maxRecDepth 100000 in
/-- C34 as stated fails on a network whose send reports 0 bytes: the scenario receive
session (Open) ingests the single frame of a 10-byte object, which carries `LAST_BLOCK`
and completes the window (the receive callback is invoked once, `xLastWindow` is true),
and ends the ingest in state Open, not Closed. -/
theorem last_window_stays_open_when_ack_fails :
    scenarioReceiving.xState = eAwsIotLargeObjectTransferOpen
    ∧ isLastBlock [1, 0, 0, 0, 0xF9, 0, 1, 2, 3, 4, 5, 6, 7, 8, 9]
    ∧ (prvProcessBlock deafNetwork scenarioReceiving
        [1, 0, 0, 0, 0xF9, 0, 1, 2, 3, 4, 5, 6, 7, 8, 9] 15 World.empty).2.received.length
      = 1
    ∧ (prvProcessBlock deafNetwork scenarioReceiving
        [1, 0, 0, 0, 0xF9, 0, 1, 2, 3, 4, 5, 6, 7, 8, 9] 15 World.empty).1.xLastWindow
      = true
    ∧ (prvProcessBlock deafNetwork scenarioReceiving
        [1, 0, 0, 0, 0xF9, 0, 1, 2, 3, 4, 5, 6, 7, 8, 9] 15 World.empty).1.xState
      = eAwsIotLargeObjectTransferOpen
    ∧ (prvProcessBlock deafNetwork scenarioReceiving
        [1, 0, 0, 0, 0xF9, 0, 1, 2, 3, 4, 5, 6, 7, 8, 9] 15 World.empty).1.xState
      ≠ eAwsIotLargeObjectTransferClosed := by
  refine ⟨by decide, by unfold isLastBlock; decide, by decide, by decide, by decide,
    by decide⟩

theorem blockStored_counters (s : AwsIotLargeObjectReceiveSession) (f : List Nat) (L : Nat) :
    (blockStored s f L).usNumBlocksReceived = toU16 (s.usNumBlocksReceived + 1)
    ∧ ((blockStored s f L).usNumWindowBlocks = s.usNumWindowBlocks
        ∨ (blockStored s f L).usNumWindowBlocks = toU16 (_BLOCK_NUMBER f + 1)) := by
  unfold blockStored
  by_cases h : _FLAGS f &&& _LAST_BLOCK_MASK = _LAST_BLOCK_MASK <;> simp [h]

theorem prvProcessBlock_counters (p : Platform) (s : AwsIotLargeObjectReceiveSession)
    (f : List Nat) (L : Nat) (w : World)
    (hinv : s.usNumBlocksReceived ≤ s.usNumWindowBlocks
      ∧ s.usNumWindowBlocks ≤ s.usWindowSize ∧ s.usWindowSize ≤ 32) :
    (prvProcessBlock p s f L w).1.usNumBlocksReceived
        ≤ (prvProcessBlock p s f L w).1.usNumWindowBlocks
    ∧ (prvProcessBlock p s f L w).1.usNumWindowBlocks
        ≤ (prvProcessBlock p s f L w).1.usWindowSize
    ∧ (prvProcessBlock p s f L w).1.usWindowSize ≤ 32
    ∧ (prvProcessBlock p s f L w).1.usWindowSize = s.usWindowSize := by
  obtain ⟨i1, i2, i3⟩ := hinv
  obtain ⟨_, g2, _⟩ := blockStored_fields s f L
  obtain ⟨c1, c2⟩ := blockStored_counters s f L
  rcases prvProcessBlock_cases p s f L w with ⟨_, h | h | ⟨h, _, hnum, _, hlt⟩⟩ |
    ⟨hcol, hnum, hbit, hge⟩
  · rw [h]; exact ⟨i1, i2, i3, rfl⟩
  · rw [h]; exact ⟨i1, i2, i3, rfl⟩
  · rw [h, g2]
    refine ⟨by omega, ?_, i3, rfl⟩
    rcases c2 with c2 | c2
    · rw [c2]; exact i2
    · rw [c2]; unfold toU16; omega
  · rw [prvProcessBlock_complete_eq p s f L w hcol hnum hbit hge]
    simp only
    split_ifs <;> simp [windowReset, prvCloseSession_xRecv, g2, i3]

theorem feedCalls_counters (p : Platform) :
    ∀ (calls : List (List Nat × Nat)) (s : AwsIotLargeObjectReceiveSession) (w : World),
      (s.usNumBlocksReceived ≤ s.usNumWindowBlocks
        ∧ s.usNumWindowBlocks ≤ s.usWindowSize ∧ s.usWindowSize ≤ 32) →
      (feedCalls p calls (s, w)).1.usNumBlocksReceived
          ≤ (feedCalls p calls (s, w)).1.usNumWindowBlocks
      ∧ (feedCalls p calls (s, w)).1.usNumWindowBlocks
          ≤ (feedCalls p calls (s, w)).1.usWindowSize
      ∧ (feedCalls p calls (s, w)).1.usWindowSize = s.usWindowSize := by
  intro calls
  induction calls with
  | nil => intro s w h; exact ⟨h.1, h.2.1, rfl⟩
  | cons c cs ih =>
    intro s w h
    obtain ⟨q1, q2, q3, q4⟩ := prvProcessBlock_counters p s c.1 c.2 w h
    obtain ⟨r1, r2, r3⟩ := ih (prvProcessBlock p s c.1 c.2 w).1
      (prvProcessBlock p s c.1 c.2 w).2 ⟨q1, q2, q3⟩
    simp only [feedCalls]
    exact ⟨r1, r2, by rw [r3, q4]⟩

/-- C36: receive-session counter invariant. A receive slot with window size at most 32 is
opened by `prxOpenReceiveSession` and then handed any sequence of `prvProcessBlock` calls,
with arbitrary frame memory and reported lengths, on any platform. After each call (after
the first `n` calls, for every `n`) the block count is at most the number of blocks
expected in the window, which is at most the window size; the window size is the one
the slot had. -/
theorem receive_counter_invariant (p : Platform) (s0 : AwsIotLargeObjectReceiveSession)
    (usSessionId : Nat) (calls : List (List Nat × Nat)) (w : World) (n : Nat)
    (hws : s0.usWindowSize ≤ IOT_LARGE_OBJECT_TRANSFER_MAX_WINDOW_SIZE) :
    (feedCalls p (calls.take n)
        ((prxOpenReceiveSession s0 usSessionId).2, w)).1.usNumBlocksReceived
      ≤ (feedCalls p (calls.take n)
        ((prxOpenReceiveSession s0 usSessionId).2, w)).1.usNumWindowBlocks
    ∧ (feedCalls p (calls.take n)
        ((prxOpenReceiveSession s0 usSessionId).2, w)).1.usNumWindowBlocks
      ≤ (feedCalls p (calls.take n)
        ((prxOpenReceiveSession s0 usSessionId).2, w)).1.usWindowSize
    ∧ (feedCalls p (calls.take n)
        ((prxOpenReceiveSession s0 usSessionId).2, w)).1.usWindowSize = s0.usWindowSize := by
  have hws' : s0.usWindowSize ≤ 32 := hws
  exact feedCalls_counters p (calls.take n) (prxOpenReceiveSession s0 usSessionId).2 w
    ⟨by simp [prxOpenReceiveSession], by simp [prxOpenReceiveSession],
     by simpa [prxOpenReceiveSession] using hws'⟩

set_option maxRecDepth 100000 in
/-- The theorem `receive_counter_invariant` applied to the scenario slot (window size 4) and
the calls block 3, a frame with block number 9, block 0 with `LAST_BLOCK`, block 1, with
the counters after each call. -/
theorem receive_counter_invariant_witness :
    (scenarioSlot.usWindowSize ≤ IOT_LARGE_OBJECT_TRANSFER_MAX_WINDOW_SIZE)
    ∧ ((feedCalls idealPlatform
          ([(fullBlock 3 7, 23), (fullBlock 9 7, 23), ((fullBlock 0 7).set 4 0xF9, 23),
            (fullBlock 1 7, 23)].take 3)
          ((prxOpenReceiveSession scenarioSlot 1).2, World.empty)).1.usNumBlocksReceived
        ≤ (feedCalls idealPlatform
          ([(fullBlock 3 7, 23), (fullBlock 9 7, 23), ((fullBlock 0 7).set 4 0xF9, 23),
            (fullBlock 1 7, 23)].take 3)
          ((prxOpenReceiveSession scenarioSlot 1).2, World.empty)).1.usNumWindowBlocks)
    ∧ (List.range 5).map (fun n =>
          (fun s : AwsIotLargeObjectReceiveSession =>
            (s.usNumBlocksReceived, s.usNumWindowBlocks, s.usWindowSize))
          (feedCalls idealPlatform
            ([(fullBlock 3 7, 23), (fullBlock 9 7, 23), ((fullBlock 0 7).set 4 0xF9, 23),
              (fullBlock 1 7, 23)].take n)
            ((prxOpenReceiveSession scenarioSlot 1).2, World.empty)).1)
        = [(0, 4, 4), (1, 4, 4), (1, 4, 4), (0, 4, 4), (0, 4, 4)] :=
  ⟨by decide,
   (receive_counter_invariant idealPlatform scenarioSlot 1
      [(fullBlock 3 7, 23), (fullBlock 9 7, 23), ((fullBlock 0 7).set 4 0xF9, 23),
        (fullBlock 1 7, 23)] World.empty 3 (by decide)).1,
   by decide⟩

theorem countP_range_or_eq (q q2 : Nat → Bool) (b : Nat) (hb : q b = false)
    (h : ∀ k, q2 k = (q k || decide (k = b))) :
    ∀ n, (List.range n).countP q2
      = (List.range n).countP q + (if b < n then 1 else 0) := by
  intro n
  induction n with
  | zero => simp
  | succ n ih =>
    rw [List.range_succ, List.countP_append, List.countP_append, ih]
    simp only [List.countP_cons, List.countP_nil, Nat.zero_add, h n]
    by_cases hn : n = b
    · subst hn
      simp [hb]
    · have hlt : (b < n + 1) ↔ (b < n) := by omega
      simp only [hn, decide_False, Bool.or_false, hlt]
      omega

theorem setBits_add_clearedBits (s : AwsIotLargeObjectReceiveSession) :
    setBits s + clearedBits s = s.usWindowSize := by
  unfold setBits clearedBits
  have := List.length_eq_countP_add_countP
    (fun k => prxIsBlockReceived s.ucBlockBitMap k) (List.range s.usWindowSize)
  simp only [List.length_range] at this
  have e : (List.range s.usWindowSize).countP
        (fun k => !prxIsBlockReceived s.ucBlockBitMap k)
      = (List.range s.usWindowSize).countP
        (fun a => decide ¬ (prxIsBlockReceived s.ucBlockBitMap a = true)) := by
    congr 1
    funext k
    cases prxIsBlockReceived s.ucBlockBitMap k <;> rfl
  rw [e]
  omega

theorem clearedBits_fresh (s : AwsIotLargeObjectReceiveSession)
    (hbm : s.ucBlockBitMap = List.replicate IOT_LARGE_OBJECT_TRANSFER_BITMAP_SIZE 0xFF)
    (hws : s.usWindowSize ≤ 32) : clearedBits s = 0 := by
  unfold clearedBits
  rw [List.countP_eq_zero]
  intro k hk
  rw [hbm, fresh_bitmap_all_missing k (by have := List.mem_range.mp hk; omega)]
  simp

theorem prvProcessBlock_bits (p : Platform) (s : AwsIotLargeObjectReceiveSession)
    (f : List Nat) (L : Nat) (w : World)
    (hinv : clearedBits s = s.usNumBlocksReceived ∧ s.ucBlockBitMap.length = 4
      ∧ s.usWindowSize ≤ 32) :
    clearedBits (prvProcessBlock p s f L w).1
        = (prvProcessBlock p s f L w).1.usNumBlocksReceived
    ∧ (prvProcessBlock p s f L w).1.ucBlockBitMap.length = 4
    ∧ (prvProcessBlock p s f L w).1.usWindowSize ≤ 32 := by
  obtain ⟨i1, i2, i3⟩ := hinv
  obtain ⟨_, g2, g3, _⟩ := blockStored_fields s f L
  obtain ⟨c1, _⟩ := blockStored_counters s f L
  have hle : clearedBits s ≤ s.usWindowSize := by
    have := setBits_add_clearedBits s
    omega
  rcases prvProcessBlock_cases p s f L w with ⟨_, h | h | ⟨h, _, hnum, hbit, _⟩⟩ |
    ⟨hcol, hnum, hbit, hge⟩
  · rw [h]; exact ⟨i1, i2, i3⟩
  · rw [h]; exact ⟨i1, i2, i3⟩
  · rw [h]
    refine ⟨?_, by rw [g3, prvSetBlockReceived_length, i2], by rw [g2]; exact i3⟩
    have hk8 : _BLOCK_NUMBER f / 8 < s.ucBlockBitMap.length := by omega
    have hcount := countP_range_or_eq
      (fun k => prxIsBlockReceived s.ucBlockBitMap k)
      (fun k => prxIsBlockReceived (prvSetBlockReceived s.ucBlockBitMap (_BLOCK_NUMBER f)) k)
      (_BLOCK_NUMBER f) hbit
      (by
        intro k
        by_cases hk : k = _BLOCK_NUMBER f
        · subst hk
          simp only [prxIsBlockReceived_set _ _ hk8, decide_True, Bool.or_true]
        · simp only [prxIsBlockReceived_set_ne _ _ _ hk8 hk, hk, decide_False,
            Bool.or_false])
      s.usWindowSize
    rw [if_pos hnum] at hcount
    unfold clearedBits at i1 hle ⊢
    rw [g2, g3, hcount, c1, i1]
    unfold toU16
    omega
  · rw [prvProcessBlock_complete_eq p s f L w hcol hnum hbit hge]
    simp only
    have hw3 : (windowReset (blockStored s f L)).usWindowSize ≤ 32 := by
      show (blockStored s f L).usWindowSize ≤ 32
      rw [g2]
      exact i3
    have hb4 : (windowReset (blockStored s f L)).ucBlockBitMap.length = 4 := by
      show (List.replicate IOT_LARGE_OBJECT_TRANSFER_BITMAP_SIZE 0xFF).length = 4
      rw [List.length_replicate]
      rfl
    have hfresh : clearedBits (windowReset (blockStored s f L)) = 0 :=
      clearedBits_fresh _ rfl hw3
    have hfresh2 : clearedBits (prvCloseSession_xRecv (windowReset (blockStored s f L)) false)
        = 0 :=
      clearedBits_fresh _ rfl hw3
    split_ifs
    · exact ⟨hfresh, hb4, hw3⟩
    · exact ⟨hfresh2, hb4, hw3⟩
    · exact ⟨hfresh, hb4, hw3⟩

theorem feedCalls_bits (p : Platform) :
    ∀ (calls : List (List Nat × Nat)) (s : AwsIotLargeObjectReceiveSession) (w : World),
      (clearedBits s = s.usNumBlocksReceived ∧ s.ucBlockBitMap.length = 4
        ∧ s.usWindowSize ≤ 32) →
      clearedBits (feedCalls p calls (s, w)).1
          = (feedCalls p calls (s, w)).1.usNumBlocksReceived
      ∧ (feedCalls p calls (s, w)).1.ucBlockBitMap.length = 4
      ∧ (feedCalls p calls (s, w)).1.usWindowSize ≤ 32 := by
  intro calls
  induction calls with
  | nil => intro s w h; exact h
  | cons c cs ih =>
    intro s w h
    simp only [feedCalls]
    exact ih _ _ (prvProcessBlock_bits p s c.1 c.2 w h)

theorem feedCalls_received_grows (p : Platform) :
    ∀ (cs : List (List Nat × Nat)) (x : AwsIotLargeObjectReceiveSession × World),
      ∃ extra, (feedCalls p cs x).2.received = x.2.received ++ extra := by
  intro cs
  induction cs with
  | nil => intro x; exact ⟨[], by simp [feedCalls]⟩
  | cons c cs ih =>
    intro x
    obtain ⟨e, he⟩ := ih (prvProcessBlock p x.1 c.1 c.2 x.2)
    simp only [feedCalls]
    rw [he]
    rcases prvProcessBlock_received_cases p x.1 c.1 c.2 x.2 with h | h
    · exact ⟨e, by rw [h]⟩
    · exact ⟨[{ usSessionID := (blockStored x.1 c.1 c.2).usSessionID
                pucData := (blockStored x.1 c.1 c.2).pucBuffer
                xDataLength := (blockStored x.1 c.1 c.2).xBufferLength
                xMore := (blockStored x.1 c.1 c.2).xLastWindow }] ++ e,
        by rw [h, List.append_assoc]⟩

theorem feedCalls_quiet (p : Platform) :
    ∀ (cs : List (List Nat × Nat)) (s : AwsIotLargeObjectReceiveSession) (w : World),
      s.ucBlockBitMap.length = 4 → s.usWindowSize ≤ 32 →
      (feedCalls p cs (s, w)).2.received = w.received →
      ∀ k, (prxIsBlockReceived (feedCalls p cs (s, w)).1.ucBlockBitMap k = true ↔
          prxIsBlockReceived s.ucBlockBitMap k = true
            ∨ (k < s.usWindowSize ∧
                ∃ c ∈ cs, frameColour c.1 = s.xWindowType ∧ _BLOCK_NUMBER c.1 = k)) := by
  intro cs
  induction cs with
  | nil =>
    intro s w _ _ _ k
    simp [feedCalls]
  | cons c cs ih =>
    intro s w hbm hws hrec k
    simp only [feedCalls] at hrec ⊢
    obtain ⟨e, he⟩ := feedCalls_received_grows p cs (prvProcessBlock p s c.1 c.2 w)
    have hstep : (prvProcessBlock p s c.1 c.2 w).2.received = w.received := by
      rcases prvProcessBlock_received_cases p s c.1 c.2 w with h | h
      · exact h
      · exfalso
        rw [he, h] at hrec
        have := congrArg List.length hrec
        simp at this
    obtain ⟨q1, q2, _, q4, q5⟩ := prvProcessBlock_quiet p s c.1 c.2 w hbm hws hstep
    have hrec' : (feedCalls p cs ((prvProcessBlock p s c.1 c.2 w).1,
        (prvProcessBlock p s c.1 c.2 w).2)).2.received
        = (prvProcessBlock p s c.1 c.2 w).2.received := by
      rw [hstep]; exact hrec
    rw [ih _ _ q4 (by rw [q2]; exact hws) hrec' k, q5 k, q1, q2]
    constructor
    · rintro ((h | ⟨h1, h2, h3⟩) | ⟨h1, g, hg, h2, h3⟩)
      · exact Or.inl h
      · exact Or.inr ⟨h1, c, List.mem_cons_self _ _, h2, h3⟩
      · exact Or.inr ⟨h1, g, List.mem_cons_of_mem _ hg, h2, h3⟩
    · rintro (h | ⟨h1, g, hg, h2, h3⟩)
      · exact Or.inl (Or.inl h)
      · rcases List.mem_cons.mp hg with rfl | hg'
        · exact Or.inl (Or.inr ⟨h1, h2, h3⟩)
        · exact Or.inr ⟨h1, g, hg', h2, h3⟩

/-- C37: bitmap/count invariant. A receive slot with window size at most 32 is opened by
`prxOpenReceiveSession` and handed any sequence `pre` of `prvProcessBlock` calls
(arbitrary frame memory and reported lengths, any platform). In the state reached,
whatever its `xState`, the number of set bits among the bits `k < usWindowSize` of the
bitmap equals `usWindowSize - usNumBlocksReceived`, the block count being at most the
window size. And a bit is cleared exactly when the block of the current window has been
received: if in the state reached no block of the current window has been received yet
(`usNumBlocksReceived = 0`, as after the opening and after every completed window) and
further calls `post` follow that complete no window (no receive callback), then for
`k < usWindowSize` bit `k` is cleared exactly when some call of `post` carried a frame of
the window's colour with block number `k`. -/
theorem bitmap_count_invariant (p : Platform) (s0 : AwsIotLargeObjectReceiveSession)
    (usSessionId : Nat) (pre post : List (List Nat × Nat)) (w : World)
    (hws : s0.usWindowSize ≤ IOT_LARGE_OBJECT_TRANSFER_MAX_WINDOW_SIZE) :
    setBits (feedCalls p pre ((prxOpenReceiveSession s0 usSessionId).2, w)).1
      = (feedCalls p pre ((prxOpenReceiveSession s0 usSessionId).2, w)).1.usWindowSize
        - (feedCalls p pre
            ((prxOpenReceiveSession s0 usSessionId).2, w)).1.usNumBlocksReceived
    ∧ (feedCalls p pre ((prxOpenReceiveSession s0 usSessionId).2, w)).1.usNumBlocksReceived
      ≤ (feedCalls p pre ((prxOpenReceiveSession s0 usSessionId).2, w)).1.usWindowSize
    ∧ ((feedCalls p pre
          ((prxOpenReceiveSession s0 usSessionId).2, w)).1.usNumBlocksReceived = 0 →
        (feedCalls p post
          (feedCalls p pre ((prxOpenReceiveSession s0 usSessionId).2, w))).2.received
          = (feedCalls p pre ((prxOpenReceiveSession s0 usSessionId).2, w)).2.received →
        ∀ k, k < s0.usWindowSize →
          (prxIsBlockReceived (feedCalls p post
              (feedCalls p pre
                ((prxOpenReceiveSession s0 usSessionId).2, w))).1.ucBlockBitMap k = true
            ↔ ∃ c ∈ post,
                frameColour c.1 = (feedCalls p pre
                  ((prxOpenReceiveSession s0 usSessionId).2, w)).1.xWindowType
                ∧ _BLOCK_NUMBER c.1 = k)) := by
  have hws' : s0.usWindowSize ≤ 32 := hws
  have hopen : clearedBits (prxOpenReceiveSession s0 usSessionId).2
        = (prxOpenReceiveSession s0 usSessionId).2.usNumBlocksReceived
      ∧ (prxOpenReceiveSession s0 usSessionId).2.ucBlockBitMap.length = 4
      ∧ (prxOpenReceiveSession s0 usSessionId).2.usWindowSize ≤ 32 := by
    refine ⟨clearedBits_fresh _ rfl hws', ?_, hws'⟩
    show (List.replicate IOT_LARGE_OBJECT_TRANSFER_BITMAP_SIZE 0xFF).length = 4
    rw [List.length_replicate]
    rfl
  obtain ⟨b1, b2, b3⟩ := feedCalls_bits p pre _ w hopen
  obtain ⟨_, _, c3⟩ := feedCalls_counters p pre (prxOpenReceiveSession s0 usSessionId).2 w
    ⟨by simp [prxOpenReceiveSession], by simp [prxOpenReceiveSession],
     by simpa [prxOpenReceiveSession] using hws'⟩
  have hsum := setBits_add_clearedBits
    (feedCalls p pre ((prxOpenReceiveSession s0 usSessionId).2, w)).1
  refine ⟨by omega, by omega, ?_⟩
  intro h0 hquiet k hk
  have hq := feedCalls_quiet p post
    (feedCalls p pre ((prxOpenReceiveSession s0 usSessionId).2, w)).1
    (feedCalls p pre ((prxOpenReceiveSession s0 usSessionId).2, w)).2 b2 b3 hquiet k
  have hws0 : (feedCalls p pre ((prxOpenReceiveSession s0 usSessionId).2, w)).1.usWindowSize
      = s0.usWindowSize := c3
  have hzero : clearedBits (feedCalls p pre
      ((prxOpenReceiveSession s0 usSessionId).2, w)).1 = 0 := by rw [b1, h0]
  unfold clearedBits at hzero
  rw [List.countP_eq_zero] at hzero
  have hk0 := hzero k (List.mem_range.mpr (by rw [hws0]; exact hk))
  rw [hq, hws0]
  constructor
  · rintro (h | ⟨_, h⟩)
    · exact absurd h hk0
    · exact h
  · intro h
    exact Or.inr ⟨hk, h⟩

set_option maxRecDepth 100000 in
/-- The theorem `bitmap_count_invariant` applied to the scenario slot (window size 4) after
the ingest of the blocks 0, 1 and 3: one bit is set (bit 2), the bitmap byte being
`0xF4`. -/
theorem bitmap_count_invariant_witness :
    (scenarioSlot.usWindowSize ≤ IOT_LARGE_OBJECT_TRANSFER_MAX_WINDOW_SIZE)
    ∧ setBits (feedCalls idealPlatform
          [(fullBlock 0 1, 23), (fullBlock 1 1, 23), (fullBlock 3 1, 23)]
          ((prxOpenReceiveSession scenarioSlot 1).2, World.empty)).1
        = (feedCalls idealPlatform
            [(fullBlock 0 1, 23), (fullBlock 1 1, 23), (fullBlock 3 1, 23)]
            ((prxOpenReceiveSession scenarioSlot 1).2, World.empty)).1.usWindowSize
          - (feedCalls idealPlatform
            [(fullBlock 0 1, 23), (fullBlock 1 1, 23), (fullBlock 3 1, 23)]
            ((prxOpenReceiveSession scenarioSlot 1).2, World.empty)).1.usNumBlocksReceived
    ∧ (fun s : AwsIotLargeObjectReceiveSession =>
          (setBits s, s.usWindowSize, s.usNumBlocksReceived, s.ucBlockBitMap))
        (feedCalls idealPlatform
          [(fullBlock 0 1, 23), (fullBlock 1 1, 23), (fullBlock 3 1, 23)]
          ((prxOpenReceiveSession scenarioSlot 1).2, World.empty)).1
        = (1, 4, 3, [0xF4, 0xFF, 0xFF, 0xFF]) :=
  ⟨by decide,
   (bitmap_count_invariant idealPlatform scenarioSlot 1
      [(fullBlock 0 1, 23), (fullBlock 1 1, 23), (fullBlock 3 1, 23)] [] World.empty
      (by decide)).1,
   by decide⟩

set_option maxRecDepth 100000 in
/-- C38, evaluated in the scenario: a 10-byte object is sent with
`AwsIotLargeObjectTransfer_Send` over a network that accepts every frame, and the full ACK
`[1, 0, 0]` of its only window is handed to the dispatcher. The send session reached is
Open with offset 72, beyond the object length 10 (the offset is a multiple of the block
size 18). After a second full ACK it is Open with offset 144. -/
theorem send_offset_exceeds_object_length :
    sentTenBytes.xError = AWS_IOT_LARGE_OBJECT_TRANSFER_SUCCESS
    ∧ sentTenBytes.pxSendSessions.map (fun s => (s.xState, s.xOffset, s.xObjectLength))
        = [(eAwsIotLargeObjectTransferOpen, 0, 10)]
    ∧ (prvNetworkReceiveCallback idealPlatform
        { scenarioContext with pxSendSessions := sentTenBytes.pxSendSessions } [1, 0, 0] 3
        sentTenBytes.world).1.pxSendSessions.map
          (fun s => (s.xState, s.xOffset, s.xObjectLength, s.usBlockSize, s.xOffset % 18))
        = [(eAwsIotLargeObjectTransferOpen, 72, 10, 18, 0)]
    ∧ (prvNetworkReceiveCallback idealPlatform
        (prvNetworkReceiveCallback idealPlatform
          { scenarioContext with pxSendSessions := sentTenBytes.pxSendSessions } [1, 0, 0] 3
          sentTenBytes.world).1 [1, 0, 0] 3
        (prvNetworkReceiveCallback idealPlatform
          { scenarioContext with pxSendSessions := sentTenBytes.pxSendSessions } [1, 0, 0] 3
          sentTenBytes.world).2).1.pxSendSessions.map
          (fun s => (s.xState, s.xOffset, s.xObjectLength))
        = [(eAwsIotLargeObjectTransferOpen, 144, 10)] := by
  decide

set_option maxRecDepth 100000 in
/-- C39, evaluated in the scenario: the receive session as `prxInitSession` and
`prxOpenReceiveSession` leave it has a buffer of `4 * 18 = 72` bytes; it ingests a frame
of the current colour for block 3 (bit set) whose payload is 18 bytes, the block size.
`prvProcessBlock` writes the 28 bytes `[54, 82)`: the write runs 10 bytes past the end of
the buffer (the region the model shows as the buffer has grown to 82 bytes). -/
theorem block_write_runs_past_buffer :
    (scenarioReceiving.pucBuffer.length, scenarioReceiving.usWindowSize,
        scenarioReceiving.usBlockSize) = (72, 4, 18)
    ∧ frameColour (fullBlock 3 7) = scenarioReceiving.xWindowType
    ∧ _BLOCK_NUMBER (fullBlock 3 7) = 3
    ∧ prxIsBlockReceived scenarioReceiving.ucBlockBitMap 3 = false
    ∧ (_BLOCK_DATA (fullBlock 3 7)).length = 18
    ∧ _BLOCK_NUMBER (fullBlock 3 7) * scenarioReceiving.usBlockSize + _BLOCK_LENGTH 23 = 82
    ∧ (prvProcessBlock idealPlatform scenarioReceiving (fullBlock 3 7) 23
        World.empty).1.pucBuffer.length = 82
    ∧ (prvProcessBlock idealPlatform scenarioReceiving (fullBlock 3 7) 23
        World.empty).1.pucBuffer.drop 54 = List.replicate 18 7 ++ List.replicate 10 0 := by
  decide

set_option maxRecDepth 100000 in
/-- C40, evaluated on two inputs. An Open send session in the last window of a 100-byte
object (offset 72, block size 18, window size 4: block 0 is `[72, 90)`, block 1 is
`[90, 100)`) is handed the one-byte bitmap `0x02`: the loop sends block 0, passes over
block 1 and goes on to block 2, whose offset 108 lies beyond the object; its length
`100 - 108` wraps to `4294967288`, and on a platform whose allocator refuses more than
65536 bytes the function fails with NoMemory (`prvProcessACK` then leaves the session
Resumable). An Open send session with window size 16 is handed a one-byte bitmap `0xFF`:
the blocks 8 to 15 are governed by the byte behind the bitmap, so that two memories
that agree on the bitmap give different results. -/
theorem retransmit_leaves_object_and_bitmap :
    (scenarioSending (List.range 100) 72 AWS_IOT_LARGE_OBJECT_WINDOW_ODD).xOffset
        + 2 * (scenarioSending (List.range 100) 72
            AWS_IOT_LARGE_OBJECT_WINDOW_ODD).usBlockSize = 108
    ∧ sizeSub 100 108 = 4294967288
    ∧ (prxRetransmitMissingBlocks boundedHeap
        (scenarioSending (List.range 100) 72 AWS_IOT_LARGE_OBJECT_WINDOW_ODD) [0x02] 1
        World.empty).1 = AWS_IOT_LARGE_OBJECT_TRANSFER_NO_MEMORY
    ∧ (prxRetransmitMissingBlocks boundedHeap
        (scenarioSending (List.range 100) 72 AWS_IOT_LARGE_OBJECT_WINDOW_ODD) [0x02] 1
        World.empty).2.sent.map (fun f => (_BLOCK_NUMBER f, f.length)) = [(0, 23)]
    ∧ (prxRetransmitMissingBlocks boundedHeap
        (scenarioSending (List.range 100) 72 AWS_IOT_LARGE_OBJECT_WINDOW_ODD) [0x00] 1
        World.empty).2.sent.map (fun f => (_BLOCK_NUMBER f, f.length)) = [(0, 23), (1, 15)]
    ∧ (prvProcessACK boundedHeap
        (scenarioSending (List.range 100) 72 AWS_IOT_LARGE_OBJECT_WINDOW_ODD)
        [1, 0, 0, 0x02] 4 World.empty).1.xState = eAwsIotLargeObjectTransferResumable
    ∧ (wideSending.usWindowSize, wideSending.xOffset, wideSending.xObjectLength)
        = (16, 0, 400)
    ∧ (prxRetransmitMissingBlocks idealPlatform wideSending [0xFF, 0x00] 1
        World.empty).2.sent.map _BLOCK_NUMBER = [8, 9, 10, 11, 12, 13, 14, 15]
    ∧ (prxRetransmitMissingBlocks idealPlatform wideSending [0xFF, 0xFF] 1
        World.empty).2.sent = []
    ∧ (prvProcessACK idealPlatform wideSending [1, 0, 0, 0xFF, 0x00] 4
        World.empty).2.sent.map _BLOCK_NUMBER = [8, 9, 10, 11, 12, 13, 14, 15]
    ∧ (prvProcessACK idealPlatform wideSending [1, 0, 0, 0xFF, 0xFF] 4
        World.empty).2.sent = [] := by
  decide

theorem prxSendWindow_flags (p : Platform) (s : AwsIotLargeObjectSendSession) (w : World)
    (hobj : s.pucObject.length = s.xObjectLength)
    (hws : s.usWindowSize < 65536)
    (hlen : s.xObjectLength + s.usBlockSize + 5 < 2 ^ 32) :
    ∃ fs, (prxSendWindow p s w).2.sent = w.sent ++ fs
      ∧ ∀ f ∈ fs, _FLAGS f = expectedFlags s (_BLOCK_NUMBER f)
          ∧ s.xOffset + _BLOCK_NUMBER f * s.usBlockSize < s.xObjectLength := by
  obtain ⟨fs, h1, h2, h3⟩ := prxSendWindow_sent p s w hobj hlen
  refine ⟨fs, h1, ?_⟩
  intro f hf
  have hoff : s.xOffset < s.xObjectLength := h3 (List.ne_nil_of_mem hf)
  obtain ⟨k, hk, rfl⟩ := List.getElem_of_mem hf
  have hk' : k < (windowFrames s s.usWindowSize 0).length := Nat.lt_of_lt_of_le hk h2.length_le
  obtain ⟨g1, _, g3⟩ := windowFrames_get s s.usWindowSize 0 k hk'
  have hle := windowFrames_length_le s s.usWindowSize 0
  rw [Nat.zero_add] at g1 g3
  have hin : s.xOffset + k * s.usBlockSize < s.xObjectLength := g3 (by simpa using hoff)
  rw [getElem_of_isPrefix h2 k hk hk', g1, blockFrame_flags, blockFrame_number s k (by omega),
    flagsByte_eq_expected s k hin]
  exact ⟨rfl, hin⟩

set_option maxRecDepth 100000 in
/-- C6, evaluated on an Open send session in the last window of a 90-byte object (offset
72, block size 18, window size 4, colour Odd), whose only remaining block is block 0, the
bytes `[72, 90)`, handed the one-byte bitmap `0xFD` by `prxRetransmitMissingBlocks`. The
one frame emitted is `[1, 0, 1, 0, 0xFD]`: block 1, which starts at offset 90, the end of
the object, and has no data, with `LAST_BLOCK` set, although it is not the last block of
the object (that is block 0, which is not sent); the flags the claim prescribes for it are
`0xFC`. The frames `prxSendWindow` emits do carry the prescribed flags, for every session
and platform: reserved bits 3-7 set, `RESUME` clear, the session's colour, and
`LAST_BLOCK` exactly on the block that holds the last byte of the object. -/
theorem retransmit_marks_block_past_object_last :
    (fun s : AwsIotLargeObjectSendSession =>
        (s.xState, s.xObjectLength, s.xOffset, s.usBlockSize, s.usWindowSize, s.xWindowType))
      (scenarioSending (List.range 90) 72 AWS_IOT_LARGE_OBJECT_WINDOW_ODD)
      = (eAwsIotLargeObjectTransferOpen, 90, 72, 18, 4, AWS_IOT_LARGE_OBJECT_WINDOW_ODD)
    ∧ (prxRetransmitMissingBlocks idealPlatform
        (scenarioSending (List.range 90) 72 AWS_IOT_LARGE_OBJECT_WINDOW_ODD) [0xFD] 1
        World.empty).2.sent = [[1, 0, 1, 0, 0xFD]]
    ∧ _BLOCK_NUMBER [1, 0, 1, 0, 0xFD] = 1
    ∧ _BLOCK_DATA [1, 0, 1, 0, 0xFD] = []
    ∧ _FLAGS [1, 0, 1, 0, 0xFD] &&& _LAST_BLOCK_MASK = _LAST_BLOCK_MASK
    ∧ (scenarioSending (List.range 90) 72 AWS_IOT_LARGE_OBJECT_WINDOW_ODD).xOffset
        + 1 * (scenarioSending (List.range 90) 72 AWS_IOT_LARGE_OBJECT_WINDOW_ODD).usBlockSize
        = (scenarioSending (List.range 90) 72
            AWS_IOT_LARGE_OBJECT_WINDOW_ODD).xObjectLength
    ∧ expectedFlags (scenarioSending (List.range 90) 72 AWS_IOT_LARGE_OBJECT_WINDOW_ODD) 1
        = 0xFC
    ∧ expectedFlags (scenarioSending (List.range 90) 72 AWS_IOT_LARGE_OBJECT_WINDOW_ODD) 0
        = 0xFD
    ∧ (prxSendWindow idealPlatform
        (scenarioSending (List.range 90) 72 AWS_IOT_LARGE_OBJECT_WINDOW_ODD)
        World.empty).2.sent.map (fun f => (_BLOCK_NUMBER f, _FLAGS f, (_BLOCK_DATA f).length))
        = [(0, 0xFD, 18)]
    ∧ (∀ (p : Platform) (s : AwsIotLargeObjectSendSession) (w : World),
        s.pucObject.length = s.xObjectLength → s.usWindowSize < 65536 →
        s.xObjectLength + s.usBlockSize + 5 < 2 ^ 32 →
        ∃ fs, (prxSendWindow p s w).2.sent = w.sent ++ fs
          ∧ ∀ f ∈ fs,
              _FLAGS f = 0xF8
                ||| (if s.xOffset + _BLOCK_NUMBER f * s.usBlockSize < s.xObjectLength
                      ∧ s.xObjectLength ≤ s.xOffset + (_BLOCK_NUMBER f + 1) * s.usBlockSize
                    then 0x01 else 0)
                ||| (if s.xWindowType = AWS_IOT_LARGE_OBJECT_WINDOW_ODD then 0x04 else 0)
              ∧ s.xOffset + _BLOCK_NUMBER f * s.usBlockSize < s.xObjectLength
              ∧ _FLAGS f &&& _RESERVED_BITS_MASK = _RESERVED_BITS_MASK
              ∧ _FLAGS f &&& _RESUME_SESSION_MASK = 0
              ∧ (_FLAGS f &&& _ODD_WINDOW_MASK = _ODD_WINDOW_MASK
                  ↔ s.xWindowType = AWS_IOT_LARGE_OBJECT_WINDOW_ODD)) := by
  refine ⟨by decide, by decide, by decide, by decide, by decide, by decide, by decide,
    by decide, by decide, ?_⟩
  intro p s w hobj hws hlen
  obtain ⟨fs, h1, h2⟩ := prxSendWindow_flags p s w hobj hws hlen
  refine ⟨fs, h1, ?_⟩
  intro f hf
  obtain ⟨g1, g2⟩ := h2 f hf
  have hb := expectedFlags_bits s (_BLOCK_NUMBER f)
  rw [← g1] at hb
  exact ⟨g1, g2, hb⟩

set_option maxRecDepth 100000 in
/-- C26, evaluated on the scenario receive session (window size 4) that has received blocks
0, 1 and 3 of its window, so that only block 2 is missing and the first bitmap byte is
`0xF4`: no expiry of the ACK timer reports that bitmap. The timer is not running after the
three blocks, and no block ingest ever starts it. It was created with the ID
`( &pxSession )`, not with `( pxSession )` as the retransmit timer, so that an expiry runs
the callback on what the dead parameter's memory holds: with no usable record there, no
ACK is sent; with a zeroed record there, the ACK is `[0, 0, 0]`, session id 0 and no bitmap
byte. Whatever is there, the outcome is the same for every session: the session's id and
bitmap are not read. -/
theorem delayed_ack_reads_dead_parameter :
    ((feed idealPlatform [fullBlock 0 1, fullBlock 1 1, fullBlock 3 1]
        (scenarioReceiving, World.empty)).1.usSessionID,
      (feed idealPlatform [fullBlock 0 1, fullBlock 1 1, fullBlock 3 1]
        (scenarioReceiving, World.empty)).1.usWindowSize,
      (feed idealPlatform [fullBlock 0 1, fullBlock 1 1, fullBlock 3 1]
        (scenarioReceiving, World.empty)).1.ucBlockBitMap,
      (feed idealPlatform [fullBlock 0 1, fullBlock 1 1, fullBlock 3 1]
        (scenarioReceiving, World.empty)).1.xAckTimer)
        = (1, 4, [0xF4, 0xFF, 0xFF, 0xFF], false)
    ∧ (feed idealPlatform [fullBlock 0 1, fullBlock 1 1, fullBlock 3 1]
        (scenarioReceiving, World.empty)).2.sent = []
    ∧ ackTimerID = TimerID.initParameter
    ∧ retransmitTimerID = TimerID.sessionRecord
    ∧ ackTimerExpiry idealPlatform
        (feed idealPlatform [fullBlock 0 1, fullBlock 1 1, fullBlock 3 1]
          (scenarioReceiving, World.empty)).1 none World.empty = none
    ∧ (ackTimerExpiry idealPlatform
        (feed idealPlatform [fullBlock 0 1, fullBlock 1 1, fullBlock 3 1]
          (scenarioReceiving, World.empty)).1 (some zeroedReceiveSession) World.empty).map
        World.sent = some [[0, 0, 0]]
    ∧ (∀ (p : Platform) (s t : AwsIotLargeObjectReceiveSession)
        (stale : Option AwsIotLargeObjectReceiveSession) (w : World),
        ackTimerExpiry p s stale w = ackTimerExpiry p t stale w)
    ∧ (∀ (p : Platform) (s : AwsIotLargeObjectReceiveSession) (pucData : List Nat)
        (xLength : Nat) (w : World),
        (prvProcessBlock p s pucData xLength w).1.xAckTimer = true → s.xAckTimer = true) := by
  refine ⟨by decide, by decide, rfl, rfl, rfl, by decide, ?_, ?_⟩
  · intro p s t stale w
    rfl
  · intro p s pucData xLength w
    exact (prvProcessBlock_offset p s pucData xLength w).2

theorem sendLoop_split (p : Platform) (usSessionID : Nat) (pkt : List Nat) (len : Nat)
    (t : AwsIotLargeObjectSendSession) (post : List AwsIotLargeObjectSendSession)
    (hid : t.usSessionID = usSessionID) :
    ∀ (pre : List AwsIotLargeObjectSendSession) (w : World),
      (∀ s ∈ pre, s.usSessionID ≠ usSessionID) →
      prvNetworkReceiveCallback.sendLoop p usSessionID pkt len (pre ++ t :: post) w
        = some (if t.xState = eAwsIotLargeObjectTransferOpen then
            (pre ++ (prvProcessACK p t pkt len w).1 :: post, (prvProcessACK p t pkt len w).2)
          else
            (pre ++ t :: post, (prxSendACK p usSessionID
              AWS_IOT_LARGE_OBJECT_TRANSFER_SESSION_ABORTED [] 0 w).2)) := by
  intro pre
  induction pre with
  | nil =>
    intro w _
    simp only [List.nil_append]
    unfold prvNetworkReceiveCallback.sendLoop
    rw [if_pos hid]
    split_ifs <;> rfl
  | cons s rest ih =>
    intro w h
    have hs : s.usSessionID ≠ usSessionID := h s (List.mem_cons_self _ _)
    have hr : ∀ x ∈ rest, x.usSessionID ≠ usSessionID :=
      fun x hx => h x (List.mem_cons_of_mem _ hx)
    simp only [List.cons_append]
    unfold prvNetworkReceiveCallback.sendLoop
    rw [if_neg hs, ih w hr]
    split_ifs <;> rfl

theorem split_at_first (usSessionID : Nat) :
    ∀ l : List AwsIotLargeObjectSendSession,
      (∃ s ∈ l, s.usSessionID = usSessionID) →
      ∃ pre t post, l = pre ++ t :: post
        ∧ (∀ s ∈ pre, s.usSessionID ≠ usSessionID) ∧ t.usSessionID = usSessionID
        ∧ l.find? (fun s => decide (s.usSessionID = usSessionID)) = some t := by
  intro l
  induction l with
  | nil => intro ⟨s, hs, _⟩; simp at hs
  | cons a rest ih =>
    intro ⟨s, hs, hid⟩
    by_cases ha : a.usSessionID = usSessionID
    · exact ⟨[], a, rest, rfl, by simp, ha, by simp [List.find?, ha]⟩
    · have hsr : s ∈ rest := by
        rcases List.mem_cons.mp hs with e | e
        · exact absurd (e ▸ hid) ha
        · exact e
      obtain ⟨pre, t, post, e, h1, h2, h3⟩ := ih ⟨s, hsr, hid⟩
      refine ⟨a :: pre, t, post, by rw [e]; rfl, ?_, h2, by simp [List.find?, ha, h3]⟩
      intro x hx
      rcases List.mem_cons.mp hx with e | e
      · rw [e]; exact ha
      · exact h1 x e

/-- C30 (amended): the dispatcher identifies a session by its id alone and searches the send
table first. For every context in which a send session holds the id of an inbound packet
(a DATA frame or not, of any length), the send table splits at the first such session `t`,
the one `firstSendSession` names. If `t` is Open, the packet is processed as an ACK of `t`
by `prvProcessACK` and only `t` is replaced; otherwise one `SessionAborted` ACK for the id is
handed to the network and the context is unchanged. In both cases the receive sessions are
unchanged and the receive callback is not invoked. -/
theorem same_id_packet_goes_to_send_session (p : Platform)
    (ctx : AwsIotLargeObjectTransferContext) (pkt : List Nat) (len : Nat) (w : World)
    (h : ∃ s ∈ ctx.pxSendSessions, s.usSessionID = _SESSION_ID pkt) :
    (∃ pre t post, ctx.pxSendSessions = pre ++ t :: post
      ∧ (∀ s ∈ pre, s.usSessionID ≠ _SESSION_ID pkt)
      ∧ t.usSessionID = _SESSION_ID pkt
      ∧ firstSendSession ctx (_SESSION_ID pkt) = some t
      ∧ (t.xState = eAwsIotLargeObjectTransferOpen →
          prvNetworkReceiveCallback p ctx pkt len w
            = ({ ctx with
                  pxSendSessions := pre ++ (prvProcessACK p t pkt len w).1 :: post },
                (prvProcessACK p t pkt len w).2))
      ∧ (t.xState ≠ eAwsIotLargeObjectTransferOpen →
          prvNetworkReceiveCallback p ctx pkt len w
            = (ctx, (prxSendACK p (_SESSION_ID pkt)
                AWS_IOT_LARGE_OBJECT_TRANSFER_SESSION_ABORTED [] 0 w).2)))
    ∧ (prvNetworkReceiveCallback p ctx pkt len w).1.pxRecvSessions = ctx.pxRecvSessions
    ∧ (prvNetworkReceiveCallback p ctx pkt len w).2.received = w.received := by
  obtain ⟨pre, t, post, e, h1, h2, h3⟩ := split_at_first (_SESSION_ID pkt) _ h
  have hl := sendLoop_split p (_SESSION_ID pkt) pkt len t post h2 pre w h1
  rw [← e] at hl
  have hres : prvNetworkReceiveCallback p ctx pkt len w
      = if t.xState = eAwsIotLargeObjectTransferOpen then
          ({ ctx with
              pxSendSessions := pre ++ (prvProcessACK p t pkt len w).1 :: post },
            (prvProcessACK p t pkt len w).2)
        else
          (ctx, (prxSendACK p (_SESSION_ID pkt)
            AWS_IOT_LARGE_OBJECT_TRANSFER_SESSION_ABORTED [] 0 w).2) := by
    unfold prvNetworkReceiveCallback
    simp only [hl]
    by_cases ho : t.xState = eAwsIotLargeObjectTransferOpen
    · simp only [if_pos ho]
    · simp only [if_neg ho, ← e]
  refine ⟨⟨pre, t, post, e, h1, h2, h3, ?_, ?_⟩, ?_, ?_⟩
  · intro ho; rw [hres, if_pos ho]
  · intro ho; rw [hres, if_neg ho]
  · rw [hres]; split_ifs <;> rfl
  · rw [hres]
    split_ifs
    · exact (prvProcessACK_logs p t pkt len w).1
    · exact prxSendACK_received _ _ _ _ _ _

set_option maxRecDepth 100000 in
/-- The theorem `same_id_packet_goes_to_send_session` applied to the scenario context whose
send session is Open with id 1, and the 23-byte DATA frame of block 0 of a peer's transfer
with id 1. -/
theorem same_id_packet_goes_to_send_session_witness :
    (∃ s ∈ busyContext.pxSendSessions, s.usSessionID = _SESSION_ID (fullBlock 0 7))
    ∧ ((∃ pre t post, busyContext.pxSendSessions = pre ++ t :: post
      ∧ (∀ s ∈ pre, s.usSessionID ≠ _SESSION_ID (fullBlock 0 7))
      ∧ t.usSessionID = _SESSION_ID (fullBlock 0 7)
      ∧ firstSendSession busyContext (_SESSION_ID (fullBlock 0 7)) = some t
      ∧ (t.xState = eAwsIotLargeObjectTransferOpen →
          prvNetworkReceiveCallback idealPlatform busyContext (fullBlock 0 7) 23 World.empty
            = ({ busyContext with
                  pxSendSessions :=
                    pre ++ (prvProcessACK idealPlatform t (fullBlock 0 7) 23
                      World.empty).1 :: post },
                (prvProcessACK idealPlatform t (fullBlock 0 7) 23 World.empty).2))
      ∧ (t.xState ≠ eAwsIotLargeObjectTransferOpen →
          prvNetworkReceiveCallback idealPlatform busyContext (fullBlock 0 7) 23 World.empty
            = (busyContext, (prxSendACK idealPlatform (_SESSION_ID (fullBlock 0 7))
                AWS_IOT_LARGE_OBJECT_TRANSFER_SESSION_ABORTED [] 0 World.empty).2)))
    ∧ (prvNetworkReceiveCallback idealPlatform busyContext (fullBlock 0 7) 23
        World.empty).1.pxRecvSessions = busyContext.pxRecvSessions
    ∧ (prvNetworkReceiveCallback idealPlatform busyContext (fullBlock 0 7) 23
        World.empty).2.received = World.empty.received) :=
  ⟨by decide,
    same_id_packet_goes_to_send_session idealPlatform busyContext (fullBlock 0 7) 23
      World.empty (by decide)⟩

end LOT
